import Mathlib

/-!
# The copy-function registry of package `funcs`

A shallow embedding of `funcs/funcs.go`: the registry `CopyFuncs` (a map from
type pairs to copy functions plus the table of fixed-size memory copies), its
methods `Get` and `Set`, and the memory copies `copy1` .. `copy255`.

Conventions of the embedding.

* `reflect.Type` is modelled by `RType`, a descriptor carrying what the package
  reads from it: identity (`==`), `Kind()`, `Size()` and `Elem()`.  `Elem()`
  panics in Go for a kind without element type, so it returns `Except`.
* A Go function value `func(dst, src unsafe.Pointer)` may be `nil`: it is an
  `Option F`, where `F` is the type of non-nil function values.  `Get` and `Set`
  never call a function value, so the registry is generic in `F`.
* The `sync.RWMutex` is left out: the model is sequential.
* The registry's map is an allocated map, as in the package variable `funcs`.
* The 460 functions registered at start-up are instances of four templates
  (`copyVV`, `copyPV`, `copyVP`, `copyPP`) over 115 pairs of leaf types; they
  run on a store of typed variables and fault on an ill-typed access.  `int`
  and `uint` are 64 bits wide.  The conversions between `float32` and
  `float64` are parameters.
* A `[]byte` variable is held by its content on that store; the two functions
  that store the address of a copied `[]byte` are modelled also on a store of
  slice headers and backing arrays, where sharing is visible.
* The package variable `funcs` is the registry `funcs fc`; the package
  functions `Get` and `Set` are steps on the content of that variable.
-/

namespace funcs

/-! ## Type descriptors (`reflect.Type`) -/

/-- Kinds of types, as enumerated by `reflect.Kind`. -/
inductive Kind where
  | Invalid | Bool
  | Int | Int8 | Int16 | Int32 | Int64
  | Uint | Uint8 | Uint16 | Uint32 | Uint64 | Uintptr
  | Float32 | Float64 | Complex64 | Complex128
  | Array | Chan | Func | Interface | Map | Ptr | Slice
  | String | Struct | UnsafePointer
  deriving DecidableEq, Repr

/-- Kinds of the types that have no element type (`Elem()` panics on them). -/
inductive PlainKind where
  | Bool
  | Int | Int8 | Int16 | Int32 | Int64
  | Uint | Uint8 | Uint16 | Uint32 | Uint64 | Uintptr
  | Float32 | Float64 | Complex64 | Complex128
  | Func | Interface | String | Struct | UnsafePointer
  deriving DecidableEq, Repr

/-- Embedding of the plain kinds into `reflect.Kind`. -/
def PlainKind.toKind : PlainKind → Kind
  | .Bool => .Bool
  | .Int => .Int | .Int8 => .Int8 | .Int16 => .Int16 | .Int32 => .Int32 | .Int64 => .Int64
  | .Uint => .Uint | .Uint8 => .Uint8 | .Uint16 => .Uint16 | .Uint32 => .Uint32
  | .Uint64 => .Uint64 | .Uintptr => .Uintptr
  | .Float32 => .Float32 | .Float64 => .Float64
  | .Complex64 => .Complex64 | .Complex128 => .Complex128
  | .Func => .Func | .Interface => .Interface | .String => .String
  | .Struct => .Struct | .UnsafePointer => .UnsafePointer

/-- Direction of a channel type (`reflect.ChanDir`). -/
inductive ChanDir where
  | RecvDir | SendDir | BothDir
  deriving DecidableEq, Repr

/-- Runtime type descriptor.  `name` is the qualified name of a defined type
(for a plain type without a name, the text of its type literal) and is empty
for a composite type literal; `size` is what `Size()` reports.  Two descriptors
are equal exactly when all their components are, which is Go type identity. -/
inductive RType where
  | plain (name : String) (kind : PlainKind) (size : Nat)
  | array (name : String) (size : Nat) (len : Nat) (elem : RType)
  | chan (name : String) (size : Nat) (dir : ChanDir) (elem : RType)
  | map (name : String) (size : Nat) (key : RType) (elem : RType)
  | ptr (name : String) (size : Nat) (elem : RType)
  | slice (name : String) (size : Nat) (elem : RType)
  deriving DecidableEq, Repr

/-- Run-time panics the modelled code could raise. -/
inductive Panic where
  | elemOfPlainType
  | indexOutOfRange
  deriving DecidableEq, Repr

/-- Method `Kind()` of `reflect.Type`. -/
def RType.Kind : RType → funcs.Kind
  | .plain _ k _ => k.toKind
  | .array _ _ _ _ => .Array
  | .chan _ _ _ _ => .Chan
  | .map _ _ _ _ => .Map
  | .ptr _ _ _ => .Ptr
  | .slice _ _ _ => .Slice

/-- Method `Size()` of `reflect.Type`. -/
def RType.Size : RType → Nat
  | .plain _ _ s => s
  | .array _ s _ _ => s
  | .chan _ s _ _ => s
  | .map _ s _ _ => s
  | .ptr _ s _ => s
  | .slice _ s _ => s

/-- Method `Elem()` of `reflect.Type`: the element type of an array, chan, map,
pointer or slice type; a panic for every other type. -/
def RType.Elem : RType → Except Panic RType
  | .plain _ _ _ => .error .elemOfPlainType
  | .array _ _ _ e => .ok e
  | .chan _ _ _ e => .ok e
  | .map _ _ _ e => .ok e
  | .ptr _ _ e => .ok e
  | .slice _ _ e => .ok e

/-- Method `Key()` of `reflect.Type`, defined for map types only.  The package
never calls it. -/
def RType.Key : RType → Option RType
  | .map _ _ k _ => some k
  | _ => none

/-! ## The registry -/

/-- Key of the registry map: `type funcKey struct { Src, Dest reflect.Type }`. -/
structure funcKey where
  Src : RType
  Dest : RType
  deriving DecidableEq, Repr

/-- Index expression `m[k]` on a Go map whose values are function values: the
stored value, or the zero value `nil` when the key is not in the map. -/
def mapIndex {F : Type} (m : List (funcKey × Option F)) (k : funcKey) : Option F :=
  match m.lookup k with
  | some f => f
  | none => none

/-- Assignment `m[k] = v` on a Go map: the value of an existing key is replaced,
a new key is added. -/
def mapAssign {F : Type} : List (funcKey × Option F) → funcKey → Option F →
    List (funcKey × Option F)
  | [], k, v => [(k, v)]
  | (k', v') :: rest, k, v =>
    if k' = k then (k', v) :: rest else (k', v') :: mapAssign rest k v

/-- Storage of the copy functions: `type CopyFuncs struct { mu; funcs; sizes }`.
`funcs` is the map content as a list of entries, `sizes` the slice of
fixed-size copies. -/
structure CopyFuncs (F : Type) where
  funcs : List (funcKey × Option F)
  sizes : List (Option F)

/-- Method `(*CopyFuncs).Get`: the copy function for the pair of types, `nil`
(here `none`) when there is none. -/
def CopyFuncs.Get {F : Type} (t : CopyFuncs F) (dst src : RType) :
    Except Panic (Option F) :=
  let f := mapIndex t.funcs { Src := src, Dest := dst }
  if f.isSome then
    .ok f
  else if dst.Kind ≠ src.Kind then
    .ok none
  else if dst.Kind = Kind.String then
    .ok none
  else do
    let same0 : Bool := decide (dst = src)
    let same : Bool ←
      match dst.Kind with
      | .Array | .Chan | .Map | .Ptr | .Slice =>
        if same0 then pure true
        else do
          let de ← dst.Elem
          let se ← src.Elem
          pure (decide (de = se))
      | _ => pure same0
    if same ∧ dst.Size = src.Size ∧ src.Size > 0 ∧ src.Size ≤ t.sizes.length then
      match t.sizes[src.Size - 1]? with
      | some g => .ok g
      | none => .error .indexOutOfRange
    else
      .ok none

/-- Method `(*CopyFuncs).Set`: stores `f` under the key of the pair. -/
def CopyFuncs.Set {F : Type} (t : CopyFuncs F) (dst src : RType) (f : Option F) :
    CopyFuncs F :=
  { t with funcs := mapAssign t.funcs { Src := src, Dest := dst } f }

/-! ## Memory and the fixed-size copies -/

/-- An address (`unsafe.Pointer` as a number). -/
abbrev Addr := Nat

/-- Byte-addressed memory. -/
abbrev Mem := Addr → Fin 256

/-- Reads the `[n]byte` array stored at `p`. -/
def loadBytes (m : Mem) (p : Addr) (n : Nat) : List (Fin 256) :=
  (List.range n).map (fun i => m (p + i))

/-- Writes the byte array `bs` at `p`. -/
def storeBytes (m : Mem) (p : Addr) (bs : List (Fin 256)) : Mem :=
  fun a => if p ≤ a ∧ a < p + bs.length then bs.getD (a - p) (m a) else m a

/-- A non-nil function value of type `func(dst, src unsafe.Pointer)`, as its
effect on memory. -/
abbrev CopyFunc := Addr → Addr → Mem → Mem

/-- The functions `copy1` .. `copy255`: `copyN n` is the function whose body is
`*(*[n]byte)(unsafe.Pointer(dst)) = *(*[n]byte)(unsafe.Pointer(src))`. -/
def copyN (n : Nat) : CopyFunc :=
  fun dst src m => storeBytes m dst (loadBytes m src n)

/-- The `sizes` table of the package variable `funcs`:
`copy1, copy2, ..., copy255` in this order. -/
def sizes : List (Option CopyFunc) :=
  (List.range' 1 255).map (fun n => some (copyN n))

/-! ## Example inputs -/

/-- Example descriptor: `int` on a 64-bit platform. -/
def exInt : RType := .plain "int" .Int 8

/-- Example descriptor: `int64`. -/
def exInt64 : RType := .plain "int64" .Int64 8

/-- Example descriptor: a defined type `type MyInt int64`. -/
def exMyInt : RType := .plain "main.MyInt" .Int64 8

/-- Example descriptor: `string`. -/
def exString : RType := .plain "string" .String 16

/-- Example descriptor: a defined type `type Name string`. -/
def exName : RType := .plain "main.Name" .String 16

/-- Example descriptor: `uint8`. -/
def exByte : RType := .plain "uint8" .Uint8 1

/-- Example descriptor: a defined type `type A [16]byte`. -/
def exArrA : RType := .array "main.A" 16 16 exByte

/-- Example descriptor: a defined type `type B [16]byte`. -/
def exArrB : RType := .array "main.B" 16 16 exByte

/-- Example descriptor: `map[string]int`. -/
def exMapStringInt : RType := .map "" 8 exString exInt

/-- Example descriptor: `map[int]int`. -/
def exMapIntInt : RType := .map "" 8 exInt exInt

/-- Example descriptor: a defined empty struct type `type Empty struct{}`. -/
def exEmptyStruct : RType := .plain "main.Empty" .Struct 0

/-- Example descriptor: a defined struct type of 256 bytes. -/
def exBig : RType := .plain "main.Big" .Struct 256

/-- Example descriptor: a defined struct type `type P struct { X, Y int64 }`. -/
def exStructP : RType := .plain "main.P" .Struct 16

/-- Example descriptor: a defined struct type `type Q struct { X, Y int64 }`. -/
def exStructQ : RType := .plain "main.Q" .Struct 16

/-- Example registry: no map entry, the package's `sizes` table. -/
def exEmpty : CopyFuncs CopyFunc := { funcs := [], sizes := sizes }

/-- Example registry: the pair (`int`, `int`) registered with `copy4`. -/
def exOne : CopyFuncs CopyFunc :=
  { funcs := [({ Src := exInt, Dest := exInt }, some (copyN 4))], sizes := sizes }

/-- Example memory: byte `a` holds `a mod 256`. -/
def exMem : Mem := fun a => ⟨a % 256, Nat.mod_lt a (by decide)⟩

/-! ## `Get` as a step on the registry state -/

/-- Method `(*CopyFuncs).Get` in state-passing form: the step takes the registry
before the call and returns the result of the call together with the registry
after it.  The body reads `t.funcs` and `t.sizes` and contains no assignment
to a field of `t`. -/
def CopyFuncs.GetStep {F : Type} (t : CopyFuncs F) (dst src : RType) :
    Except Panic (Option F × CopyFuncs F) :=
  let f := mapIndex t.funcs { Src := src, Dest := dst }
  if f.isSome then
    .ok (f, t)
  else if dst.Kind ≠ src.Kind then
    .ok (none, t)
  else if dst.Kind = Kind.String then
    .ok (none, t)
  else do
    let same0 : Bool := decide (dst = src)
    let same : Bool ←
      match dst.Kind with
      | .Array | .Chan | .Map | .Ptr | .Slice =>
        if same0 then pure true
        else do
          let de ← dst.Elem
          let se ← src.Elem
          pure (decide (de = se))
      | _ => pure same0
    if same ∧ dst.Size = src.Size ∧ src.Size > 0 ∧ src.Size ≤ t.sizes.length then
      match t.sizes[src.Size - 1]? with
      | some g => .ok (g, t)
      | none => .error .indexOutOfRange
    else
      .ok (none, t)

/-! ## Values of the leaf types

The 460 functions registered at start-up are the four indirection variants of
115 conversions `D(x)` between the leaf types below.  Integer types have the
widths of a 64-bit platform. -/

/-- The ten integer types of the baseline. -/
inductive IntType where
  | int | int8 | int16 | int32 | int64
  | uint | uint8 | uint16 | uint32 | uint64
  deriving DecidableEq, Repr

/-- Width in bits of an integer type. -/
def IntType.bits : IntType → Nat
  | .int => 64 | .int8 => 8 | .int16 => 16 | .int32 => 32 | .int64 => 64
  | .uint => 64 | .uint8 => 8 | .uint16 => 16 | .uint32 => 32 | .uint64 => 64

/-- Whether an integer type is signed. -/
def IntType.signed : IntType → Bool
  | .int | .int8 | .int16 | .int32 | .int64 => true
  | .uint | .uint8 | .uint16 | .uint32 | .uint64 => false

/-- Least value of an integer type. -/
def IntType.minVal (t : IntType) : Int :=
  if t.signed then -(2 ^ (t.bits - 1)) else 0

/-- Greatest value of an integer type. -/
def IntType.maxVal (t : IntType) : Int :=
  if t.signed then 2 ^ (t.bits - 1) - 1 else 2 ^ t.bits - 1

/-- Bit pattern (two's complement, as a number below `2 ^ bits`) that represents
the integer `x` in the type `t`; for an `x` outside the range of `t` these are
the low `bits` bits of `x`. -/
def IntType.pattern (t : IntType) (x : Int) : Nat :=
  (x % 2 ^ t.bits).toNat

/-- Value of the type `t` that the bit pattern `p` represents. -/
def IntType.ofPattern (t : IntType) (p : Nat) : Int :=
  if t.signed ∧ 2 ^ (t.bits - 1) ≤ p then (p : Int) - 2 ^ t.bits else p

/-- Conversion `D(x)` between integer types: the value is extended to infinite
precision by its sign (here: it is the integer `x`) and then truncated to the
size of the result type. -/
def convInt (d : IntType) (x : Int) : Int :=
  d.ofPattern (d.pattern x)

/-- The leaf types of the baseline: the ten integer types, `float32`, `float64`,
`complex64`, `complex128`, `bool`, `string`, `[]byte`, `time.Time` and
`time.Duration`. -/
inductive Leaf where
  | int (t : IntType)
  | float32 | float64 | complex64 | complex128
  | bool | string | bytes | time | duration
  deriving DecidableEq, Repr

/-- A value of a leaf type.  Floating-point numbers are their IEEE-754 bit
patterns; a string is its bytes; a `[]byte` is `nil` (`none`) or its elements
(content only: which backing array the slice points to, and its capacity, are
kept on the slice store below); a `time.Time` is its three fields `wall`,
`ext` and `loc`. -/
inductive Value where
  | int (t : IntType) (v : Int)
  | float32 (b : Nat)
  | float64 (b : Nat)
  | complex64 (re im : Nat)
  | complex128 (re im : Nat)
  | bool (b : Bool)
  | string (s : List (Fin 256))
  | bytes (b : Option (List (Fin 256)))
  | time (wall : Nat) (ext : Int) (loc : Option Nat)
  | duration (v : Int)
  deriving DecidableEq, Repr

/-- The leaf type of a value. -/
def Value.type : Value → Leaf
  | .int t _ => .int t
  | .float32 _ => .float32
  | .float64 _ => .float64
  | .complex64 _ _ => .complex64
  | .complex128 _ _ => .complex128
  | .bool _ => .bool
  | .string _ => .string
  | .bytes _ => .bytes
  | .time _ _ _ => .time
  | .duration _ => .duration

/-- The zero value of a leaf type (`var v D`). -/
def Leaf.zero : Leaf → Value
  | .int t => .int t 0
  | .float32 => .float32 0
  | .float64 => .float64 0
  | .complex64 => .complex64 0 0
  | .complex128 => .complex128 0 0
  | .bool => .bool false
  | .string => .string []
  | .bytes => .bytes none
  | .time => .time 0 0 none
  | .duration => .duration 0

/-- The two floating-point conversions of the language that change the format,
on bit patterns.  They are not part of the package and are taken as
parameters. -/
structure FloatConv where
  to32 : Nat → Nat
  to64 : Nat → Nat

/-- Conversion `D(x)` for the 115 type pairs of the baseline; `none` for every
other pair (the package has no function for it).  `string(b)` and `[]byte(s)`
copy the bytes; `[]byte(b)` of a `[]byte` is `b` itself, here the same content
(that the result also points to the same backing array is kept on the slice
store, see `copyBytesToPBytes`). -/
def convert (fc : FloatConv) : Leaf → Value → Option Value
  | .int d, .int _ v => some (.int d (convInt d v))
  | .float32, .float32 b => some (.float32 b)
  | .float32, .float64 b => some (.float32 (fc.to32 b))
  | .float64, .float32 b => some (.float64 (fc.to64 b))
  | .float64, .float64 b => some (.float64 b)
  | .complex64, .complex64 re im => some (.complex64 re im)
  | .complex64, .complex128 re im => some (.complex64 (fc.to32 re) (fc.to32 im))
  | .complex128, .complex64 re im => some (.complex128 (fc.to64 re) (fc.to64 im))
  | .complex128, .complex128 re im => some (.complex128 re im)
  | .bool, .bool b => some (.bool b)
  | .string, .string s => some (.string s)
  | .string, .bytes b => some (.string (b.getD []))
  | .bytes, .string s => some (.bytes (some s))
  | .bytes, .bytes b => some (.bytes b)
  | .time, .time w e l => some (.time w e l)
  | .duration, .duration v => some (.duration v)
  | _, _ => none

/-- The 115 ordered type pairs `(D, S)` for which the package has the functions
`copy<S>To<D>`, `copyP<S>To<D>`, `copy<S>ToP<D>` and `copyP<S>ToP<D>`. -/
def Leaf.convertible : Leaf → Leaf → Bool
  | .int _, .int _ => true
  | .float32, .float32 | .float32, .float64 | .float64, .float32 | .float64, .float64 => true
  | .complex64, .complex64 | .complex64, .complex128 => true
  | .complex128, .complex64 | .complex128, .complex128 => true
  | .bool, .bool => true
  | .string, .string | .string, .bytes | .bytes, .string | .bytes, .bytes => true
  | .time, .time => true
  | .duration, .duration => true
  | _, _ => false

/-! ## Typed storage and the four function templates

The baseline functions access memory through typed pointers
(`*(*int32)(unsafe.Pointer(dst))`, `*(**int64)(unsafe.Pointer(src))`).  They are
modelled on a store of variables: every address holds one variable, which is a
value of a leaf type or a pointer.  An access that does not find a variable of
the type of the pointer (undefined behaviour in Go) is a fault.  A local
variable of a function is a Lean value; it gets an address in the store where
its address is taken (`&v`). -/

/-- A variable of the store: a value of a leaf type, or a pointer (`nil` is
`none`). -/
inductive Cell where
  | val (v : Value)
  | ptr (p : Option Addr)
  deriving DecidableEq, Repr

/-- The store: the variable at address `a` is the element of index `a`; the
addresses from the length of the list on are free. -/
abbrev Store := List Cell

/-- Faults of an access to the store. -/
inductive Fault where
  | invalidAccess
  | noConversion
  deriving DecidableEq, Repr

/-- Read `*(*T)(a)` of a variable of the leaf type `T`. -/
def loadVal (m : Store) (a : Addr) (T : Leaf) : Except Fault Value :=
  match m[a]? with
  | some (.val v) => if v.type = T then .ok v else .error .invalidAccess
  | _ => .error .invalidAccess

/-- Write `*(*T)(a) = v` to a variable of the leaf type `T`. -/
def storeVal (m : Store) (a : Addr) (T : Leaf) (v : Value) : Except Fault Store :=
  match m[a]? with
  | some (.val old) => if old.type = T then .ok (m.set a (.val v)) else .error .invalidAccess
  | _ => .error .invalidAccess

/-- Read `*(**T)(a)` of a pointer variable. -/
def loadPtr (m : Store) (a : Addr) : Except Fault (Option Addr) :=
  match m[a]? with
  | some (.ptr p) => .ok p
  | _ => .error .invalidAccess

/-- Write `*(**T)(a) = p` to a pointer variable. -/
def storePtr (m : Store) (a : Addr) (p : Option Addr) : Except Fault Store :=
  match m[a]? with
  | some (.ptr _) => .ok (m.set a (.ptr p))
  | _ => .error .invalidAccess

/-- Address-of `&v` of a local variable holding `v`: the variable is placed at
the first free address. -/
def addressOf (m : Store) (v : Value) : Addr × Store :=
  (m.length, m ++ [.val v])

/-- Conversion `D(x)` inside a function body; a pair without conversion has no
function in the package. -/
def conv (fc : FloatConv) (D : Leaf) (x : Value) : Except Fault Value :=
  match convert fc D x with
  | some v => .ok v
  | none => .error .noConversion

/-- A baseline function value `func(dst, src unsafe.Pointer)` as its effect on
the store. -/
abbrev BaseFunc := Addr → Addr → Store → Except Fault Store

/-- The functions `copy<S>To<D>` (value to value):
`*(*D)(dst) = D(*(*S)(src))`. -/
def copyVV (fc : FloatConv) (D S : Leaf) : BaseFunc :=
  fun dst src m => do
    let x ← loadVal m src S
    let v ← conv fc D x
    storeVal m dst D v

/-- The functions `copyP<S>To<D>` (pointer to value):
`var v D; if p := *(**S)(src); p != nil { v = D(*p) }; *(*D)(dst) = v`. -/
def copyPV (fc : FloatConv) (D S : Leaf) : BaseFunc :=
  fun dst src m => do
    let v0 : Value := D.zero
    let p ← loadPtr m src
    let v ←
      match p with
      | some a => do
        let x ← loadVal m a S
        conv fc D x
      | none => pure v0
    storeVal m dst D v

/-- The functions `copy<S>ToP<D>` (value to pointer):
`v := D(*(*S)(src)); p := (**D)(dst); if p := *p; p != nil { *p = v; return };
*p = &v`. -/
def copyVP (fc : FloatConv) (D S : Leaf) : BaseFunc :=
  fun dst src m => do
    let x ← loadVal m src S
    let v ← conv fc D x
    let q ← loadPtr m dst
    match q with
    | some a => storeVal m a D v
    | none =>
      let (a, m1) := addressOf m v
      storePtr m1 dst (some a)

/-- The functions `copyP<S>ToP<D>` (pointer to pointer):
`var v D; if p := *(**S)(src); p != nil { v = D(*p) }; p := (**D)(dst);
if p := *p; p != nil { *p = v; return }; *p = &v`. -/
def copyPP (fc : FloatConv) (D S : Leaf) : BaseFunc :=
  fun dst src m => do
    let v0 : Value := D.zero
    let p ← loadPtr m src
    let v ←
      match p with
      | some a => do
        let x ← loadVal m a S
        conv fc D x
      | none => pure v0
    let q ← loadPtr m dst
    match q with
    | some a => storeVal m a D v
    | none =>
      let (a, m1) := addressOf m v
      storePtr m1 dst (some a)

/-! ## The pointer-to-pointer rule as worded in the specification -/

/-- Specification, section 4.3, "resolve the source": the zero value of `D` when
the pointer stored at `src` is null, otherwise the pointee converted to `D`. -/
def specResolveSource (fc : FloatConv) (D S : Leaf) (src : Addr) (m : Store) :
    Except Fault Value :=
  match m[src]? with
  | some (.ptr none) => .ok D.zero
  | some (.ptr (some p)) =>
    match loadVal m p S with
    | .ok x => conv fc D x
    | .error e => .error e
  | _ => .error .invalidAccess

/-- Specification, section 4.3, the value-to-pointer write rule: when the
pointer stored at `dst` is non-null the pointee is overwritten in place;
when it is null, fresh storage is allocated, initialised with the value, and
the new pointer is stored at `dst`. -/
def specWriteRule (D : Leaf) (dst : Addr) (v : Value) (m : Store) : Except Fault Store :=
  match m[dst]? with
  | some (.ptr (some q)) => storeVal m q D v
  | some (.ptr none) => .ok ((m ++ [Cell.val v]).set dst (Cell.ptr (some m.length)))
  | _ => .error .invalidAccess

/-! ## Example stores -/

/-- Example instance of the floating-point parameters (the examples hold no
floating-point value). -/
def exFloatConv : FloatConv := { to32 := fun b => b % 2 ^ 32, to64 := fun b => b }

/-- Example store: an `int64` holding 2147483648 at 0, an `int32` holding 5 at
1, a null pointer at 2, a pointer to the variable 0 at 3 and a pointer to the
variable 1 at 4. -/
def exStore : Store :=
  [.val (.int .int64 2147483648), .val (.int .int32 5), .ptr none, .ptr (some 0),
   .ptr (some 1)]

/-- Example store: an `int8` holding -1 at 0, a `uint8` holding 255 at 1, a
`uint64` at 2 and an `int64` at 3. -/
def exStoreWiden : Store :=
  [.val (.int .int8 (-1)), .val (.int .uint8 255), .val (.int .uint64 0), .val (.int .int64 0)]

/-- Example store: an `int` holding 7 at 0, an `int` holding 3 at 1, and at 2 a
pointer to the variable 1. -/
def exStorePtr : Store :=
  [.val (.int .int 7), .val (.int .int 3), .ptr (some 1)]

/-- Example registry: `int` from `int` registered with `copy4` and `int64` from
`int64` registered with `copy2`. -/
def exTwo : CopyFuncs CopyFunc :=
  { funcs := [({ Src := exInt, Dest := exInt }, some (copyN 4)),
      ({ Src := exInt64, Dest := exInt64 }, some (copyN 2))], sizes := sizes }

/-- Example registry: the entries of `exTwo` in the other order. -/
def exTwoSwapped : CopyFuncs CopyFunc :=
  { funcs := [({ Src := exInt64, Dest := exInt64 }, some (copyN 2)),
      ({ Src := exInt, Dest := exInt }, some (copyN 4))], sizes := sizes }

/-! ## The package variable `funcs` -/

/-- A non-nil function value held by the package's registry: one of the 460
baseline functions (acting on the typed store) or one of the fixed-size
copies (acting on bytes). -/
inductive Func where
  | base (f : BaseFunc)
  | raw (f : CopyFunc)

/-- Function `typeOf` applied to a value of a leaf type: `reflect.TypeOf(v)`,
with the sizes of a 64-bit platform. -/
def typeOf : Leaf → RType
  | .int .int => .plain "int" .Int 8
  | .int .int8 => .plain "int8" .Int8 1
  | .int .int16 => .plain "int16" .Int16 2
  | .int .int32 => .plain "int32" .Int32 4
  | .int .int64 => .plain "int64" .Int64 8
  | .int .uint => .plain "uint" .Uint 8
  | .int .uint8 => .plain "uint8" .Uint8 1
  | .int .uint16 => .plain "uint16" .Uint16 2
  | .int .uint32 => .plain "uint32" .Uint32 4
  | .int .uint64 => .plain "uint64" .Uint64 8
  | .float32 => .plain "float32" .Float32 4
  | .float64 => .plain "float64" .Float64 8
  | .complex64 => .plain "complex64" .Complex64 8
  | .complex128 => .plain "complex128" .Complex128 16
  | .bool => .plain "bool" .Bool 1
  | .string => .plain "string" .String 16
  | .bytes => .slice "" 24 (.plain "uint8" .Uint8 1)
  | .time => .plain "time.Time" .Struct 24
  | .duration => .plain "time.Duration" .Int64 8

/-- Function `typeOfPointer` applied to a value of a leaf type:
`reflect.PtrTo(reflect.TypeOf(v))`. -/
def typeOfPointer (T : Leaf) : RType :=
  .ptr "" 8 (typeOf T)

/-- The package variable `funcs`: the map literal of 460 entries, in the order
of the source, and the table `sizes` of the fixed-size copies.  Each entry is
followed by the name of the function it holds, given here by the template and
the types of the body of that function.  The literal is written as the
concatenation of its blocks by destination type. -/
def funcs (fc : FloatConv) : CopyFuncs Func where
  funcs := [
    -- int to int
    ({ Src := typeOf (.int .int), Dest := typeOf (.int .int) },
      some (Func.base (copyVV fc (.int .int) (.int .int)))),  -- copyIntToInt
    ({ Src := typeOfPointer (.int .int), Dest := typeOf (.int .int) },
      some (Func.base (copyPV fc (.int .int) (.int .int)))),  -- copyPIntToInt
    ({ Src := typeOf (.int .int), Dest := typeOfPointer (.int .int) },
      some (Func.base (copyVP fc (.int .int) (.int .int)))),  -- copyIntToPInt
    ({ Src := typeOfPointer (.int .int), Dest := typeOfPointer (.int .int) },
      some (Func.base (copyPP fc (.int .int) (.int .int)))),  -- copyPIntToPInt
    -- int8 to int
    ({ Src := typeOf (.int .int8), Dest := typeOf (.int .int) },
      some (Func.base (copyVV fc (.int .int) (.int .int8)))),  -- copyInt8ToInt
    ({ Src := typeOfPointer (.int .int8), Dest := typeOf (.int .int) },
      some (Func.base (copyPV fc (.int .int) (.int .int8)))),  -- copyPInt8ToInt
    ({ Src := typeOf (.int .int8), Dest := typeOfPointer (.int .int) },
      some (Func.base (copyVP fc (.int .int) (.int .int8)))),  -- copyInt8ToPInt
    ({ Src := typeOfPointer (.int .int8), Dest := typeOfPointer (.int .int) },
      some (Func.base (copyPP fc (.int .int) (.int .int8)))),  -- copyPInt8ToPInt
    -- int16 to int
    ({ Src := typeOf (.int .int16), Dest := typeOf (.int .int) },
      some (Func.base (copyVV fc (.int .int) (.int .int16)))),  -- copyInt16ToInt
    ({ Src := typeOfPointer (.int .int16), Dest := typeOf (.int .int) },
      some (Func.base (copyPV fc (.int .int) (.int .int16)))),  -- copyPInt16ToInt
    ({ Src := typeOf (.int .int16), Dest := typeOfPointer (.int .int) },
      some (Func.base (copyVP fc (.int .int) (.int .int16)))),  -- copyInt16ToPInt
    ({ Src := typeOfPointer (.int .int16), Dest := typeOfPointer (.int .int) },
      some (Func.base (copyPP fc (.int .int) (.int .int16)))),  -- copyPInt16ToPInt
    -- int32 to int
    ({ Src := typeOf (.int .int32), Dest := typeOf (.int .int) },
      some (Func.base (copyVV fc (.int .int) (.int .int32)))),  -- copyInt32ToInt
    ({ Src := typeOfPointer (.int .int32), Dest := typeOf (.int .int) },
      some (Func.base (copyPV fc (.int .int) (.int .int32)))),  -- copyPInt32ToInt
    ({ Src := typeOf (.int .int32), Dest := typeOfPointer (.int .int) },
      some (Func.base (copyVP fc (.int .int) (.int .int32)))),  -- copyInt32ToPInt
    ({ Src := typeOfPointer (.int .int32), Dest := typeOfPointer (.int .int) },
      some (Func.base (copyPP fc (.int .int) (.int .int32)))),  -- copyPInt32ToPInt
    -- int64 to int
    ({ Src := typeOf (.int .int64), Dest := typeOf (.int .int) },
      some (Func.base (copyVV fc (.int .int) (.int .int64)))),  -- copyInt64ToInt
    ({ Src := typeOfPointer (.int .int64), Dest := typeOf (.int .int) },
      some (Func.base (copyPV fc (.int .int) (.int .int64)))),  -- copyPInt64ToInt
    ({ Src := typeOf (.int .int64), Dest := typeOfPointer (.int .int) },
      some (Func.base (copyVP fc (.int .int) (.int .int64)))),  -- copyInt64ToPInt
    ({ Src := typeOfPointer (.int .int64), Dest := typeOfPointer (.int .int) },
      some (Func.base (copyPP fc (.int .int) (.int .int64)))),  -- copyPInt64ToPInt
    -- uint to int
    ({ Src := typeOf (.int .uint), Dest := typeOf (.int .int) },
      some (Func.base (copyVV fc (.int .int) (.int .uint)))),  -- copyUintToInt
    ({ Src := typeOfPointer (.int .uint), Dest := typeOf (.int .int) },
      some (Func.base (copyPV fc (.int .int) (.int .uint)))),  -- copyPUintToInt
    ({ Src := typeOf (.int .uint), Dest := typeOfPointer (.int .int) },
      some (Func.base (copyVP fc (.int .int) (.int .uint)))),  -- copyUintToPInt
    ({ Src := typeOfPointer (.int .uint), Dest := typeOfPointer (.int .int) },
      some (Func.base (copyPP fc (.int .int) (.int .uint)))),  -- copyPUintToPInt
    -- uint8 to int
    ({ Src := typeOf (.int .uint8), Dest := typeOf (.int .int) },
      some (Func.base (copyVV fc (.int .int) (.int .uint8)))),  -- copyUint8ToInt
    ({ Src := typeOfPointer (.int .uint8), Dest := typeOf (.int .int) },
      some (Func.base (copyPV fc (.int .int) (.int .uint8)))),  -- copyPUint8ToInt
    ({ Src := typeOf (.int .uint8), Dest := typeOfPointer (.int .int) },
      some (Func.base (copyVP fc (.int .int) (.int .uint8)))),  -- copyUint8ToPInt
    ({ Src := typeOfPointer (.int .uint8), Dest := typeOfPointer (.int .int) },
      some (Func.base (copyPP fc (.int .int) (.int .uint8)))),  -- copyPUint8ToPInt
    -- uint16 to int
    ({ Src := typeOf (.int .uint16), Dest := typeOf (.int .int) },
      some (Func.base (copyVV fc (.int .int) (.int .uint16)))),  -- copyUint16ToInt
    ({ Src := typeOfPointer (.int .uint16), Dest := typeOf (.int .int) },
      some (Func.base (copyPV fc (.int .int) (.int .uint16)))),  -- copyPUint16ToInt
    ({ Src := typeOf (.int .uint16), Dest := typeOfPointer (.int .int) },
      some (Func.base (copyVP fc (.int .int) (.int .uint16)))),  -- copyUint16ToPInt
    ({ Src := typeOfPointer (.int .uint16), Dest := typeOfPointer (.int .int) },
      some (Func.base (copyPP fc (.int .int) (.int .uint16)))),  -- copyPUint16ToPInt
    -- uint32 to int
    ({ Src := typeOf (.int .uint32), Dest := typeOf (.int .int) },
      some (Func.base (copyVV fc (.int .int) (.int .uint32)))),  -- copyUint32ToInt
    ({ Src := typeOfPointer (.int .uint32), Dest := typeOf (.int .int) },
      some (Func.base (copyPV fc (.int .int) (.int .uint32)))),  -- copyPUint32ToInt
    ({ Src := typeOf (.int .uint32), Dest := typeOfPointer (.int .int) },
      some (Func.base (copyVP fc (.int .int) (.int .uint32)))),  -- copyUint32ToPInt
    ({ Src := typeOfPointer (.int .uint32), Dest := typeOfPointer (.int .int) },
      some (Func.base (copyPP fc (.int .int) (.int .uint32)))),  -- copyPUint32ToPInt
    -- uint64 to int
    ({ Src := typeOf (.int .uint64), Dest := typeOf (.int .int) },
      some (Func.base (copyVV fc (.int .int) (.int .uint64)))),  -- copyUint64ToInt
    ({ Src := typeOfPointer (.int .uint64), Dest := typeOf (.int .int) },
      some (Func.base (copyPV fc (.int .int) (.int .uint64)))),  -- copyPUint64ToInt
    ({ Src := typeOf (.int .uint64), Dest := typeOfPointer (.int .int) },
      some (Func.base (copyVP fc (.int .int) (.int .uint64)))),  -- copyUint64ToPInt
    ({ Src := typeOfPointer (.int .uint64), Dest := typeOfPointer (.int .int) },
      some (Func.base (copyPP fc (.int .int) (.int .uint64))))  -- copyPUint64ToPInt
  ] ++ [
    -- int to int8
    ({ Src := typeOf (.int .int), Dest := typeOf (.int .int8) },
      some (Func.base (copyVV fc (.int .int8) (.int .int)))),  -- copyIntToInt8
    ({ Src := typeOfPointer (.int .int), Dest := typeOf (.int .int8) },
      some (Func.base (copyPV fc (.int .int8) (.int .int)))),  -- copyPIntToInt8
    ({ Src := typeOf (.int .int), Dest := typeOfPointer (.int .int8) },
      some (Func.base (copyVP fc (.int .int8) (.int .int)))),  -- copyIntToPInt8
    ({ Src := typeOfPointer (.int .int), Dest := typeOfPointer (.int .int8) },
      some (Func.base (copyPP fc (.int .int8) (.int .int)))),  -- copyPIntToPInt8
    -- int8 to int8
    ({ Src := typeOf (.int .int8), Dest := typeOf (.int .int8) },
      some (Func.base (copyVV fc (.int .int8) (.int .int8)))),  -- copyInt8ToInt8
    ({ Src := typeOfPointer (.int .int8), Dest := typeOf (.int .int8) },
      some (Func.base (copyPV fc (.int .int8) (.int .int8)))),  -- copyPInt8ToInt8
    ({ Src := typeOf (.int .int8), Dest := typeOfPointer (.int .int8) },
      some (Func.base (copyVP fc (.int .int8) (.int .int8)))),  -- copyInt8ToPInt8
    ({ Src := typeOfPointer (.int .int8), Dest := typeOfPointer (.int .int8) },
      some (Func.base (copyPP fc (.int .int8) (.int .int8)))),  -- copyPInt8ToPInt8
    -- int16 to int8
    ({ Src := typeOf (.int .int16), Dest := typeOf (.int .int8) },
      some (Func.base (copyVV fc (.int .int8) (.int .int16)))),  -- copyInt16ToInt8
    ({ Src := typeOfPointer (.int .int16), Dest := typeOf (.int .int8) },
      some (Func.base (copyPV fc (.int .int8) (.int .int16)))),  -- copyPInt16ToInt8
    ({ Src := typeOf (.int .int16), Dest := typeOfPointer (.int .int8) },
      some (Func.base (copyVP fc (.int .int8) (.int .int16)))),  -- copyInt16ToPInt8
    ({ Src := typeOfPointer (.int .int16), Dest := typeOfPointer (.int .int8) },
      some (Func.base (copyPP fc (.int .int8) (.int .int16)))),  -- copyPInt16ToPInt8
    -- int32 to int8
    ({ Src := typeOf (.int .int32), Dest := typeOf (.int .int8) },
      some (Func.base (copyVV fc (.int .int8) (.int .int32)))),  -- copyInt32ToInt8
    ({ Src := typeOfPointer (.int .int32), Dest := typeOf (.int .int8) },
      some (Func.base (copyPV fc (.int .int8) (.int .int32)))),  -- copyPInt32ToInt8
    ({ Src := typeOf (.int .int32), Dest := typeOfPointer (.int .int8) },
      some (Func.base (copyVP fc (.int .int8) (.int .int32)))),  -- copyInt32ToPInt8
    ({ Src := typeOfPointer (.int .int32), Dest := typeOfPointer (.int .int8) },
      some (Func.base (copyPP fc (.int .int8) (.int .int32)))),  -- copyPInt32ToPInt8
    -- int64 to int8
    ({ Src := typeOf (.int .int64), Dest := typeOf (.int .int8) },
      some (Func.base (copyVV fc (.int .int8) (.int .int64)))),  -- copyInt64ToInt8
    ({ Src := typeOfPointer (.int .int64), Dest := typeOf (.int .int8) },
      some (Func.base (copyPV fc (.int .int8) (.int .int64)))),  -- copyPInt64ToInt8
    ({ Src := typeOf (.int .int64), Dest := typeOfPointer (.int .int8) },
      some (Func.base (copyVP fc (.int .int8) (.int .int64)))),  -- copyInt64ToPInt8
    ({ Src := typeOfPointer (.int .int64), Dest := typeOfPointer (.int .int8) },
      some (Func.base (copyPP fc (.int .int8) (.int .int64)))),  -- copyPInt64ToPInt8
    -- uint to int8
    ({ Src := typeOf (.int .uint), Dest := typeOf (.int .int8) },
      some (Func.base (copyVV fc (.int .int8) (.int .uint)))),  -- copyUintToInt8
    ({ Src := typeOfPointer (.int .uint), Dest := typeOf (.int .int8) },
      some (Func.base (copyPV fc (.int .int8) (.int .uint)))),  -- copyPUintToInt8
    ({ Src := typeOf (.int .uint), Dest := typeOfPointer (.int .int8) },
      some (Func.base (copyVP fc (.int .int8) (.int .uint)))),  -- copyUintToPInt8
    ({ Src := typeOfPointer (.int .uint), Dest := typeOfPointer (.int .int8) },
      some (Func.base (copyPP fc (.int .int8) (.int .uint)))),  -- copyPUintToPInt8
    -- uint8 to int8
    ({ Src := typeOf (.int .uint8), Dest := typeOf (.int .int8) },
      some (Func.base (copyVV fc (.int .int8) (.int .uint8)))),  -- copyUint8ToInt8
    ({ Src := typeOfPointer (.int .uint8), Dest := typeOf (.int .int8) },
      some (Func.base (copyPV fc (.int .int8) (.int .uint8)))),  -- copyPUint8ToInt8
    ({ Src := typeOf (.int .uint8), Dest := typeOfPointer (.int .int8) },
      some (Func.base (copyVP fc (.int .int8) (.int .uint8)))),  -- copyUint8ToPInt8
    ({ Src := typeOfPointer (.int .uint8), Dest := typeOfPointer (.int .int8) },
      some (Func.base (copyPP fc (.int .int8) (.int .uint8)))),  -- copyPUint8ToPInt8
    -- uint16 to int8
    ({ Src := typeOf (.int .uint16), Dest := typeOf (.int .int8) },
      some (Func.base (copyVV fc (.int .int8) (.int .uint16)))),  -- copyUint16ToInt8
    ({ Src := typeOfPointer (.int .uint16), Dest := typeOf (.int .int8) },
      some (Func.base (copyPV fc (.int .int8) (.int .uint16)))),  -- copyPUint16ToInt8
    ({ Src := typeOf (.int .uint16), Dest := typeOfPointer (.int .int8) },
      some (Func.base (copyVP fc (.int .int8) (.int .uint16)))),  -- copyUint16ToPInt8
    ({ Src := typeOfPointer (.int .uint16), Dest := typeOfPointer (.int .int8) },
      some (Func.base (copyPP fc (.int .int8) (.int .uint16)))),  -- copyPUint16ToPInt8
    -- uint32 to int8
    ({ Src := typeOf (.int .uint32), Dest := typeOf (.int .int8) },
      some (Func.base (copyVV fc (.int .int8) (.int .uint32)))),  -- copyUint32ToInt8
    ({ Src := typeOfPointer (.int .uint32), Dest := typeOf (.int .int8) },
      some (Func.base (copyPV fc (.int .int8) (.int .uint32)))),  -- copyPUint32ToInt8
    ({ Src := typeOf (.int .uint32), Dest := typeOfPointer (.int .int8) },
      some (Func.base (copyVP fc (.int .int8) (.int .uint32)))),  -- copyUint32ToPInt8
    ({ Src := typeOfPointer (.int .uint32), Dest := typeOfPointer (.int .int8) },
      some (Func.base (copyPP fc (.int .int8) (.int .uint32)))),  -- copyPUint32ToPInt8
    -- uint64 to int8
    ({ Src := typeOf (.int .uint64), Dest := typeOf (.int .int8) },
      some (Func.base (copyVV fc (.int .int8) (.int .uint64)))),  -- copyUint64ToInt8
    ({ Src := typeOfPointer (.int .uint64), Dest := typeOf (.int .int8) },
      some (Func.base (copyPV fc (.int .int8) (.int .uint64)))),  -- copyPUint64ToInt8
    ({ Src := typeOf (.int .uint64), Dest := typeOfPointer (.int .int8) },
      some (Func.base (copyVP fc (.int .int8) (.int .uint64)))),  -- copyUint64ToPInt8
    ({ Src := typeOfPointer (.int .uint64), Dest := typeOfPointer (.int .int8) },
      some (Func.base (copyPP fc (.int .int8) (.int .uint64))))  -- copyPUint64ToPInt8
  ] ++ [
    -- int to int16
    ({ Src := typeOf (.int .int), Dest := typeOf (.int .int16) },
      some (Func.base (copyVV fc (.int .int16) (.int .int)))),  -- copyIntToInt16
    ({ Src := typeOfPointer (.int .int), Dest := typeOf (.int .int16) },
      some (Func.base (copyPV fc (.int .int16) (.int .int)))),  -- copyPIntToInt16
    ({ Src := typeOf (.int .int), Dest := typeOfPointer (.int .int16) },
      some (Func.base (copyVP fc (.int .int16) (.int .int)))),  -- copyIntToPInt16
    ({ Src := typeOfPointer (.int .int), Dest := typeOfPointer (.int .int16) },
      some (Func.base (copyPP fc (.int .int16) (.int .int)))),  -- copyPIntToPInt16
    -- int8 to int16
    ({ Src := typeOf (.int .int8), Dest := typeOf (.int .int16) },
      some (Func.base (copyVV fc (.int .int16) (.int .int8)))),  -- copyInt8ToInt16
    ({ Src := typeOfPointer (.int .int8), Dest := typeOf (.int .int16) },
      some (Func.base (copyPV fc (.int .int16) (.int .int8)))),  -- copyPInt8ToInt16
    ({ Src := typeOf (.int .int8), Dest := typeOfPointer (.int .int16) },
      some (Func.base (copyVP fc (.int .int16) (.int .int8)))),  -- copyInt8ToPInt16
    ({ Src := typeOfPointer (.int .int8), Dest := typeOfPointer (.int .int16) },
      some (Func.base (copyPP fc (.int .int16) (.int .int8)))),  -- copyPInt8ToPInt16
    -- int16 to int16
    ({ Src := typeOf (.int .int16), Dest := typeOf (.int .int16) },
      some (Func.base (copyVV fc (.int .int16) (.int .int16)))),  -- copyInt16ToInt16
    ({ Src := typeOfPointer (.int .int16), Dest := typeOf (.int .int16) },
      some (Func.base (copyPV fc (.int .int16) (.int .int16)))),  -- copyPInt16ToInt16
    ({ Src := typeOf (.int .int16), Dest := typeOfPointer (.int .int16) },
      some (Func.base (copyVP fc (.int .int16) (.int .int16)))),  -- copyInt16ToPInt16
    ({ Src := typeOfPointer (.int .int16), Dest := typeOfPointer (.int .int16) },
      some (Func.base (copyPP fc (.int .int16) (.int .int16)))),  -- copyPInt16ToPInt16
    -- int32 to int16
    ({ Src := typeOf (.int .int32), Dest := typeOf (.int .int16) },
      some (Func.base (copyVV fc (.int .int16) (.int .int32)))),  -- copyInt32ToInt16
    ({ Src := typeOfPointer (.int .int32), Dest := typeOf (.int .int16) },
      some (Func.base (copyPV fc (.int .int16) (.int .int32)))),  -- copyPInt32ToInt16
    ({ Src := typeOf (.int .int32), Dest := typeOfPointer (.int .int16) },
      some (Func.base (copyVP fc (.int .int16) (.int .int32)))),  -- copyInt32ToPInt16
    ({ Src := typeOfPointer (.int .int32), Dest := typeOfPointer (.int .int16) },
      some (Func.base (copyPP fc (.int .int16) (.int .int32)))),  -- copyPInt32ToPInt16
    -- int64 to int16
    ({ Src := typeOf (.int .int64), Dest := typeOf (.int .int16) },
      some (Func.base (copyVV fc (.int .int16) (.int .int64)))),  -- copyInt64ToInt16
    ({ Src := typeOfPointer (.int .int64), Dest := typeOf (.int .int16) },
      some (Func.base (copyPV fc (.int .int16) (.int .int64)))),  -- copyPInt64ToInt16
    ({ Src := typeOf (.int .int64), Dest := typeOfPointer (.int .int16) },
      some (Func.base (copyVP fc (.int .int16) (.int .int64)))),  -- copyInt64ToPInt16
    ({ Src := typeOfPointer (.int .int64), Dest := typeOfPointer (.int .int16) },
      some (Func.base (copyPP fc (.int .int16) (.int .int64)))),  -- copyPInt64ToPInt16
    -- uint to int16
    ({ Src := typeOf (.int .uint), Dest := typeOf (.int .int16) },
      some (Func.base (copyVV fc (.int .int16) (.int .uint)))),  -- copyUintToInt16
    ({ Src := typeOfPointer (.int .uint), Dest := typeOf (.int .int16) },
      some (Func.base (copyPV fc (.int .int16) (.int .uint)))),  -- copyPUintToInt16
    ({ Src := typeOf (.int .uint), Dest := typeOfPointer (.int .int16) },
      some (Func.base (copyVP fc (.int .int16) (.int .uint)))),  -- copyUintToPInt16
    ({ Src := typeOfPointer (.int .uint), Dest := typeOfPointer (.int .int16) },
      some (Func.base (copyPP fc (.int .int16) (.int .uint)))),  -- copyPUintToPInt16
    -- uint8 to int16
    ({ Src := typeOf (.int .uint8), Dest := typeOf (.int .int16) },
      some (Func.base (copyVV fc (.int .int16) (.int .uint8)))),  -- copyUint8ToInt16
    ({ Src := typeOfPointer (.int .uint8), Dest := typeOf (.int .int16) },
      some (Func.base (copyPV fc (.int .int16) (.int .uint8)))),  -- copyPUint8ToInt16
    ({ Src := typeOf (.int .uint8), Dest := typeOfPointer (.int .int16) },
      some (Func.base (copyVP fc (.int .int16) (.int .uint8)))),  -- copyUint8ToPInt16
    ({ Src := typeOfPointer (.int .uint8), Dest := typeOfPointer (.int .int16) },
      some (Func.base (copyPP fc (.int .int16) (.int .uint8)))),  -- copyPUint8ToPInt16
    -- uint16 to int16
    ({ Src := typeOf (.int .uint16), Dest := typeOf (.int .int16) },
      some (Func.base (copyVV fc (.int .int16) (.int .uint16)))),  -- copyUint16ToInt16
    ({ Src := typeOfPointer (.int .uint16), Dest := typeOf (.int .int16) },
      some (Func.base (copyPV fc (.int .int16) (.int .uint16)))),  -- copyPUint16ToInt16
    ({ Src := typeOf (.int .uint16), Dest := typeOfPointer (.int .int16) },
      some (Func.base (copyVP fc (.int .int16) (.int .uint16)))),  -- copyUint16ToPInt16
    ({ Src := typeOfPointer (.int .uint16), Dest := typeOfPointer (.int .int16) },
      some (Func.base (copyPP fc (.int .int16) (.int .uint16)))),  -- copyPUint16ToPInt16
    -- uint32 to int16
    ({ Src := typeOf (.int .uint32), Dest := typeOf (.int .int16) },
      some (Func.base (copyVV fc (.int .int16) (.int .uint32)))),  -- copyUint32ToInt16
    ({ Src := typeOfPointer (.int .uint32), Dest := typeOf (.int .int16) },
      some (Func.base (copyPV fc (.int .int16) (.int .uint32)))),  -- copyPUint32ToInt16
    ({ Src := typeOf (.int .uint32), Dest := typeOfPointer (.int .int16) },
      some (Func.base (copyVP fc (.int .int16) (.int .uint32)))),  -- copyUint32ToPInt16
    ({ Src := typeOfPointer (.int .uint32), Dest := typeOfPointer (.int .int16) },
      some (Func.base (copyPP fc (.int .int16) (.int .uint32)))),  -- copyPUint32ToPInt16
    -- uint64 to int16
    ({ Src := typeOf (.int .uint64), Dest := typeOf (.int .int16) },
      some (Func.base (copyVV fc (.int .int16) (.int .uint64)))),  -- copyUint64ToInt16
    ({ Src := typeOfPointer (.int .uint64), Dest := typeOf (.int .int16) },
      some (Func.base (copyPV fc (.int .int16) (.int .uint64)))),  -- copyPUint64ToInt16
    ({ Src := typeOf (.int .uint64), Dest := typeOfPointer (.int .int16) },
      some (Func.base (copyVP fc (.int .int16) (.int .uint64)))),  -- copyUint64ToPInt16
    ({ Src := typeOfPointer (.int .uint64), Dest := typeOfPointer (.int .int16) },
      some (Func.base (copyPP fc (.int .int16) (.int .uint64))))  -- copyPUint64ToPInt16
  ] ++ [
    -- int to int32
    ({ Src := typeOf (.int .int), Dest := typeOf (.int .int32) },
      some (Func.base (copyVV fc (.int .int32) (.int .int)))),  -- copyIntToInt32
    ({ Src := typeOfPointer (.int .int), Dest := typeOf (.int .int32) },
      some (Func.base (copyPV fc (.int .int32) (.int .int)))),  -- copyPIntToInt32
    ({ Src := typeOf (.int .int), Dest := typeOfPointer (.int .int32) },
      some (Func.base (copyVP fc (.int .int32) (.int .int)))),  -- copyIntToPInt32
    ({ Src := typeOfPointer (.int .int), Dest := typeOfPointer (.int .int32) },
      some (Func.base (copyPP fc (.int .int32) (.int .int)))),  -- copyPIntToPInt32
    -- int8 to int32
    ({ Src := typeOf (.int .int8), Dest := typeOf (.int .int32) },
      some (Func.base (copyVV fc (.int .int32) (.int .int8)))),  -- copyInt8ToInt32
    ({ Src := typeOfPointer (.int .int8), Dest := typeOf (.int .int32) },
      some (Func.base (copyPV fc (.int .int32) (.int .int8)))),  -- copyPInt8ToInt32
    ({ Src := typeOf (.int .int8), Dest := typeOfPointer (.int .int32) },
      some (Func.base (copyVP fc (.int .int32) (.int .int8)))),  -- copyInt8ToPInt32
    ({ Src := typeOfPointer (.int .int8), Dest := typeOfPointer (.int .int32) },
      some (Func.base (copyPP fc (.int .int32) (.int .int8)))),  -- copyPInt8ToPInt32
    -- int16 to int32
    ({ Src := typeOf (.int .int16), Dest := typeOf (.int .int32) },
      some (Func.base (copyVV fc (.int .int32) (.int .int16)))),  -- copyInt16ToInt32
    ({ Src := typeOfPointer (.int .int16), Dest := typeOf (.int .int32) },
      some (Func.base (copyPV fc (.int .int32) (.int .int16)))),  -- copyPInt16ToInt32
    ({ Src := typeOf (.int .int16), Dest := typeOfPointer (.int .int32) },
      some (Func.base (copyVP fc (.int .int32) (.int .int16)))),  -- copyInt16ToPInt32
    ({ Src := typeOfPointer (.int .int16), Dest := typeOfPointer (.int .int32) },
      some (Func.base (copyPP fc (.int .int32) (.int .int16)))),  -- copyPInt16ToPInt32
    -- int32 to int32
    ({ Src := typeOf (.int .int32), Dest := typeOf (.int .int32) },
      some (Func.base (copyVV fc (.int .int32) (.int .int32)))),  -- copyInt32ToInt32
    ({ Src := typeOfPointer (.int .int32), Dest := typeOf (.int .int32) },
      some (Func.base (copyPV fc (.int .int32) (.int .int32)))),  -- copyPInt32ToInt32
    ({ Src := typeOf (.int .int32), Dest := typeOfPointer (.int .int32) },
      some (Func.base (copyVP fc (.int .int32) (.int .int32)))),  -- copyInt32ToPInt32
    ({ Src := typeOfPointer (.int .int32), Dest := typeOfPointer (.int .int32) },
      some (Func.base (copyPP fc (.int .int32) (.int .int32)))),  -- copyPInt32ToPInt32
    -- int64 to int32
    ({ Src := typeOf (.int .int64), Dest := typeOf (.int .int32) },
      some (Func.base (copyVV fc (.int .int32) (.int .int64)))),  -- copyInt64ToInt32
    ({ Src := typeOfPointer (.int .int64), Dest := typeOf (.int .int32) },
      some (Func.base (copyPV fc (.int .int32) (.int .int64)))),  -- copyPInt64ToInt32
    ({ Src := typeOf (.int .int64), Dest := typeOfPointer (.int .int32) },
      some (Func.base (copyVP fc (.int .int32) (.int .int64)))),  -- copyInt64ToPInt32
    ({ Src := typeOfPointer (.int .int64), Dest := typeOfPointer (.int .int32) },
      some (Func.base (copyPP fc (.int .int32) (.int .int64)))),  -- copyPInt64ToPInt32
    -- uint to int32
    ({ Src := typeOf (.int .uint), Dest := typeOf (.int .int32) },
      some (Func.base (copyVV fc (.int .int32) (.int .uint)))),  -- copyUintToInt32
    ({ Src := typeOfPointer (.int .uint), Dest := typeOf (.int .int32) },
      some (Func.base (copyPV fc (.int .int32) (.int .uint)))),  -- copyPUintToInt32
    ({ Src := typeOf (.int .uint), Dest := typeOfPointer (.int .int32) },
      some (Func.base (copyVP fc (.int .int32) (.int .uint)))),  -- copyUintToPInt32
    ({ Src := typeOfPointer (.int .uint), Dest := typeOfPointer (.int .int32) },
      some (Func.base (copyPP fc (.int .int32) (.int .uint)))),  -- copyPUintToPInt32
    -- uint8 to int32
    ({ Src := typeOf (.int .uint8), Dest := typeOf (.int .int32) },
      some (Func.base (copyVV fc (.int .int32) (.int .uint8)))),  -- copyUint8ToInt32
    ({ Src := typeOfPointer (.int .uint8), Dest := typeOf (.int .int32) },
      some (Func.base (copyPV fc (.int .int32) (.int .uint8)))),  -- copyPUint8ToInt32
    ({ Src := typeOf (.int .uint8), Dest := typeOfPointer (.int .int32) },
      some (Func.base (copyVP fc (.int .int32) (.int .uint8)))),  -- copyUint8ToPInt32
    ({ Src := typeOfPointer (.int .uint8), Dest := typeOfPointer (.int .int32) },
      some (Func.base (copyPP fc (.int .int32) (.int .uint8)))),  -- copyPUint8ToPInt32
    -- uint16 to int32
    ({ Src := typeOf (.int .uint16), Dest := typeOf (.int .int32) },
      some (Func.base (copyVV fc (.int .int32) (.int .uint16)))),  -- copyUint16ToInt32
    ({ Src := typeOfPointer (.int .uint16), Dest := typeOf (.int .int32) },
      some (Func.base (copyPV fc (.int .int32) (.int .uint16)))),  -- copyPUint16ToInt32
    ({ Src := typeOf (.int .uint16), Dest := typeOfPointer (.int .int32) },
      some (Func.base (copyVP fc (.int .int32) (.int .uint16)))),  -- copyUint16ToPInt32
    ({ Src := typeOfPointer (.int .uint16), Dest := typeOfPointer (.int .int32) },
      some (Func.base (copyPP fc (.int .int32) (.int .uint16)))),  -- copyPUint16ToPInt32
    -- uint32 to int32
    ({ Src := typeOf (.int .uint32), Dest := typeOf (.int .int32) },
      some (Func.base (copyVV fc (.int .int32) (.int .uint32)))),  -- copyUint32ToInt32
    ({ Src := typeOfPointer (.int .uint32), Dest := typeOf (.int .int32) },
      some (Func.base (copyPV fc (.int .int32) (.int .uint32)))),  -- copyPUint32ToInt32
    ({ Src := typeOf (.int .uint32), Dest := typeOfPointer (.int .int32) },
      some (Func.base (copyVP fc (.int .int32) (.int .uint32)))),  -- copyUint32ToPInt32
    ({ Src := typeOfPointer (.int .uint32), Dest := typeOfPointer (.int .int32) },
      some (Func.base (copyPP fc (.int .int32) (.int .uint32)))),  -- copyPUint32ToPInt32
    -- uint64 to int32
    ({ Src := typeOf (.int .uint64), Dest := typeOf (.int .int32) },
      some (Func.base (copyVV fc (.int .int32) (.int .uint64)))),  -- copyUint64ToInt32
    ({ Src := typeOfPointer (.int .uint64), Dest := typeOf (.int .int32) },
      some (Func.base (copyPV fc (.int .int32) (.int .uint64)))),  -- copyPUint64ToInt32
    ({ Src := typeOf (.int .uint64), Dest := typeOfPointer (.int .int32) },
      some (Func.base (copyVP fc (.int .int32) (.int .uint64)))),  -- copyUint64ToPInt32
    ({ Src := typeOfPointer (.int .uint64), Dest := typeOfPointer (.int .int32) },
      some (Func.base (copyPP fc (.int .int32) (.int .uint64))))  -- copyPUint64ToPInt32
  ] ++ [
    -- int to int64
    ({ Src := typeOf (.int .int), Dest := typeOf (.int .int64) },
      some (Func.base (copyVV fc (.int .int64) (.int .int)))),  -- copyIntToInt64
    ({ Src := typeOfPointer (.int .int), Dest := typeOf (.int .int64) },
      some (Func.base (copyPV fc (.int .int64) (.int .int)))),  -- copyPIntToInt64
    ({ Src := typeOf (.int .int), Dest := typeOfPointer (.int .int64) },
      some (Func.base (copyVP fc (.int .int64) (.int .int)))),  -- copyIntToPInt64
    ({ Src := typeOfPointer (.int .int), Dest := typeOfPointer (.int .int64) },
      some (Func.base (copyPP fc (.int .int64) (.int .int)))),  -- copyPIntToPInt64
    -- int8 to int64
    ({ Src := typeOf (.int .int8), Dest := typeOf (.int .int64) },
      some (Func.base (copyVV fc (.int .int64) (.int .int8)))),  -- copyInt8ToInt64
    ({ Src := typeOfPointer (.int .int8), Dest := typeOf (.int .int64) },
      some (Func.base (copyPV fc (.int .int64) (.int .int8)))),  -- copyPInt8ToInt64
    ({ Src := typeOf (.int .int8), Dest := typeOfPointer (.int .int64) },
      some (Func.base (copyVP fc (.int .int64) (.int .int8)))),  -- copyInt8ToPInt64
    ({ Src := typeOfPointer (.int .int8), Dest := typeOfPointer (.int .int64) },
      some (Func.base (copyPP fc (.int .int64) (.int .int8)))),  -- copyPInt8ToPInt64
    -- int16 to int64
    ({ Src := typeOf (.int .int16), Dest := typeOf (.int .int64) },
      some (Func.base (copyVV fc (.int .int64) (.int .int16)))),  -- copyInt16ToInt64
    ({ Src := typeOfPointer (.int .int16), Dest := typeOf (.int .int64) },
      some (Func.base (copyPV fc (.int .int64) (.int .int16)))),  -- copyPInt16ToInt64
    ({ Src := typeOf (.int .int16), Dest := typeOfPointer (.int .int64) },
      some (Func.base (copyVP fc (.int .int64) (.int .int16)))),  -- copyInt16ToPInt64
    ({ Src := typeOfPointer (.int .int16), Dest := typeOfPointer (.int .int64) },
      some (Func.base (copyPP fc (.int .int64) (.int .int16)))),  -- copyPInt16ToPInt64
    -- int32 to int64
    ({ Src := typeOf (.int .int32), Dest := typeOf (.int .int64) },
      some (Func.base (copyVV fc (.int .int64) (.int .int32)))),  -- copyInt32ToInt64
    ({ Src := typeOfPointer (.int .int32), Dest := typeOf (.int .int64) },
      some (Func.base (copyPV fc (.int .int64) (.int .int32)))),  -- copyPInt32ToInt64
    ({ Src := typeOf (.int .int32), Dest := typeOfPointer (.int .int64) },
      some (Func.base (copyVP fc (.int .int64) (.int .int32)))),  -- copyInt32ToPInt64
    ({ Src := typeOfPointer (.int .int32), Dest := typeOfPointer (.int .int64) },
      some (Func.base (copyPP fc (.int .int64) (.int .int32)))),  -- copyPInt32ToPInt64
    -- int64 to int64
    ({ Src := typeOf (.int .int64), Dest := typeOf (.int .int64) },
      some (Func.base (copyVV fc (.int .int64) (.int .int64)))),  -- copyInt64ToInt64
    ({ Src := typeOfPointer (.int .int64), Dest := typeOf (.int .int64) },
      some (Func.base (copyPV fc (.int .int64) (.int .int64)))),  -- copyPInt64ToInt64
    ({ Src := typeOf (.int .int64), Dest := typeOfPointer (.int .int64) },
      some (Func.base (copyVP fc (.int .int64) (.int .int64)))),  -- copyInt64ToPInt64
    ({ Src := typeOfPointer (.int .int64), Dest := typeOfPointer (.int .int64) },
      some (Func.base (copyPP fc (.int .int64) (.int .int64)))),  -- copyPInt64ToPInt64
    -- uint to int64
    ({ Src := typeOf (.int .uint), Dest := typeOf (.int .int64) },
      some (Func.base (copyVV fc (.int .int64) (.int .uint)))),  -- copyUintToInt64
    ({ Src := typeOfPointer (.int .uint), Dest := typeOf (.int .int64) },
      some (Func.base (copyPV fc (.int .int64) (.int .uint)))),  -- copyPUintToInt64
    ({ Src := typeOf (.int .uint), Dest := typeOfPointer (.int .int64) },
      some (Func.base (copyVP fc (.int .int64) (.int .uint)))),  -- copyUintToPInt64
    ({ Src := typeOfPointer (.int .uint), Dest := typeOfPointer (.int .int64) },
      some (Func.base (copyPP fc (.int .int64) (.int .uint)))),  -- copyPUintToPInt64
    -- uint8 to int64
    ({ Src := typeOf (.int .uint8), Dest := typeOf (.int .int64) },
      some (Func.base (copyVV fc (.int .int64) (.int .uint8)))),  -- copyUint8ToInt64
    ({ Src := typeOfPointer (.int .uint8), Dest := typeOf (.int .int64) },
      some (Func.base (copyPV fc (.int .int64) (.int .uint8)))),  -- copyPUint8ToInt64
    ({ Src := typeOf (.int .uint8), Dest := typeOfPointer (.int .int64) },
      some (Func.base (copyVP fc (.int .int64) (.int .uint8)))),  -- copyUint8ToPInt64
    ({ Src := typeOfPointer (.int .uint8), Dest := typeOfPointer (.int .int64) },
      some (Func.base (copyPP fc (.int .int64) (.int .uint8)))),  -- copyPUint8ToPInt64
    -- uint16 to int64
    ({ Src := typeOf (.int .uint16), Dest := typeOf (.int .int64) },
      some (Func.base (copyVV fc (.int .int64) (.int .uint16)))),  -- copyUint16ToInt64
    ({ Src := typeOfPointer (.int .uint16), Dest := typeOf (.int .int64) },
      some (Func.base (copyPV fc (.int .int64) (.int .uint16)))),  -- copyPUint16ToInt64
    ({ Src := typeOf (.int .uint16), Dest := typeOfPointer (.int .int64) },
      some (Func.base (copyVP fc (.int .int64) (.int .uint16)))),  -- copyUint16ToPInt64
    ({ Src := typeOfPointer (.int .uint16), Dest := typeOfPointer (.int .int64) },
      some (Func.base (copyPP fc (.int .int64) (.int .uint16)))),  -- copyPUint16ToPInt64
    -- uint32 to int64
    ({ Src := typeOf (.int .uint32), Dest := typeOf (.int .int64) },
      some (Func.base (copyVV fc (.int .int64) (.int .uint32)))),  -- copyUint32ToInt64
    ({ Src := typeOfPointer (.int .uint32), Dest := typeOf (.int .int64) },
      some (Func.base (copyPV fc (.int .int64) (.int .uint32)))),  -- copyPUint32ToInt64
    ({ Src := typeOf (.int .uint32), Dest := typeOfPointer (.int .int64) },
      some (Func.base (copyVP fc (.int .int64) (.int .uint32)))),  -- copyUint32ToPInt64
    ({ Src := typeOfPointer (.int .uint32), Dest := typeOfPointer (.int .int64) },
      some (Func.base (copyPP fc (.int .int64) (.int .uint32)))),  -- copyPUint32ToPInt64
    -- uint64 to int64
    ({ Src := typeOf (.int .uint64), Dest := typeOf (.int .int64) },
      some (Func.base (copyVV fc (.int .int64) (.int .uint64)))),  -- copyUint64ToInt64
    ({ Src := typeOfPointer (.int .uint64), Dest := typeOf (.int .int64) },
      some (Func.base (copyPV fc (.int .int64) (.int .uint64)))),  -- copyPUint64ToInt64
    ({ Src := typeOf (.int .uint64), Dest := typeOfPointer (.int .int64) },
      some (Func.base (copyVP fc (.int .int64) (.int .uint64)))),  -- copyUint64ToPInt64
    ({ Src := typeOfPointer (.int .uint64), Dest := typeOfPointer (.int .int64) },
      some (Func.base (copyPP fc (.int .int64) (.int .uint64))))  -- copyPUint64ToPInt64
  ] ++ [
    -- int to uint
    ({ Src := typeOf (.int .int), Dest := typeOf (.int .uint) },
      some (Func.base (copyVV fc (.int .uint) (.int .int)))),  -- copyIntToUint
    ({ Src := typeOfPointer (.int .int), Dest := typeOf (.int .uint) },
      some (Func.base (copyPV fc (.int .uint) (.int .int)))),  -- copyPIntToUint
    ({ Src := typeOf (.int .int), Dest := typeOfPointer (.int .uint) },
      some (Func.base (copyVP fc (.int .uint) (.int .int)))),  -- copyIntToPUint
    ({ Src := typeOfPointer (.int .int), Dest := typeOfPointer (.int .uint) },
      some (Func.base (copyPP fc (.int .uint) (.int .int)))),  -- copyPIntToPUint
    -- int8 to uint
    ({ Src := typeOf (.int .int8), Dest := typeOf (.int .uint) },
      some (Func.base (copyVV fc (.int .uint) (.int .int8)))),  -- copyInt8ToUint
    ({ Src := typeOfPointer (.int .int8), Dest := typeOf (.int .uint) },
      some (Func.base (copyPV fc (.int .uint) (.int .int8)))),  -- copyPInt8ToUint
    ({ Src := typeOf (.int .int8), Dest := typeOfPointer (.int .uint) },
      some (Func.base (copyVP fc (.int .uint) (.int .int8)))),  -- copyInt8ToPUint
    ({ Src := typeOfPointer (.int .int8), Dest := typeOfPointer (.int .uint) },
      some (Func.base (copyPP fc (.int .uint) (.int .int8)))),  -- copyPInt8ToPUint
    -- int16 to uint
    ({ Src := typeOf (.int .int16), Dest := typeOf (.int .uint) },
      some (Func.base (copyVV fc (.int .uint) (.int .int16)))),  -- copyInt16ToUint
    ({ Src := typeOfPointer (.int .int16), Dest := typeOf (.int .uint) },
      some (Func.base (copyPV fc (.int .uint) (.int .int16)))),  -- copyPInt16ToUint
    ({ Src := typeOf (.int .int16), Dest := typeOfPointer (.int .uint) },
      some (Func.base (copyVP fc (.int .uint) (.int .int16)))),  -- copyInt16ToPUint
    ({ Src := typeOfPointer (.int .int16), Dest := typeOfPointer (.int .uint) },
      some (Func.base (copyPP fc (.int .uint) (.int .int16)))),  -- copyPInt16ToPUint
    -- int32 to uint
    ({ Src := typeOf (.int .int32), Dest := typeOf (.int .uint) },
      some (Func.base (copyVV fc (.int .uint) (.int .int32)))),  -- copyInt32ToUint
    ({ Src := typeOfPointer (.int .int32), Dest := typeOf (.int .uint) },
      some (Func.base (copyPV fc (.int .uint) (.int .int32)))),  -- copyPInt32ToUint
    ({ Src := typeOf (.int .int32), Dest := typeOfPointer (.int .uint) },
      some (Func.base (copyVP fc (.int .uint) (.int .int32)))),  -- copyInt32ToPUint
    ({ Src := typeOfPointer (.int .int32), Dest := typeOfPointer (.int .uint) },
      some (Func.base (copyPP fc (.int .uint) (.int .int32)))),  -- copyPInt32ToPUint
    -- int64 to uint
    ({ Src := typeOf (.int .int64), Dest := typeOf (.int .uint) },
      some (Func.base (copyVV fc (.int .uint) (.int .int64)))),  -- copyInt64ToUint
    ({ Src := typeOfPointer (.int .int64), Dest := typeOf (.int .uint) },
      some (Func.base (copyPV fc (.int .uint) (.int .int64)))),  -- copyPInt64ToUint
    ({ Src := typeOf (.int .int64), Dest := typeOfPointer (.int .uint) },
      some (Func.base (copyVP fc (.int .uint) (.int .int64)))),  -- copyInt64ToPUint
    ({ Src := typeOfPointer (.int .int64), Dest := typeOfPointer (.int .uint) },
      some (Func.base (copyPP fc (.int .uint) (.int .int64)))),  -- copyPInt64ToPUint
    -- uint to uint
    ({ Src := typeOf (.int .uint), Dest := typeOf (.int .uint) },
      some (Func.base (copyVV fc (.int .uint) (.int .uint)))),  -- copyUintToUint
    ({ Src := typeOfPointer (.int .uint), Dest := typeOf (.int .uint) },
      some (Func.base (copyPV fc (.int .uint) (.int .uint)))),  -- copyPUintToUint
    ({ Src := typeOf (.int .uint), Dest := typeOfPointer (.int .uint) },
      some (Func.base (copyVP fc (.int .uint) (.int .uint)))),  -- copyUintToPUint
    ({ Src := typeOfPointer (.int .uint), Dest := typeOfPointer (.int .uint) },
      some (Func.base (copyPP fc (.int .uint) (.int .uint)))),  -- copyPUintToPUint
    -- uint8 to uint
    ({ Src := typeOf (.int .uint8), Dest := typeOf (.int .uint) },
      some (Func.base (copyVV fc (.int .uint) (.int .uint8)))),  -- copyUint8ToUint
    ({ Src := typeOfPointer (.int .uint8), Dest := typeOf (.int .uint) },
      some (Func.base (copyPV fc (.int .uint) (.int .uint8)))),  -- copyPUint8ToUint
    ({ Src := typeOf (.int .uint8), Dest := typeOfPointer (.int .uint) },
      some (Func.base (copyVP fc (.int .uint) (.int .uint8)))),  -- copyUint8ToPUint
    ({ Src := typeOfPointer (.int .uint8), Dest := typeOfPointer (.int .uint) },
      some (Func.base (copyPP fc (.int .uint) (.int .uint8)))),  -- copyPUint8ToPUint
    -- uint16 to uint
    ({ Src := typeOf (.int .uint16), Dest := typeOf (.int .uint) },
      some (Func.base (copyVV fc (.int .uint) (.int .uint16)))),  -- copyUint16ToUint
    ({ Src := typeOfPointer (.int .uint16), Dest := typeOf (.int .uint) },
      some (Func.base (copyPV fc (.int .uint) (.int .uint16)))),  -- copyPUint16ToUint
    ({ Src := typeOf (.int .uint16), Dest := typeOfPointer (.int .uint) },
      some (Func.base (copyVP fc (.int .uint) (.int .uint16)))),  -- copyUint16ToPUint
    ({ Src := typeOfPointer (.int .uint16), Dest := typeOfPointer (.int .uint) },
      some (Func.base (copyPP fc (.int .uint) (.int .uint16)))),  -- copyPUint16ToPUint
    -- uint32 to uint
    ({ Src := typeOf (.int .uint32), Dest := typeOf (.int .uint) },
      some (Func.base (copyVV fc (.int .uint) (.int .uint32)))),  -- copyUint32ToUint
    ({ Src := typeOfPointer (.int .uint32), Dest := typeOf (.int .uint) },
      some (Func.base (copyPV fc (.int .uint) (.int .uint32)))),  -- copyPUint32ToUint
    ({ Src := typeOf (.int .uint32), Dest := typeOfPointer (.int .uint) },
      some (Func.base (copyVP fc (.int .uint) (.int .uint32)))),  -- copyUint32ToPUint
    ({ Src := typeOfPointer (.int .uint32), Dest := typeOfPointer (.int .uint) },
      some (Func.base (copyPP fc (.int .uint) (.int .uint32)))),  -- copyPUint32ToPUint
    -- uint64 to uint
    ({ Src := typeOf (.int .uint64), Dest := typeOf (.int .uint) },
      some (Func.base (copyVV fc (.int .uint) (.int .uint64)))),  -- copyUint64ToUint
    ({ Src := typeOfPointer (.int .uint64), Dest := typeOf (.int .uint) },
      some (Func.base (copyPV fc (.int .uint) (.int .uint64)))),  -- copyPUint64ToUint
    ({ Src := typeOf (.int .uint64), Dest := typeOfPointer (.int .uint) },
      some (Func.base (copyVP fc (.int .uint) (.int .uint64)))),  -- copyUint64ToPUint
    ({ Src := typeOfPointer (.int .uint64), Dest := typeOfPointer (.int .uint) },
      some (Func.base (copyPP fc (.int .uint) (.int .uint64))))  -- copyPUint64ToPUint
  ] ++ [
    -- int to uint8
    ({ Src := typeOf (.int .int), Dest := typeOf (.int .uint8) },
      some (Func.base (copyVV fc (.int .uint8) (.int .int)))),  -- copyIntToUint8
    ({ Src := typeOfPointer (.int .int), Dest := typeOf (.int .uint8) },
      some (Func.base (copyPV fc (.int .uint8) (.int .int)))),  -- copyPIntToUint8
    ({ Src := typeOf (.int .int), Dest := typeOfPointer (.int .uint8) },
      some (Func.base (copyVP fc (.int .uint8) (.int .int)))),  -- copyIntToPUint8
    ({ Src := typeOfPointer (.int .int), Dest := typeOfPointer (.int .uint8) },
      some (Func.base (copyPP fc (.int .uint8) (.int .int)))),  -- copyPIntToPUint8
    -- int8 to uint8
    ({ Src := typeOf (.int .int8), Dest := typeOf (.int .uint8) },
      some (Func.base (copyVV fc (.int .uint8) (.int .int8)))),  -- copyInt8ToUint8
    ({ Src := typeOfPointer (.int .int8), Dest := typeOf (.int .uint8) },
      some (Func.base (copyPV fc (.int .uint8) (.int .int8)))),  -- copyPInt8ToUint8
    ({ Src := typeOf (.int .int8), Dest := typeOfPointer (.int .uint8) },
      some (Func.base (copyVP fc (.int .uint8) (.int .int8)))),  -- copyInt8ToPUint8
    ({ Src := typeOfPointer (.int .int8), Dest := typeOfPointer (.int .uint8) },
      some (Func.base (copyPP fc (.int .uint8) (.int .int8)))),  -- copyPInt8ToPUint8
    -- int16 to uint8
    ({ Src := typeOf (.int .int16), Dest := typeOf (.int .uint8) },
      some (Func.base (copyVV fc (.int .uint8) (.int .int16)))),  -- copyInt16ToUint8
    ({ Src := typeOfPointer (.int .int16), Dest := typeOf (.int .uint8) },
      some (Func.base (copyPV fc (.int .uint8) (.int .int16)))),  -- copyPInt16ToUint8
    ({ Src := typeOf (.int .int16), Dest := typeOfPointer (.int .uint8) },
      some (Func.base (copyVP fc (.int .uint8) (.int .int16)))),  -- copyInt16ToPUint8
    ({ Src := typeOfPointer (.int .int16), Dest := typeOfPointer (.int .uint8) },
      some (Func.base (copyPP fc (.int .uint8) (.int .int16)))),  -- copyPInt16ToPUint8
    -- int32 to uint8
    ({ Src := typeOf (.int .int32), Dest := typeOf (.int .uint8) },
      some (Func.base (copyVV fc (.int .uint8) (.int .int32)))),  -- copyInt32ToUint8
    ({ Src := typeOfPointer (.int .int32), Dest := typeOf (.int .uint8) },
      some (Func.base (copyPV fc (.int .uint8) (.int .int32)))),  -- copyPInt32ToUint8
    ({ Src := typeOf (.int .int32), Dest := typeOfPointer (.int .uint8) },
      some (Func.base (copyVP fc (.int .uint8) (.int .int32)))),  -- copyInt32ToPUint8
    ({ Src := typeOfPointer (.int .int32), Dest := typeOfPointer (.int .uint8) },
      some (Func.base (copyPP fc (.int .uint8) (.int .int32)))),  -- copyPInt32ToPUint8
    -- int64 to uint8
    ({ Src := typeOf (.int .int64), Dest := typeOf (.int .uint8) },
      some (Func.base (copyVV fc (.int .uint8) (.int .int64)))),  -- copyInt64ToUint8
    ({ Src := typeOfPointer (.int .int64), Dest := typeOf (.int .uint8) },
      some (Func.base (copyPV fc (.int .uint8) (.int .int64)))),  -- copyPInt64ToUint8
    ({ Src := typeOf (.int .int64), Dest := typeOfPointer (.int .uint8) },
      some (Func.base (copyVP fc (.int .uint8) (.int .int64)))),  -- copyInt64ToPUint8
    ({ Src := typeOfPointer (.int .int64), Dest := typeOfPointer (.int .uint8) },
      some (Func.base (copyPP fc (.int .uint8) (.int .int64)))),  -- copyPInt64ToPUint8
    -- uint to uint8
    ({ Src := typeOf (.int .uint), Dest := typeOf (.int .uint8) },
      some (Func.base (copyVV fc (.int .uint8) (.int .uint)))),  -- copyUintToUint8
    ({ Src := typeOfPointer (.int .uint), Dest := typeOf (.int .uint8) },
      some (Func.base (copyPV fc (.int .uint8) (.int .uint)))),  -- copyPUintToUint8
    ({ Src := typeOf (.int .uint), Dest := typeOfPointer (.int .uint8) },
      some (Func.base (copyVP fc (.int .uint8) (.int .uint)))),  -- copyUintToPUint8
    ({ Src := typeOfPointer (.int .uint), Dest := typeOfPointer (.int .uint8) },
      some (Func.base (copyPP fc (.int .uint8) (.int .uint)))),  -- copyPUintToPUint8
    -- uint8 to uint8
    ({ Src := typeOf (.int .uint8), Dest := typeOf (.int .uint8) },
      some (Func.base (copyVV fc (.int .uint8) (.int .uint8)))),  -- copyUint8ToUint8
    ({ Src := typeOfPointer (.int .uint8), Dest := typeOf (.int .uint8) },
      some (Func.base (copyPV fc (.int .uint8) (.int .uint8)))),  -- copyPUint8ToUint8
    ({ Src := typeOf (.int .uint8), Dest := typeOfPointer (.int .uint8) },
      some (Func.base (copyVP fc (.int .uint8) (.int .uint8)))),  -- copyUint8ToPUint8
    ({ Src := typeOfPointer (.int .uint8), Dest := typeOfPointer (.int .uint8) },
      some (Func.base (copyPP fc (.int .uint8) (.int .uint8)))),  -- copyPUint8ToPUint8
    -- uint16 to uint8
    ({ Src := typeOf (.int .uint16), Dest := typeOf (.int .uint8) },
      some (Func.base (copyVV fc (.int .uint8) (.int .uint16)))),  -- copyUint16ToUint8
    ({ Src := typeOfPointer (.int .uint16), Dest := typeOf (.int .uint8) },
      some (Func.base (copyPV fc (.int .uint8) (.int .uint16)))),  -- copyPUint16ToUint8
    ({ Src := typeOf (.int .uint16), Dest := typeOfPointer (.int .uint8) },
      some (Func.base (copyVP fc (.int .uint8) (.int .uint16)))),  -- copyUint16ToPUint8
    ({ Src := typeOfPointer (.int .uint16), Dest := typeOfPointer (.int .uint8) },
      some (Func.base (copyPP fc (.int .uint8) (.int .uint16)))),  -- copyPUint16ToPUint8
    -- uint32 to uint8
    ({ Src := typeOf (.int .uint32), Dest := typeOf (.int .uint8) },
      some (Func.base (copyVV fc (.int .uint8) (.int .uint32)))),  -- copyUint32ToUint8
    ({ Src := typeOfPointer (.int .uint32), Dest := typeOf (.int .uint8) },
      some (Func.base (copyPV fc (.int .uint8) (.int .uint32)))),  -- copyPUint32ToUint8
    ({ Src := typeOf (.int .uint32), Dest := typeOfPointer (.int .uint8) },
      some (Func.base (copyVP fc (.int .uint8) (.int .uint32)))),  -- copyUint32ToPUint8
    ({ Src := typeOfPointer (.int .uint32), Dest := typeOfPointer (.int .uint8) },
      some (Func.base (copyPP fc (.int .uint8) (.int .uint32)))),  -- copyPUint32ToPUint8
    -- uint64 to uint8
    ({ Src := typeOf (.int .uint64), Dest := typeOf (.int .uint8) },
      some (Func.base (copyVV fc (.int .uint8) (.int .uint64)))),  -- copyUint64ToUint8
    ({ Src := typeOfPointer (.int .uint64), Dest := typeOf (.int .uint8) },
      some (Func.base (copyPV fc (.int .uint8) (.int .uint64)))),  -- copyPUint64ToUint8
    ({ Src := typeOf (.int .uint64), Dest := typeOfPointer (.int .uint8) },
      some (Func.base (copyVP fc (.int .uint8) (.int .uint64)))),  -- copyUint64ToPUint8
    ({ Src := typeOfPointer (.int .uint64), Dest := typeOfPointer (.int .uint8) },
      some (Func.base (copyPP fc (.int .uint8) (.int .uint64))))  -- copyPUint64ToPUint8
  ] ++ [
    -- int to uint16
    ({ Src := typeOf (.int .int), Dest := typeOf (.int .uint16) },
      some (Func.base (copyVV fc (.int .uint16) (.int .int)))),  -- copyIntToUint16
    ({ Src := typeOfPointer (.int .int), Dest := typeOf (.int .uint16) },
      some (Func.base (copyPV fc (.int .uint16) (.int .int)))),  -- copyPIntToUint16
    ({ Src := typeOf (.int .int), Dest := typeOfPointer (.int .uint16) },
      some (Func.base (copyVP fc (.int .uint16) (.int .int)))),  -- copyIntToPUint16
    ({ Src := typeOfPointer (.int .int), Dest := typeOfPointer (.int .uint16) },
      some (Func.base (copyPP fc (.int .uint16) (.int .int)))),  -- copyPIntToPUint16
    -- int8 to uint16
    ({ Src := typeOf (.int .int8), Dest := typeOf (.int .uint16) },
      some (Func.base (copyVV fc (.int .uint16) (.int .int8)))),  -- copyInt8ToUint16
    ({ Src := typeOfPointer (.int .int8), Dest := typeOf (.int .uint16) },
      some (Func.base (copyPV fc (.int .uint16) (.int .int8)))),  -- copyPInt8ToUint16
    ({ Src := typeOf (.int .int8), Dest := typeOfPointer (.int .uint16) },
      some (Func.base (copyVP fc (.int .uint16) (.int .int8)))),  -- copyInt8ToPUint16
    ({ Src := typeOfPointer (.int .int8), Dest := typeOfPointer (.int .uint16) },
      some (Func.base (copyPP fc (.int .uint16) (.int .int8)))),  -- copyPInt8ToPUint16
    -- int16 to uint16
    ({ Src := typeOf (.int .int16), Dest := typeOf (.int .uint16) },
      some (Func.base (copyVV fc (.int .uint16) (.int .int16)))),  -- copyInt16ToUint16
    ({ Src := typeOfPointer (.int .int16), Dest := typeOf (.int .uint16) },
      some (Func.base (copyPV fc (.int .uint16) (.int .int16)))),  -- copyPInt16ToUint16
    ({ Src := typeOf (.int .int16), Dest := typeOfPointer (.int .uint16) },
      some (Func.base (copyVP fc (.int .uint16) (.int .int16)))),  -- copyInt16ToPUint16
    ({ Src := typeOfPointer (.int .int16), Dest := typeOfPointer (.int .uint16) },
      some (Func.base (copyPP fc (.int .uint16) (.int .int16)))),  -- copyPInt16ToPUint16
    -- int32 to uint16
    ({ Src := typeOf (.int .int32), Dest := typeOf (.int .uint16) },
      some (Func.base (copyVV fc (.int .uint16) (.int .int32)))),  -- copyInt32ToUint16
    ({ Src := typeOfPointer (.int .int32), Dest := typeOf (.int .uint16) },
      some (Func.base (copyPV fc (.int .uint16) (.int .int32)))),  -- copyPInt32ToUint16
    ({ Src := typeOf (.int .int32), Dest := typeOfPointer (.int .uint16) },
      some (Func.base (copyVP fc (.int .uint16) (.int .int32)))),  -- copyInt32ToPUint16
    ({ Src := typeOfPointer (.int .int32), Dest := typeOfPointer (.int .uint16) },
      some (Func.base (copyPP fc (.int .uint16) (.int .int32)))),  -- copyPInt32ToPUint16
    -- int64 to uint16
    ({ Src := typeOf (.int .int64), Dest := typeOf (.int .uint16) },
      some (Func.base (copyVV fc (.int .uint16) (.int .int64)))),  -- copyInt64ToUint16
    ({ Src := typeOfPointer (.int .int64), Dest := typeOf (.int .uint16) },
      some (Func.base (copyPV fc (.int .uint16) (.int .int64)))),  -- copyPInt64ToUint16
    ({ Src := typeOf (.int .int64), Dest := typeOfPointer (.int .uint16) },
      some (Func.base (copyVP fc (.int .uint16) (.int .int64)))),  -- copyInt64ToPUint16
    ({ Src := typeOfPointer (.int .int64), Dest := typeOfPointer (.int .uint16) },
      some (Func.base (copyPP fc (.int .uint16) (.int .int64)))),  -- copyPInt64ToPUint16
    -- uint to uint16
    ({ Src := typeOf (.int .uint), Dest := typeOf (.int .uint16) },
      some (Func.base (copyVV fc (.int .uint16) (.int .uint)))),  -- copyUintToUint16
    ({ Src := typeOfPointer (.int .uint), Dest := typeOf (.int .uint16) },
      some (Func.base (copyPV fc (.int .uint16) (.int .uint)))),  -- copyPUintToUint16
    ({ Src := typeOf (.int .uint), Dest := typeOfPointer (.int .uint16) },
      some (Func.base (copyVP fc (.int .uint16) (.int .uint)))),  -- copyUintToPUint16
    ({ Src := typeOfPointer (.int .uint), Dest := typeOfPointer (.int .uint16) },
      some (Func.base (copyPP fc (.int .uint16) (.int .uint)))),  -- copyPUintToPUint16
    -- uint8 to uint16
    ({ Src := typeOf (.int .uint8), Dest := typeOf (.int .uint16) },
      some (Func.base (copyVV fc (.int .uint16) (.int .uint8)))),  -- copyUint8ToUint16
    ({ Src := typeOfPointer (.int .uint8), Dest := typeOf (.int .uint16) },
      some (Func.base (copyPV fc (.int .uint16) (.int .uint8)))),  -- copyPUint8ToUint16
    ({ Src := typeOf (.int .uint8), Dest := typeOfPointer (.int .uint16) },
      some (Func.base (copyVP fc (.int .uint16) (.int .uint8)))),  -- copyUint8ToPUint16
    ({ Src := typeOfPointer (.int .uint8), Dest := typeOfPointer (.int .uint16) },
      some (Func.base (copyPP fc (.int .uint16) (.int .uint8)))),  -- copyPUint8ToPUint16
    -- uint16 to uint16
    ({ Src := typeOf (.int .uint16), Dest := typeOf (.int .uint16) },
      some (Func.base (copyVV fc (.int .uint16) (.int .uint16)))),  -- copyUint16ToUint16
    ({ Src := typeOfPointer (.int .uint16), Dest := typeOf (.int .uint16) },
      some (Func.base (copyPV fc (.int .uint16) (.int .uint16)))),  -- copyPUint16ToUint16
    ({ Src := typeOf (.int .uint16), Dest := typeOfPointer (.int .uint16) },
      some (Func.base (copyVP fc (.int .uint16) (.int .uint16)))),  -- copyUint16ToPUint16
    ({ Src := typeOfPointer (.int .uint16), Dest := typeOfPointer (.int .uint16) },
      some (Func.base (copyPP fc (.int .uint16) (.int .uint16)))),  -- copyPUint16ToPUint16
    -- uint32 to uint16
    ({ Src := typeOf (.int .uint32), Dest := typeOf (.int .uint16) },
      some (Func.base (copyVV fc (.int .uint16) (.int .uint32)))),  -- copyUint32ToUint16
    ({ Src := typeOfPointer (.int .uint32), Dest := typeOf (.int .uint16) },
      some (Func.base (copyPV fc (.int .uint16) (.int .uint32)))),  -- copyPUint32ToUint16
    ({ Src := typeOf (.int .uint32), Dest := typeOfPointer (.int .uint16) },
      some (Func.base (copyVP fc (.int .uint16) (.int .uint32)))),  -- copyUint32ToPUint16
    ({ Src := typeOfPointer (.int .uint32), Dest := typeOfPointer (.int .uint16) },
      some (Func.base (copyPP fc (.int .uint16) (.int .uint32)))),  -- copyPUint32ToPUint16
    -- uint64 to uint16
    ({ Src := typeOf (.int .uint64), Dest := typeOf (.int .uint16) },
      some (Func.base (copyVV fc (.int .uint16) (.int .uint64)))),  -- copyUint64ToUint16
    ({ Src := typeOfPointer (.int .uint64), Dest := typeOf (.int .uint16) },
      some (Func.base (copyPV fc (.int .uint16) (.int .uint64)))),  -- copyPUint64ToUint16
    ({ Src := typeOf (.int .uint64), Dest := typeOfPointer (.int .uint16) },
      some (Func.base (copyVP fc (.int .uint16) (.int .uint64)))),  -- copyUint64ToPUint16
    ({ Src := typeOfPointer (.int .uint64), Dest := typeOfPointer (.int .uint16) },
      some (Func.base (copyPP fc (.int .uint16) (.int .uint64))))  -- copyPUint64ToPUint16
  ] ++ [
    -- int to uint32
    ({ Src := typeOf (.int .int), Dest := typeOf (.int .uint32) },
      some (Func.base (copyVV fc (.int .uint32) (.int .int)))),  -- copyIntToUint32
    ({ Src := typeOfPointer (.int .int), Dest := typeOf (.int .uint32) },
      some (Func.base (copyPV fc (.int .uint32) (.int .int)))),  -- copyPIntToUint32
    ({ Src := typeOf (.int .int), Dest := typeOfPointer (.int .uint32) },
      some (Func.base (copyVP fc (.int .uint32) (.int .int)))),  -- copyIntToPUint32
    ({ Src := typeOfPointer (.int .int), Dest := typeOfPointer (.int .uint32) },
      some (Func.base (copyPP fc (.int .uint32) (.int .int)))),  -- copyPIntToPUint32
    -- int8 to uint32
    ({ Src := typeOf (.int .int8), Dest := typeOf (.int .uint32) },
      some (Func.base (copyVV fc (.int .uint32) (.int .int8)))),  -- copyInt8ToUint32
    ({ Src := typeOfPointer (.int .int8), Dest := typeOf (.int .uint32) },
      some (Func.base (copyPV fc (.int .uint32) (.int .int8)))),  -- copyPInt8ToUint32
    ({ Src := typeOf (.int .int8), Dest := typeOfPointer (.int .uint32) },
      some (Func.base (copyVP fc (.int .uint32) (.int .int8)))),  -- copyInt8ToPUint32
    ({ Src := typeOfPointer (.int .int8), Dest := typeOfPointer (.int .uint32) },
      some (Func.base (copyPP fc (.int .uint32) (.int .int8)))),  -- copyPInt8ToPUint32
    -- int16 to uint32
    ({ Src := typeOf (.int .int16), Dest := typeOf (.int .uint32) },
      some (Func.base (copyVV fc (.int .uint32) (.int .int16)))),  -- copyInt16ToUint32
    ({ Src := typeOfPointer (.int .int16), Dest := typeOf (.int .uint32) },
      some (Func.base (copyPV fc (.int .uint32) (.int .int16)))),  -- copyPInt16ToUint32
    ({ Src := typeOf (.int .int16), Dest := typeOfPointer (.int .uint32) },
      some (Func.base (copyVP fc (.int .uint32) (.int .int16)))),  -- copyInt16ToPUint32
    ({ Src := typeOfPointer (.int .int16), Dest := typeOfPointer (.int .uint32) },
      some (Func.base (copyPP fc (.int .uint32) (.int .int16)))),  -- copyPInt16ToPUint32
    -- int32 to uint32
    ({ Src := typeOf (.int .int32), Dest := typeOf (.int .uint32) },
      some (Func.base (copyVV fc (.int .uint32) (.int .int32)))),  -- copyInt32ToUint32
    ({ Src := typeOfPointer (.int .int32), Dest := typeOf (.int .uint32) },
      some (Func.base (copyPV fc (.int .uint32) (.int .int32)))),  -- copyPInt32ToUint32
    ({ Src := typeOf (.int .int32), Dest := typeOfPointer (.int .uint32) },
      some (Func.base (copyVP fc (.int .uint32) (.int .int32)))),  -- copyInt32ToPUint32
    ({ Src := typeOfPointer (.int .int32), Dest := typeOfPointer (.int .uint32) },
      some (Func.base (copyPP fc (.int .uint32) (.int .int32)))),  -- copyPInt32ToPUint32
    -- int64 to uint32
    ({ Src := typeOf (.int .int64), Dest := typeOf (.int .uint32) },
      some (Func.base (copyVV fc (.int .uint32) (.int .int64)))),  -- copyInt64ToUint32
    ({ Src := typeOfPointer (.int .int64), Dest := typeOf (.int .uint32) },
      some (Func.base (copyPV fc (.int .uint32) (.int .int64)))),  -- copyPInt64ToUint32
    ({ Src := typeOf (.int .int64), Dest := typeOfPointer (.int .uint32) },
      some (Func.base (copyVP fc (.int .uint32) (.int .int64)))),  -- copyInt64ToPUint32
    ({ Src := typeOfPointer (.int .int64), Dest := typeOfPointer (.int .uint32) },
      some (Func.base (copyPP fc (.int .uint32) (.int .int64)))),  -- copyPInt64ToPUint32
    -- uint to uint32
    ({ Src := typeOf (.int .uint), Dest := typeOf (.int .uint32) },
      some (Func.base (copyVV fc (.int .uint32) (.int .uint)))),  -- copyUintToUint32
    ({ Src := typeOfPointer (.int .uint), Dest := typeOf (.int .uint32) },
      some (Func.base (copyPV fc (.int .uint32) (.int .uint)))),  -- copyPUintToUint32
    ({ Src := typeOf (.int .uint), Dest := typeOfPointer (.int .uint32) },
      some (Func.base (copyVP fc (.int .uint32) (.int .uint)))),  -- copyUintToPUint32
    ({ Src := typeOfPointer (.int .uint), Dest := typeOfPointer (.int .uint32) },
      some (Func.base (copyPP fc (.int .uint32) (.int .uint)))),  -- copyPUintToPUint32
    -- uint8 to uint32
    ({ Src := typeOf (.int .uint8), Dest := typeOf (.int .uint32) },
      some (Func.base (copyVV fc (.int .uint32) (.int .uint8)))),  -- copyUint8ToUint32
    ({ Src := typeOfPointer (.int .uint8), Dest := typeOf (.int .uint32) },
      some (Func.base (copyPV fc (.int .uint32) (.int .uint8)))),  -- copyPUint8ToUint32
    ({ Src := typeOf (.int .uint8), Dest := typeOfPointer (.int .uint32) },
      some (Func.base (copyVP fc (.int .uint32) (.int .uint8)))),  -- copyUint8ToPUint32
    ({ Src := typeOfPointer (.int .uint8), Dest := typeOfPointer (.int .uint32) },
      some (Func.base (copyPP fc (.int .uint32) (.int .uint8)))),  -- copyPUint8ToPUint32
    -- uint16 to uint32
    ({ Src := typeOf (.int .uint16), Dest := typeOf (.int .uint32) },
      some (Func.base (copyVV fc (.int .uint32) (.int .uint16)))),  -- copyUint16ToUint32
    ({ Src := typeOfPointer (.int .uint16), Dest := typeOf (.int .uint32) },
      some (Func.base (copyPV fc (.int .uint32) (.int .uint16)))),  -- copyPUint16ToUint32
    ({ Src := typeOf (.int .uint16), Dest := typeOfPointer (.int .uint32) },
      some (Func.base (copyVP fc (.int .uint32) (.int .uint16)))),  -- copyUint16ToPUint32
    ({ Src := typeOfPointer (.int .uint16), Dest := typeOfPointer (.int .uint32) },
      some (Func.base (copyPP fc (.int .uint32) (.int .uint16)))),  -- copyPUint16ToPUint32
    -- uint32 to uint32
    ({ Src := typeOf (.int .uint32), Dest := typeOf (.int .uint32) },
      some (Func.base (copyVV fc (.int .uint32) (.int .uint32)))),  -- copyUint32ToUint32
    ({ Src := typeOfPointer (.int .uint32), Dest := typeOf (.int .uint32) },
      some (Func.base (copyPV fc (.int .uint32) (.int .uint32)))),  -- copyPUint32ToUint32
    ({ Src := typeOf (.int .uint32), Dest := typeOfPointer (.int .uint32) },
      some (Func.base (copyVP fc (.int .uint32) (.int .uint32)))),  -- copyUint32ToPUint32
    ({ Src := typeOfPointer (.int .uint32), Dest := typeOfPointer (.int .uint32) },
      some (Func.base (copyPP fc (.int .uint32) (.int .uint32)))),  -- copyPUint32ToPUint32
    -- uint64 to uint32
    ({ Src := typeOf (.int .uint64), Dest := typeOf (.int .uint32) },
      some (Func.base (copyVV fc (.int .uint32) (.int .uint64)))),  -- copyUint64ToUint32
    ({ Src := typeOfPointer (.int .uint64), Dest := typeOf (.int .uint32) },
      some (Func.base (copyPV fc (.int .uint32) (.int .uint64)))),  -- copyPUint64ToUint32
    ({ Src := typeOf (.int .uint64), Dest := typeOfPointer (.int .uint32) },
      some (Func.base (copyVP fc (.int .uint32) (.int .uint64)))),  -- copyUint64ToPUint32
    ({ Src := typeOfPointer (.int .uint64), Dest := typeOfPointer (.int .uint32) },
      some (Func.base (copyPP fc (.int .uint32) (.int .uint64))))  -- copyPUint64ToPUint32
  ] ++ [
    -- int to uint64
    ({ Src := typeOf (.int .int), Dest := typeOf (.int .uint64) },
      some (Func.base (copyVV fc (.int .uint64) (.int .int)))),  -- copyIntToUint64
    ({ Src := typeOfPointer (.int .int), Dest := typeOf (.int .uint64) },
      some (Func.base (copyPV fc (.int .uint64) (.int .int)))),  -- copyPIntToUint64
    ({ Src := typeOf (.int .int), Dest := typeOfPointer (.int .uint64) },
      some (Func.base (copyVP fc (.int .uint64) (.int .int)))),  -- copyIntToPUint64
    ({ Src := typeOfPointer (.int .int), Dest := typeOfPointer (.int .uint64) },
      some (Func.base (copyPP fc (.int .uint64) (.int .int)))),  -- copyPIntToPUint64
    -- int8 to uint64
    ({ Src := typeOf (.int .int8), Dest := typeOf (.int .uint64) },
      some (Func.base (copyVV fc (.int .uint64) (.int .int8)))),  -- copyInt8ToUint64
    ({ Src := typeOfPointer (.int .int8), Dest := typeOf (.int .uint64) },
      some (Func.base (copyPV fc (.int .uint64) (.int .int8)))),  -- copyPInt8ToUint64
    ({ Src := typeOf (.int .int8), Dest := typeOfPointer (.int .uint64) },
      some (Func.base (copyVP fc (.int .uint64) (.int .int8)))),  -- copyInt8ToPUint64
    ({ Src := typeOfPointer (.int .int8), Dest := typeOfPointer (.int .uint64) },
      some (Func.base (copyPP fc (.int .uint64) (.int .int8)))),  -- copyPInt8ToPUint64
    -- int16 to uint64
    ({ Src := typeOf (.int .int16), Dest := typeOf (.int .uint64) },
      some (Func.base (copyVV fc (.int .uint64) (.int .int16)))),  -- copyInt16ToUint64
    ({ Src := typeOfPointer (.int .int16), Dest := typeOf (.int .uint64) },
      some (Func.base (copyPV fc (.int .uint64) (.int .int16)))),  -- copyPInt16ToUint64
    ({ Src := typeOf (.int .int16), Dest := typeOfPointer (.int .uint64) },
      some (Func.base (copyVP fc (.int .uint64) (.int .int16)))),  -- copyInt16ToPUint64
    ({ Src := typeOfPointer (.int .int16), Dest := typeOfPointer (.int .uint64) },
      some (Func.base (copyPP fc (.int .uint64) (.int .int16)))),  -- copyPInt16ToPUint64
    -- int32 to uint64
    ({ Src := typeOf (.int .int32), Dest := typeOf (.int .uint64) },
      some (Func.base (copyVV fc (.int .uint64) (.int .int32)))),  -- copyInt32ToUint64
    ({ Src := typeOfPointer (.int .int32), Dest := typeOf (.int .uint64) },
      some (Func.base (copyPV fc (.int .uint64) (.int .int32)))),  -- copyPInt32ToUint64
    ({ Src := typeOf (.int .int32), Dest := typeOfPointer (.int .uint64) },
      some (Func.base (copyVP fc (.int .uint64) (.int .int32)))),  -- copyInt32ToPUint64
    ({ Src := typeOfPointer (.int .int32), Dest := typeOfPointer (.int .uint64) },
      some (Func.base (copyPP fc (.int .uint64) (.int .int32)))),  -- copyPInt32ToPUint64
    -- int64 to uint64
    ({ Src := typeOf (.int .int64), Dest := typeOf (.int .uint64) },
      some (Func.base (copyVV fc (.int .uint64) (.int .int64)))),  -- copyInt64ToUint64
    ({ Src := typeOfPointer (.int .int64), Dest := typeOf (.int .uint64) },
      some (Func.base (copyPV fc (.int .uint64) (.int .int64)))),  -- copyPInt64ToUint64
    ({ Src := typeOf (.int .int64), Dest := typeOfPointer (.int .uint64) },
      some (Func.base (copyVP fc (.int .uint64) (.int .int64)))),  -- copyInt64ToPUint64
    ({ Src := typeOfPointer (.int .int64), Dest := typeOfPointer (.int .uint64) },
      some (Func.base (copyPP fc (.int .uint64) (.int .int64)))),  -- copyPInt64ToPUint64
    -- uint to uint64
    ({ Src := typeOf (.int .uint), Dest := typeOf (.int .uint64) },
      some (Func.base (copyVV fc (.int .uint64) (.int .uint)))),  -- copyUintToUint64
    ({ Src := typeOfPointer (.int .uint), Dest := typeOf (.int .uint64) },
      some (Func.base (copyPV fc (.int .uint64) (.int .uint)))),  -- copyPUintToUint64
    ({ Src := typeOf (.int .uint), Dest := typeOfPointer (.int .uint64) },
      some (Func.base (copyVP fc (.int .uint64) (.int .uint)))),  -- copyUintToPUint64
    ({ Src := typeOfPointer (.int .uint), Dest := typeOfPointer (.int .uint64) },
      some (Func.base (copyPP fc (.int .uint64) (.int .uint)))),  -- copyPUintToPUint64
    -- uint8 to uint64
    ({ Src := typeOf (.int .uint8), Dest := typeOf (.int .uint64) },
      some (Func.base (copyVV fc (.int .uint64) (.int .uint8)))),  -- copyUint8ToUint64
    ({ Src := typeOfPointer (.int .uint8), Dest := typeOf (.int .uint64) },
      some (Func.base (copyPV fc (.int .uint64) (.int .uint8)))),  -- copyPUint8ToUint64
    ({ Src := typeOf (.int .uint8), Dest := typeOfPointer (.int .uint64) },
      some (Func.base (copyVP fc (.int .uint64) (.int .uint8)))),  -- copyUint8ToPUint64
    ({ Src := typeOfPointer (.int .uint8), Dest := typeOfPointer (.int .uint64) },
      some (Func.base (copyPP fc (.int .uint64) (.int .uint8)))),  -- copyPUint8ToPUint64
    -- uint16 to uint64
    ({ Src := typeOf (.int .uint16), Dest := typeOf (.int .uint64) },
      some (Func.base (copyVV fc (.int .uint64) (.int .uint16)))),  -- copyUint16ToUint64
    ({ Src := typeOfPointer (.int .uint16), Dest := typeOf (.int .uint64) },
      some (Func.base (copyPV fc (.int .uint64) (.int .uint16)))),  -- copyPUint16ToUint64
    ({ Src := typeOf (.int .uint16), Dest := typeOfPointer (.int .uint64) },
      some (Func.base (copyVP fc (.int .uint64) (.int .uint16)))),  -- copyUint16ToPUint64
    ({ Src := typeOfPointer (.int .uint16), Dest := typeOfPointer (.int .uint64) },
      some (Func.base (copyPP fc (.int .uint64) (.int .uint16)))),  -- copyPUint16ToPUint64
    -- uint32 to uint64
    ({ Src := typeOf (.int .uint32), Dest := typeOf (.int .uint64) },
      some (Func.base (copyVV fc (.int .uint64) (.int .uint32)))),  -- copyUint32ToUint64
    ({ Src := typeOfPointer (.int .uint32), Dest := typeOf (.int .uint64) },
      some (Func.base (copyPV fc (.int .uint64) (.int .uint32)))),  -- copyPUint32ToUint64
    ({ Src := typeOf (.int .uint32), Dest := typeOfPointer (.int .uint64) },
      some (Func.base (copyVP fc (.int .uint64) (.int .uint32)))),  -- copyUint32ToPUint64
    ({ Src := typeOfPointer (.int .uint32), Dest := typeOfPointer (.int .uint64) },
      some (Func.base (copyPP fc (.int .uint64) (.int .uint32)))),  -- copyPUint32ToPUint64
    -- uint64 to uint64
    ({ Src := typeOf (.int .uint64), Dest := typeOf (.int .uint64) },
      some (Func.base (copyVV fc (.int .uint64) (.int .uint64)))),  -- copyUint64ToUint64
    ({ Src := typeOfPointer (.int .uint64), Dest := typeOf (.int .uint64) },
      some (Func.base (copyPV fc (.int .uint64) (.int .uint64)))),  -- copyPUint64ToUint64
    ({ Src := typeOf (.int .uint64), Dest := typeOfPointer (.int .uint64) },
      some (Func.base (copyVP fc (.int .uint64) (.int .uint64)))),  -- copyUint64ToPUint64
    ({ Src := typeOfPointer (.int .uint64), Dest := typeOfPointer (.int .uint64) },
      some (Func.base (copyPP fc (.int .uint64) (.int .uint64))))  -- copyPUint64ToPUint64
  ] ++ [
    -- float32 to float32
    ({ Src := typeOf .float32, Dest := typeOf .float32 },
      some (Func.base (copyVV fc .float32 .float32))),  -- copyFloat32ToFloat32
    ({ Src := typeOfPointer .float32, Dest := typeOf .float32 },
      some (Func.base (copyPV fc .float32 .float32))),  -- copyPFloat32ToFloat32
    ({ Src := typeOf .float32, Dest := typeOfPointer .float32 },
      some (Func.base (copyVP fc .float32 .float32))),  -- copyFloat32ToPFloat32
    ({ Src := typeOfPointer .float32, Dest := typeOfPointer .float32 },
      some (Func.base (copyPP fc .float32 .float32))),  -- copyPFloat32ToPFloat32
    -- float64 to float32
    ({ Src := typeOf .float64, Dest := typeOf .float32 },
      some (Func.base (copyVV fc .float32 .float64))),  -- copyFloat64ToFloat32
    ({ Src := typeOfPointer .float64, Dest := typeOf .float32 },
      some (Func.base (copyPV fc .float32 .float64))),  -- copyPFloat64ToFloat32
    ({ Src := typeOf .float64, Dest := typeOfPointer .float32 },
      some (Func.base (copyVP fc .float32 .float64))),  -- copyFloat64ToPFloat32
    ({ Src := typeOfPointer .float64, Dest := typeOfPointer .float32 },
      some (Func.base (copyPP fc .float32 .float64)))  -- copyPFloat64ToPFloat32
  ] ++ [
    -- float32 to float64
    ({ Src := typeOf .float32, Dest := typeOf .float64 },
      some (Func.base (copyVV fc .float64 .float32))),  -- copyFloat32ToFloat64
    ({ Src := typeOfPointer .float32, Dest := typeOf .float64 },
      some (Func.base (copyPV fc .float64 .float32))),  -- copyPFloat32ToFloat64
    ({ Src := typeOf .float32, Dest := typeOfPointer .float64 },
      some (Func.base (copyVP fc .float64 .float32))),  -- copyFloat32ToPFloat64
    ({ Src := typeOfPointer .float32, Dest := typeOfPointer .float64 },
      some (Func.base (copyPP fc .float64 .float32))),  -- copyPFloat32ToPFloat64
    -- float64 to float64
    ({ Src := typeOf .float64, Dest := typeOf .float64 },
      some (Func.base (copyVV fc .float64 .float64))),  -- copyFloat64ToFloat64
    ({ Src := typeOfPointer .float64, Dest := typeOf .float64 },
      some (Func.base (copyPV fc .float64 .float64))),  -- copyPFloat64ToFloat64
    ({ Src := typeOf .float64, Dest := typeOfPointer .float64 },
      some (Func.base (copyVP fc .float64 .float64))),  -- copyFloat64ToPFloat64
    ({ Src := typeOfPointer .float64, Dest := typeOfPointer .float64 },
      some (Func.base (copyPP fc .float64 .float64)))  -- copyPFloat64ToPFloat64
  ] ++ [
    -- bool to bool
    ({ Src := typeOf .bool, Dest := typeOf .bool },
      some (Func.base (copyVV fc .bool .bool))),  -- copyBoolToBool
    ({ Src := typeOfPointer .bool, Dest := typeOf .bool },
      some (Func.base (copyPV fc .bool .bool))),  -- copyPBoolToBool
    ({ Src := typeOf .bool, Dest := typeOfPointer .bool },
      some (Func.base (copyVP fc .bool .bool))),  -- copyBoolToPBool
    ({ Src := typeOfPointer .bool, Dest := typeOfPointer .bool },
      some (Func.base (copyPP fc .bool .bool)))  -- copyPBoolToPBool
  ] ++ [
    -- complex64 to complex64
    ({ Src := typeOf .complex64, Dest := typeOf .complex64 },
      some (Func.base (copyVV fc .complex64 .complex64))),  -- copyComplex64ToComplex64
    ({ Src := typeOfPointer .complex64, Dest := typeOf .complex64 },
      some (Func.base (copyPV fc .complex64 .complex64))),  -- copyPComplex64ToComplex64
    ({ Src := typeOf .complex64, Dest := typeOfPointer .complex64 },
      some (Func.base (copyVP fc .complex64 .complex64))),  -- copyComplex64ToPComplex64
    ({ Src := typeOfPointer .complex64, Dest := typeOfPointer .complex64 },
      some (Func.base (copyPP fc .complex64 .complex64))),  -- copyPComplex64ToPComplex64
    -- complex128 to complex64
    ({ Src := typeOf .complex128, Dest := typeOf .complex64 },
      some (Func.base (copyVV fc .complex64 .complex128))),  -- copyComplex128ToComplex64
    ({ Src := typeOfPointer .complex128, Dest := typeOf .complex64 },
      some (Func.base (copyPV fc .complex64 .complex128))),  -- copyPComplex128ToComplex64
    ({ Src := typeOf .complex128, Dest := typeOfPointer .complex64 },
      some (Func.base (copyVP fc .complex64 .complex128))),  -- copyComplex128ToPComplex64
    ({ Src := typeOfPointer .complex128, Dest := typeOfPointer .complex64 },
      some (Func.base (copyPP fc .complex64 .complex128)))  -- copyPComplex128ToPComplex64
  ] ++ [
    -- complex64 to complex128
    ({ Src := typeOf .complex64, Dest := typeOf .complex128 },
      some (Func.base (copyVV fc .complex128 .complex64))),  -- copyComplex64ToComplex128
    ({ Src := typeOfPointer .complex64, Dest := typeOf .complex128 },
      some (Func.base (copyPV fc .complex128 .complex64))),  -- copyPComplex64ToComplex128
    ({ Src := typeOf .complex64, Dest := typeOfPointer .complex128 },
      some (Func.base (copyVP fc .complex128 .complex64))),  -- copyComplex64ToPComplex128
    ({ Src := typeOfPointer .complex64, Dest := typeOfPointer .complex128 },
      some (Func.base (copyPP fc .complex128 .complex64))),  -- copyPComplex64ToPComplex128
    -- complex128 to complex128
    ({ Src := typeOf .complex128, Dest := typeOf .complex128 },
      some (Func.base (copyVV fc .complex128 .complex128))),  -- copyComplex128ToComplex128
    ({ Src := typeOfPointer .complex128, Dest := typeOf .complex128 },
      some (Func.base (copyPV fc .complex128 .complex128))),  -- copyPComplex128ToComplex128
    ({ Src := typeOf .complex128, Dest := typeOfPointer .complex128 },
      some (Func.base (copyVP fc .complex128 .complex128))),  -- copyComplex128ToPComplex128
    ({ Src := typeOfPointer .complex128, Dest := typeOfPointer .complex128 },
      some (Func.base (copyPP fc .complex128 .complex128)))  -- copyPComplex128ToPComplex128
  ] ++ [
    -- string to string
    ({ Src := typeOf .string, Dest := typeOf .string },
      some (Func.base (copyVV fc .string .string))),  -- copyStringToString
    ({ Src := typeOfPointer .string, Dest := typeOf .string },
      some (Func.base (copyPV fc .string .string))),  -- copyPStringToString
    ({ Src := typeOf .string, Dest := typeOfPointer .string },
      some (Func.base (copyVP fc .string .string))),  -- copyStringToPString
    ({ Src := typeOfPointer .string, Dest := typeOfPointer .string },
      some (Func.base (copyPP fc .string .string))),  -- copyPStringToPString
    -- []byte to string
    ({ Src := typeOf .bytes, Dest := typeOf .string },
      some (Func.base (copyVV fc .string .bytes))),  -- copyBytesToString
    ({ Src := typeOfPointer .bytes, Dest := typeOf .string },
      some (Func.base (copyPV fc .string .bytes))),  -- copyPBytesToString
    ({ Src := typeOf .bytes, Dest := typeOfPointer .string },
      some (Func.base (copyVP fc .string .bytes))),  -- copyBytesToPString
    ({ Src := typeOfPointer .bytes, Dest := typeOfPointer .string },
      some (Func.base (copyPP fc .string .bytes)))  -- copyPBytesToPString
  ] ++ [
    -- string to []byte
    ({ Src := typeOf .string, Dest := typeOf .bytes },
      some (Func.base (copyVV fc .bytes .string))),  -- copyStringToBytes
    ({ Src := typeOfPointer .string, Dest := typeOf .bytes },
      some (Func.base (copyPV fc .bytes .string))),  -- copyPStringToBytes
    ({ Src := typeOf .string, Dest := typeOfPointer .bytes },
      some (Func.base (copyVP fc .bytes .string))),  -- copyStringToPBytes
    ({ Src := typeOfPointer .string, Dest := typeOfPointer .bytes },
      some (Func.base (copyPP fc .bytes .string))),  -- copyPStringToPBytes
    -- []byte to []byte
    ({ Src := typeOf .bytes, Dest := typeOf .bytes },
      some (Func.base (copyVV fc .bytes .bytes))),  -- copyBytesToBytes
    ({ Src := typeOfPointer .bytes, Dest := typeOf .bytes },
      some (Func.base (copyPV fc .bytes .bytes))),  -- copyPBytesToBytes
    ({ Src := typeOf .bytes, Dest := typeOfPointer .bytes },
      some (Func.base (copyVP fc .bytes .bytes))),  -- copyBytesToPBytes
    ({ Src := typeOfPointer .bytes, Dest := typeOfPointer .bytes },
      some (Func.base (copyPP fc .bytes .bytes)))  -- copyPBytesToPBytes
  ] ++ [
    -- time.Time to time.Time
    ({ Src := typeOf .time, Dest := typeOf .time },
      some (Func.base (copyVV fc .time .time))),  -- copyTimeToTime
    ({ Src := typeOfPointer .time, Dest := typeOf .time },
      some (Func.base (copyPV fc .time .time))),  -- copyPTimeToTime
    ({ Src := typeOf .time, Dest := typeOfPointer .time },
      some (Func.base (copyVP fc .time .time))),  -- copyTimeToPTime
    ({ Src := typeOfPointer .time, Dest := typeOfPointer .time },
      some (Func.base (copyPP fc .time .time)))  -- copyPTimeToPTime
  ] ++ [
    -- time.Duration to time.Duration
    ({ Src := typeOf .duration, Dest := typeOf .duration },
      some (Func.base (copyVV fc .duration .duration))),  -- copyDurationToDuration
    ({ Src := typeOfPointer .duration, Dest := typeOf .duration },
      some (Func.base (copyPV fc .duration .duration))),  -- copyPDurationToDuration
    ({ Src := typeOf .duration, Dest := typeOfPointer .duration },
      some (Func.base (copyVP fc .duration .duration))),  -- copyDurationToPDuration
    ({ Src := typeOfPointer .duration, Dest := typeOfPointer .duration },
      some (Func.base (copyPP fc .duration .duration)))  -- copyPDurationToPDuration
  ]
  sizes := sizes.map (Option.map Func.raw)

/-! ## The enumeration of the baseline keys -/

/-- The ten integer types, in the order in which the source lists them. -/
def intTypes : List IntType :=
  [.int, .int8, .int16, .int32, .int64, .uint, .uint8, .uint16, .uint32, .uint64]

/-- The 115 type pairs `(destination, source)` of the baseline: every ordered
pair of the ten integer types, every ordered pair of `float32` and `float64`,
`bool` to `bool`, every ordered pair of `complex64` and `complex128`, every
ordered pair of `string` and `[]byte`, `time.Time` to `time.Time` and
`time.Duration` to `time.Duration`. -/
def baselinePairs : List (Leaf × Leaf) :=
  (intTypes.flatMap fun d => intTypes.map fun s => (Leaf.int d, Leaf.int s)) ++
  [(.float32, .float32), (.float32, .float64), (.float64, .float32), (.float64, .float64),
   (.bool, .bool),
   (.complex64, .complex64), (.complex64, .complex128), (.complex128, .complex64),
   (.complex128, .complex128),
   (.string, .string), (.string, .bytes), (.bytes, .string), (.bytes, .bytes),
   (.time, .time), (.duration, .duration)]

/-- Descriptor of a side of a registered pair: the leaf type itself (direct
value) or the pointer to it (one-level pointer). -/
def sideType (isPtr : Bool) (T : Leaf) : RType :=
  if isPtr then typeOfPointer T else typeOf T

/-- Key of the indirection variant `(srcPtr, dstPtr)` of the pair `(D, S)`. -/
def keyOf (srcPtr dstPtr : Bool) (D S : Leaf) : funcKey :=
  { Src := sideType srcPtr S, Dest := sideType dstPtr D }

/-- The function of the indirection variant `(srcPtr, dstPtr)` of the pair
`(D, S)`: `copy<S>To<D>`, `copyP<S>To<D>`, `copy<S>ToP<D>` or
`copyP<S>ToP<D>`. -/
def funcOf (fc : FloatConv) (srcPtr dstPtr : Bool) (D S : Leaf) : BaseFunc :=
  match srcPtr, dstPtr with
  | false, false => copyVV fc D S
  | true, false => copyPV fc D S
  | false, true => copyVP fc D S
  | true, true => copyPP fc D S

/-- The four indirection variants of every baseline pair, as
`(srcPtr, dstPtr, D, S)`. -/
def baselineIndex : List (Bool × Bool × Leaf × Leaf) :=
  baselinePairs.flatMap fun p =>
    [(false, false, p.1, p.2), (true, false, p.1, p.2), (false, true, p.1, p.2),
     (true, true, p.1, p.2)]

deriving instance Fintype for IntType

deriving instance Fintype for Leaf

/-- Example store: an `int64` holding 4295032833 (2^32 + 2^16 + 1) at 0, an
`int32` at 1 and an `int16` at 2. -/
def exStoreChain : Store :=
  [.val (.int .int64 4295032833), .val (.int .int32 0), .val (.int .int16 0)]

/-- Example store: at 0 a `[]byte` holding the bytes ff fe (not valid UTF-8), at
1 a `string`, at 2 a nil `[]byte`, at 3 the string with the bytes c3 28. -/
def exStoreBytes : Store :=
  [.val (.bytes (some [255, 254])), .val (.string []), .val (.bytes none),
   .val (.string [195, 40])]

/-! ## The package functions `Get` and `Set`

The package variable `funcs` is a pointer to one `CopyFuncs` value, the global
registry.  A package function is a step on the content of that variable: it
takes the registry before the call and returns its result together with the
registry after the call. -/

/-- Package function `Get`: `return funcs.Get(dst, src)`. -/
def Get (dst src : RType) (g : CopyFuncs Func) :
    Except Panic (Option Func × CopyFuncs Func) :=
  g.GetStep dst src

/-- Package function `Set`: `funcs.Set(dst, src, f)`. -/
def Set (dst src : RType) (f : Option Func) (g : CopyFuncs Func) : CopyFuncs Func :=
  g.Set dst src f

/-! ## A map without a key, as worded in the specification -/

/-- Specification, "the key is not in the map at all": the map content with
every entry of the key `k` removed (Go's `delete(m, k)`, which the package
never calls). -/
def specWithoutKey {F : Type} (m : List (funcKey × Option F)) (k : funcKey) :
    List (funcKey × Option F) :=
  m.filter (fun e => decide (e.1 ≠ k))

/-! ## Further example inputs -/

/-- Example descriptor: `*P` for the struct type `P`, on a 64-bit platform. -/
def exPtrStructP : RType := .ptr "" 8 exStructP

/-- Example store: an `int8` holding -1 at 0, a `uint64` at 1 and an `int8` at
2. -/
def exStoreRound : Store :=
  [.val (.int .int8 (-1)), .val (.int .uint64 0), .val (.int .int8 0)]

/-- Example store: two null pointers, at 0 and at 1. -/
def exStoreNull : Store := [.ptr none, .ptr none]

/-- Example store: an `int` holding 7 at 0, an `int` holding 3 at 1, a pointer
to the variable 0 at 2 and a pointer to the variable 1 at 3. -/
def exStoreTwoPtr : Store :=
  [.val (.int .int 7), .val (.int .int 3), .ptr (some 0), .ptr (some 1)]

/-! ## Byte slices with their backing arrays

The store above holds a `[]byte` variable by its content, which is what a copy
leaves at `dst`.  A Go slice value is a header (pointer to the backing array,
length, capacity), and the conversion `[]byte(x)` of a `[]byte` value `x` is
`x` itself: it copies the header and not the elements.  To see which storage
two slice variables share, the functions `copyBytesToPBytes` and
`copyPBytesToPBytes` are modelled a second time on a store that keeps slice
headers and element storage apart. -/

/-- A value of type `[]byte`: `data` is the address of the first element in the
element storage (`none` for a nil slice), with the length and the capacity. -/
structure SliceHeader where
  data : Option Addr
  len : Nat
  cap : Nat
  deriving DecidableEq, Repr

/-- A variable of the slice store: a `[]byte` value, or a `*[]byte` pointer. -/
inductive SliceCell where
  | hdr (h : SliceHeader)
  | ptr (p : Option Addr)
  deriving DecidableEq, Repr

/-- Variables holding slices and pointers to slices, and the bytes of the
backing arrays. -/
structure SliceStore where
  vars : List SliceCell
  elems : Mem

/-- Read `*(*[]byte)(a)`. -/
def loadHdr (st : SliceStore) (a : Addr) : Except Fault SliceHeader :=
  match st.vars[a]? with
  | some (.hdr h) => .ok h
  | _ => .error .invalidAccess

/-- Write `*(*[]byte)(a) = h`. -/
def storeHdr (st : SliceStore) (a : Addr) (h : SliceHeader) : Except Fault SliceStore :=
  match st.vars[a]? with
  | some (.hdr _) => .ok { st with vars := st.vars.set a (.hdr h) }
  | _ => .error .invalidAccess

/-- Read `*(**[]byte)(a)`. -/
def loadHdrPtr (st : SliceStore) (a : Addr) : Except Fault (Option Addr) :=
  match st.vars[a]? with
  | some (.ptr p) => .ok p
  | _ => .error .invalidAccess

/-- Write `*(**[]byte)(a) = p`. -/
def storeHdrPtr (st : SliceStore) (a : Addr) (p : Option Addr) : Except Fault SliceStore :=
  match st.vars[a]? with
  | some (.ptr _) => .ok { st with vars := st.vars.set a (.ptr p) }
  | _ => .error .invalidAccess

/-- Address-of `&v` of a local slice variable holding `v`: the variable is
placed at the first free address; the elements stay where they are. -/
def addressOfHdr (st : SliceStore) (v : SliceHeader) : Addr × SliceStore :=
  (st.vars.length, { st with vars := st.vars ++ [.hdr v] })

/-- Function `copyBytesToPBytes`:
`v := []byte(*(*[]byte)(src)); p := (**[]byte)(dst);
if p := *p; p != nil { *p = v; return }; *p = &v`. -/
def copyBytesToPBytes (dst src : Addr) (st : SliceStore) : Except Fault SliceStore := do
  let v ← loadHdr st src
  let q ← loadHdrPtr st dst
  match q with
  | some a => storeHdr st a v
  | none =>
    let (a, st1) := addressOfHdr st v
    storeHdrPtr st1 dst (some a)

/-- Function `copyPBytesToPBytes`:
`var v []byte; if p := *(**[]byte)(src); p != nil { v = []byte(*p) };
p := (**[]byte)(dst); if p := *p; p != nil { *p = v; return }; *p = &v`. -/
def copyPBytesToPBytes (dst src : Addr) (st : SliceStore) : Except Fault SliceStore := do
  let v0 : SliceHeader := { data := none, len := 0, cap := 0 }
  let p ← loadHdrPtr st src
  let v ←
    match p with
    | some a => loadHdr st a
    | none => pure v0
  let q ← loadHdrPtr st dst
  match q with
  | some a => storeHdr st a v
  | none =>
    let (a, st1) := addressOfHdr st v
    storeHdrPtr st1 dst (some a)

/-- Go statement `s[i] = b` of a caller, for the slice variable `s` at address
`a`; an index out of range is a fault. -/
def setIndex (st : SliceStore) (a : Addr) (i : Nat) (b : Fin 256) :
    Except Fault SliceStore := do
  let h ← loadHdr st a
  match h.data with
  | some d =>
    if i < h.len then
      .ok { st with elems := fun x => if x = d + i then b else st.elems x }
    else .error .invalidAccess
  | none => .error .invalidAccess

/-- Go expression `(**p)[i]` of a caller, for `p = (**[]byte)(a)`: element `i`
of the slice that the pointer variable at `a` points to. -/
def indexThrough (st : SliceStore) (a : Addr) (i : Nat) : Except Fault (Fin 256) := do
  let p ← loadHdrPtr st a
  match p with
  | some q => do
    let h ← loadHdr st q
    match h.data with
    | some d => if i < h.len then .ok (st.elems (d + i)) else .error .invalidAccess
    | none => .error .invalidAccess
  | none => .error .invalidAccess

/-- Example slice store: at 0 a `[]byte` of length 2 whose elements are the
bytes 100 and 101 of the example memory, at 1 a null `*[]byte`, at 2 a pointer
to the variable 0. -/
def exSliceStore : SliceStore :=
  { vars := [.hdr { data := some 100, len := 2, cap := 2 }, .ptr none, .ptr (some 0)],
    elems := exMem }

/-! ## Auxiliary lemmas -/

theorem lookup_cons_eq {F : Type} (m : List (funcKey × Option F)) (k k' : funcKey)
    (v : Option F) :
    ((k, v) :: m).lookup k' = if k' = k then some v else m.lookup k' := by
  by_cases h : k' = k
  · subst h
    simp
  · have hb : (k' == k) = false := beq_false_of_ne h
    simp [List.lookup_cons, hb, h]

theorem lookup_mapAssign {F : Type} (m : List (funcKey × Option F)) (k k' : funcKey)
    (v : Option F) :
    (mapAssign m k v).lookup k' = if k' = k then some v else m.lookup k' := by
  induction m with
  | nil => simp [mapAssign, lookup_cons_eq]
  | cons e rest ih =>
    obtain ⟨k0, v0⟩ := e
    by_cases h0 : k0 = k
    · subst h0
      by_cases h : k' = k0 <;> simp [mapAssign, lookup_cons_eq, h]
    · by_cases h1 : k' = k0
      · subst h1
        simp [mapAssign, lookup_cons_eq, h0]
      · simp [mapAssign, lookup_cons_eq, h0, h1, ih]

theorem mapIndex_mapAssign {F : Type} (m : List (funcKey × Option F)) (k k' : funcKey)
    (v : Option F) :
    mapIndex (mapAssign m k v) k' = if k' = k then v else mapIndex m k' := by
  unfold mapIndex
  rw [lookup_mapAssign]
  by_cases h : k' = k <;> simp [h]

theorem plain_match {α : Type} (k : PlainKind) (a b : α) :
    (match k.toKind with
      | .Array | .Chan | .Map | .Ptr | .Slice => a
      | _ => b) = b := by
  cases k <;> rfl

theorem toKind_ne (k : PlainKind) :
    k.toKind ≠ Kind.Array ∧ k.toKind ≠ Kind.Chan ∧ k.toKind ≠ Kind.Map ∧
    k.toKind ≠ Kind.Ptr ∧ k.toKind ≠ Kind.Slice := by
  cases k <;> simp [PlainKind.toKind]

theorem toKind_eq_Array (k : PlainKind) : (k.toKind = Kind.Array) = False :=
  eq_false (toKind_ne k).1

theorem toKind_eq_Chan (k : PlainKind) : (k.toKind = Kind.Chan) = False :=
  eq_false (toKind_ne k).2.1

theorem toKind_eq_Map (k : PlainKind) : (k.toKind = Kind.Map) = False :=
  eq_false (toKind_ne k).2.2.1

theorem toKind_eq_Ptr (k : PlainKind) : (k.toKind = Kind.Ptr) = False :=
  eq_false (toKind_ne k).2.2.2.1

theorem toKind_eq_Slice (k : PlainKind) : (k.toKind = Kind.Slice) = False :=
  eq_false (toKind_ne k).2.2.2.2

theorem Array_eq_toKind (k : PlainKind) : (Kind.Array = k.toKind) = False :=
  eq_false (fun h => (toKind_ne k).1 h.symm)

theorem Chan_eq_toKind (k : PlainKind) : (Kind.Chan = k.toKind) = False :=
  eq_false (fun h => (toKind_ne k).2.1 h.symm)

theorem Map_eq_toKind (k : PlainKind) : (Kind.Map = k.toKind) = False :=
  eq_false (fun h => (toKind_ne k).2.2.1 h.symm)

theorem Ptr_eq_toKind (k : PlainKind) : (Kind.Ptr = k.toKind) = False :=
  eq_false (fun h => (toKind_ne k).2.2.2.1 h.symm)

theorem Slice_eq_toKind (k : PlainKind) : (Kind.Slice = k.toKind) = False :=
  eq_false (fun h => (toKind_ne k).2.2.2.2 h.symm)

theorem Get_of_entry {F : Type} (t : CopyFuncs F) (dst src : RType) (f : F)
    (h : mapIndex t.funcs { Src := src, Dest := dst } = some f) :
    t.Get dst src = .ok (some f) := by
  simp [CopyFuncs.Get, h]

theorem Get_noEntry_eq {F : Type} (t : CopyFuncs F) (dst src : RType)
    (h : mapIndex t.funcs { Src := src, Dest := dst } = none)
    (hk : dst.Kind = src.Kind) (hs : dst.Kind ≠ Kind.String) :
    ∃ same : Bool,
      (same = true ↔ (dst = src ∨
        (dst.Kind ∈ [Kind.Array, Kind.Chan, Kind.Map, Kind.Ptr, Kind.Slice] ∧
          ∃ e, dst.Elem = .ok e ∧ src.Elem = .ok e))) ∧
      t.Get dst src =
        if same = true ∧ dst.Size = src.Size ∧ src.Size > 0 ∧ src.Size ≤ t.sizes.length then
          (match t.sizes[src.Size - 1]? with
            | some g => .ok g
            | none => .error .indexOutOfRange)
        else .ok none := by
  refine ⟨decide (dst = src) ||
    (match dst.Elem, src.Elem with
      | .ok a, .ok b => decide (a = b)
      | _, _ => false), ?_, ?_⟩
  · cases dst <;> cases src <;>
      simp_all [RType.Kind, RType.Elem,
        toKind_eq_Array, toKind_eq_Chan, toKind_eq_Map, toKind_eq_Ptr, toKind_eq_Slice,
        Array_eq_toKind, Chan_eq_toKind, Map_eq_toKind, Ptr_eq_toKind, Slice_eq_toKind] <;>
      (constructor <;> rintro (hh | hh) <;> simp_all)
  · cases dst <;> cases src <;>
      simp_all [CopyFuncs.Get, RType.Kind, RType.Size, RType.Elem, plain_match, bind,
        Except.bind, pure, Except.pure,
        toKind_eq_Array, toKind_eq_Chan, toKind_eq_Map, toKind_eq_Ptr, toKind_eq_Slice,
        Array_eq_toKind, Chan_eq_toKind, Map_eq_toKind, Ptr_eq_toKind, Slice_eq_toKind] <;>
      (split_ifs <;> simp_all)

theorem Get_congr {F : Type} (t u : CopyFuncs F) (dst src : RType)
    (hm : mapIndex t.funcs { Src := src, Dest := dst } =
      mapIndex u.funcs { Src := src, Dest := dst })
    (hs : t.sizes = u.sizes) : t.Get dst src = u.Get dst src := by
  simp only [CopyFuncs.Get, hm, hs]

theorem Get_noEntry_kind {F : Type} (t : CopyFuncs F) (dst src : RType)
    (h : mapIndex t.funcs { Src := src, Dest := dst } = none)
    (hk : dst.Kind ≠ src.Kind) : t.Get dst src = .ok none := by
  simp [CopyFuncs.Get, h, hk]

theorem Get_noEntry_string {F : Type} (t : CopyFuncs F) (dst src : RType)
    (h : mapIndex t.funcs { Src := src, Dest := dst } = none)
    (hs : dst.Kind = Kind.String) : t.Get dst src = .ok none := by
  simp [CopyFuncs.Get, h, hs]

theorem Get_noEntry_same {F : Type} (t : CopyFuncs F) (dst src : RType)
    (h : mapIndex t.funcs { Src := src, Dest := dst } = none)
    (hk : dst.Kind = src.Kind) (hs : dst.Kind ≠ Kind.String)
    (hsame : dst = src ∨
      (dst.Kind ∈ [Kind.Array, Kind.Chan, Kind.Map, Kind.Ptr, Kind.Slice] ∧
        ∃ e, dst.Elem = .ok e ∧ src.Elem = .ok e))
    (hsz : dst.Size = src.Size) (hpos : 0 < src.Size) (hle : src.Size ≤ t.sizes.length) :
    ∃ g, t.sizes[src.Size - 1]? = some g ∧ t.Get dst src = .ok g := by
  obtain ⟨g, hg⟩ : ∃ g, t.sizes[src.Size - 1]? = some g :=
    ⟨_, List.getElem?_eq_getElem (by omega)⟩
  obtain ⟨same, hiff, heq⟩ := Get_noEntry_eq t dst src h hk hs
  have hsm : same = true := hiff.mpr hsame
  refine ⟨g, hg, ?_⟩
  rw [heq, if_pos ⟨hsm, hsz, hpos, hle⟩, hg]

theorem Get_noEntry_absent {F : Type} (t : CopyFuncs F) (dst src : RType)
    (h : mapIndex t.funcs { Src := src, Dest := dst } = none)
    (hne : ¬ (dst.Kind = src.Kind ∧ dst.Kind ≠ Kind.String ∧
      (dst = src ∨
        (dst.Kind ∈ [Kind.Array, Kind.Chan, Kind.Map, Kind.Ptr, Kind.Slice] ∧
          ∃ e, dst.Elem = .ok e ∧ src.Elem = .ok e)) ∧
      dst.Size = src.Size ∧ 0 < src.Size ∧ src.Size ≤ t.sizes.length)) :
    t.Get dst src = .ok none := by
  by_cases hk : dst.Kind = src.Kind
  swap
  · exact Get_noEntry_kind t dst src h hk
  by_cases hs : dst.Kind = Kind.String
  · exact Get_noEntry_string t dst src h hs
  obtain ⟨same, hiff, heq⟩ := Get_noEntry_eq t dst src h hk hs
  rw [heq, if_neg]
  rintro ⟨hsm, hsz, hpos, hle⟩
  exact hne ⟨hk, hs, hiff.mp hsm, hsz, hpos, hle⟩

theorem sizes_length : sizes.length = 255 := by
  simp [sizes]

theorem sizes_getElem (n : Nat) (h1 : 1 ≤ n) (h2 : n ≤ 255) :
    sizes[n - 1]? = some (some (copyN n)) := by
  have : n - 1 < 255 := by omega
  simp [sizes, List.getElem?_map, List.getElem?_range', this]
  rw [show 1 + (n - 1) = n by omega]

theorem loadBytes_length (m : Mem) (p : Addr) (n : Nat) : (loadBytes m p n).length = n := by
  simp [loadBytes]

theorem copyN_inside (n : Nat) (dst src : Nat) (m : Mem) (i : Nat) (hi : i < n) :
    copyN n dst src m (dst + i) = m (src + i) := by
  simp [copyN, storeBytes, loadBytes, hi, List.getD_eq_getElem?_getD]

theorem copyN_outside (n : Nat) (dst src : Nat) (m : Mem) (a : Nat)
    (ha : a < dst ∨ dst + n ≤ a) : copyN n dst src m a = m a := by
  have hn : ¬ (dst ≤ a ∧ a < dst + n) := by
    intro h
    omega
  simp [copyN, storeBytes, loadBytes, hn]


/-! ## The claims -/

/-- C1 (exact-match priority): if a non-nil operation `f` is stored under the key
`(Dest = dst, Src = src)`, then `Get dst src` returns exactly `f`, whatever the
kinds, sizes and element types of the pair are (so also when the pair is
eligible for the structural fallback), and whatever the size-class table
holds: the table is not consulted for a registered pair. -/
theorem Get_exact_match_priority {F : Type} (t : CopyFuncs F) (dst src : RType) (f : F)
    (h : mapIndex t.funcs { Src := src, Dest := dst } = some f) :
    t.Get dst src = .ok (some f) ∧
    ∀ table : List (Option F),
      ({ funcs := t.funcs, sizes := table } : CopyFuncs F).Get dst src = .ok (some f) :=
  ⟨Get_of_entry t dst src f h, fun table => Get_of_entry ⟨t.funcs, table⟩ dst src f h⟩

/-- Witness of C1: `int -> int` is eligible for the 8-byte fallback, yet the
registered `copy4` is what `Get` returns. -/
theorem Get_exact_match_priority_witness :
    mapIndex exOne.funcs { Src := exInt, Dest := exInt } = some (copyN 4) ∧
    exOne.Get exInt exInt = .ok (some (copyN 4)) :=
  ⟨by simp [exOne, mapIndex],
   (Get_exact_match_priority exOne exInt exInt (copyN 4) (by simp [exOne, mapIndex])).1⟩

/-- C2 (structural fallback selection): with a size-class table of 255 entries,
a pair without exact entry, of equal non-String kind, structurally equivalent
(`dst = src`, or a kind among array/chan/map/pointer/slice with equal element
types), of equal size in 1..255, resolves to the table entry at index
`size - 1`; hence any two such pairs of the same size resolve to the same
result. -/
theorem Get_structural_fallback_selection {F : Type} (t : CopyFuncs F) (dst src : RType)
    (hlen : t.sizes.length = 255)
    (h : mapIndex t.funcs { Src := src, Dest := dst } = none)
    (hk : dst.Kind = src.Kind) (hs : dst.Kind ≠ Kind.String)
    (hsame : dst = src ∨
      (dst.Kind ∈ [Kind.Array, Kind.Chan, Kind.Map, Kind.Ptr, Kind.Slice] ∧
        ∃ e, dst.Elem = .ok e ∧ src.Elem = .ok e))
    (hsz : dst.Size = src.Size) (hpos : 0 < src.Size) (hle : src.Size ≤ 255) :
    (∃ g, t.sizes[src.Size - 1]? = some g ∧ t.Get dst src = .ok g) ∧
    ∀ dst2 src2 : RType,
      mapIndex t.funcs { Src := src2, Dest := dst2 } = none →
      dst2.Kind = src2.Kind → dst2.Kind ≠ Kind.String →
      (dst2 = src2 ∨
        (dst2.Kind ∈ [Kind.Array, Kind.Chan, Kind.Map, Kind.Ptr, Kind.Slice] ∧
          ∃ e, dst2.Elem = .ok e ∧ src2.Elem = .ok e)) →
      dst2.Size = src2.Size → src2.Size = src.Size →
      t.Get dst2 src2 = t.Get dst src := by
  have h1 := Get_noEntry_same t dst src h hk hs hsame hsz hpos (by omega)
  refine ⟨h1, ?_⟩
  intro dst2 src2 h2 hk2 hs2 hsame2 hsz2 heq
  obtain ⟨g, hg, hget⟩ := h1
  obtain ⟨g2, hg2, hget2⟩ :=
    Get_noEntry_same t dst2 src2 h2 hk2 hs2 hsame2 hsz2 (by omega) (by omega)
  rw [heq, hg] at hg2
  cases hg2
  rw [hget, hget2]

/-- Witness of C2: the two distinct defined types `A` and `B` over `[16]byte`
resolve, in both directions, to `copy16`. -/
theorem Get_structural_fallback_selection_witness :
    exArrA ≠ exArrB ∧
    exEmpty.Get exArrA exArrB = .ok (some (copyN 16)) ∧
    exEmpty.Get exArrB exArrA = exEmpty.Get exArrA exArrB := by
  have hlen : exEmpty.sizes.length = 255 := sizes_length
  have hA := Get_structural_fallback_selection exEmpty exArrA exArrB hlen rfl rfl
    (by decide) (Or.inr ⟨by decide, exByte, rfl, rfl⟩) rfl (by decide) (by decide)
  refine ⟨by decide, ?_, ?_⟩
  · obtain ⟨g, hg, hget⟩ := hA.1
    have h16 : exEmpty.sizes[exArrB.Size - 1]? = some (some (copyN 16)) :=
      sizes_getElem 16 (by decide) (by decide)
    rw [h16] at hg
    cases hg
    exact hget
  · exact hA.2 exArrB exArrA rfl rfl (by decide)
      (Or.inr ⟨by decide, exByte, rfl, rfl⟩) rfl rfl

/-- C3 (kind mismatch is absent): a pair without exact entry whose kinds
differ resolves to absent, whatever the sizes and element types are. -/
theorem Get_kind_mismatch_absent {F : Type} (t : CopyFuncs F) (dst src : RType)
    (h : mapIndex t.funcs { Src := src, Dest := dst } = none)
    (hk : dst.Kind ≠ src.Kind) :
    t.Get dst src = .ok none :=
  Get_noEntry_kind t dst src h hk

/-- Witness of C3: `int64` from `int`, both 8 bytes, is absent. -/
theorem Get_kind_mismatch_absent_witness :
    exInt64.Size = exInt.Size ∧ exEmpty.Get exInt64 exInt = .ok none :=
  ⟨rfl, Get_kind_mismatch_absent exEmpty exInt64 exInt rfl (by decide)⟩

/-- C4 (string exclusion): a pair of String-kind types without exact entry
resolves to absent, also when `dst = src` and the sizes are equal and within
1..255. -/
theorem Get_string_excluded {F : Type} (t : CopyFuncs F) (dst src : RType)
    (h : mapIndex t.funcs { Src := src, Dest := dst } = none)
    (hd : dst.Kind = Kind.String) (_hs : src.Kind = Kind.String) :
    t.Get dst src = .ok none :=
  Get_noEntry_string t dst src h hd

/-- Witness of C4: the defined string type `Name` (16 bytes) copied to itself
is absent. -/
theorem Get_string_excluded_witness :
    (0 < exName.Size ∧ exName.Size ≤ 255) ∧ exEmpty.Get exName exName = .ok none :=
  ⟨by decide, Get_string_excluded exEmpty exName exName rfl rfl rfl⟩


/-- C5 (size limits of the fallback): with a size-class table of 255 entries, a
pair without exact entry resolves to absent whenever the two sizes differ, or
the source size is 0, or the source size exceeds 255, also when the two
descriptors are equal. -/
theorem Get_size_limits_absent {F : Type} (t : CopyFuncs F) (dst src : RType)
    (hlen : t.sizes.length = 255)
    (h : mapIndex t.funcs { Src := src, Dest := dst } = none)
    (hsz : dst.Size ≠ src.Size ∨ src.Size = 0 ∨ 255 < src.Size) :
    t.Get dst src = .ok none := by
  apply Get_noEntry_absent t dst src h
  rintro ⟨_, _, _, h1, h2, h3⟩
  omega

/-- Witness of C5: the empty struct copied to itself is absent, and so is a
struct of 256 bytes copied to itself. -/
theorem Get_size_limits_absent_witness :
    (exEmptyStruct.Size = 0 ∧ exEmpty.Get exEmptyStruct exEmptyStruct = .ok none) ∧
    (exBig.Size = 256 ∧ exEmpty.Get exBig exBig = .ok none) :=
  ⟨⟨rfl, Get_size_limits_absent exEmpty exEmptyStruct exEmptyStruct sizes_length rfl
      (Or.inr (Or.inl rfl))⟩,
   ⟨rfl, Get_size_limits_absent exEmpty exBig exBig sizes_length rfl
      (Or.inr (Or.inr (by decide)))⟩⟩

/-- C6 (the fallback needs structural equivalence): for a pair without exact
entry, if `Get` returns an operation then `dst = src`, or the common kind is
one of array/chan/map/pointer/slice and the element types are equal; so two
distinct types whose kind is none of these five resolve to absent, whatever
their sizes. -/
theorem Get_fallback_only_structural {F : Type} (t : CopyFuncs F) (dst src : RType)
    (h : mapIndex t.funcs { Src := src, Dest := dst } = none) :
    (∀ f : F, t.Get dst src = .ok (some f) →
      dst = src ∨
        (dst.Kind = src.Kind ∧
          dst.Kind ∈ [Kind.Array, Kind.Chan, Kind.Map, Kind.Ptr, Kind.Slice] ∧
          ∃ e, dst.Elem = .ok e ∧ src.Elem = .ok e)) ∧
    (dst ≠ src → dst.Kind ∉ [Kind.Array, Kind.Chan, Kind.Map, Kind.Ptr, Kind.Slice] →
      t.Get dst src = .ok none) := by
  constructor
  · intro f hget
    by_contra hcon
    have habs : t.Get dst src = .ok none := by
      apply Get_noEntry_absent t dst src h
      rintro ⟨hk, _, hsame, _⟩
      apply hcon
      rcases hsame with heq | ⟨hmem, he⟩
      · exact Or.inl heq
      · exact Or.inr ⟨hk, hmem, he⟩
    rw [habs] at hget
    cases hget
  · intro hne hkind
    apply Get_noEntry_absent t dst src h
    rintro ⟨_, _, hsame, _⟩
    rcases hsame with heq | ⟨hmem, _⟩
    · exact hne heq
    · exact hkind hmem

/-- Witness of C6: the defined integer type `MyInt` from `int64`, and the
struct type `P` from the struct type `Q` of identical layout, are absent. -/
theorem Get_fallback_only_structural_witness :
    (exMyInt.Kind = exInt64.Kind ∧ exMyInt.Size = exInt64.Size ∧
      exEmpty.Get exMyInt exInt64 = .ok none) ∧
    (exStructP.Kind = exStructQ.Kind ∧ exStructP.Size = exStructQ.Size ∧
      exEmpty.Get exStructP exStructQ = .ok none) :=
  ⟨⟨rfl, rfl, (Get_fallback_only_structural exEmpty exMyInt exInt64 rfl).2
      (by decide) (by decide)⟩,
   ⟨rfl, rfl, (Get_fallback_only_structural exEmpty exStructP exStructQ rfl).2
      (by decide) (by decide)⟩⟩

/-- C7, counterexample: `map[string]int` and `map[int]int` are distinct
unregistered types with different key types, the same element type and the
same size 8; on the registry without entries `Get` does not return absent but
the raw 8-byte copy `copy8`. -/
theorem Get_maps_different_keys_fallback :
    exMapStringInt ≠ exMapIntInt ∧
    exMapStringInt.Key ≠ exMapIntInt.Key ∧
    exMapStringInt.Elem = exMapIntInt.Elem ∧
    mapIndex exEmpty.funcs { Src := exMapIntInt, Dest := exMapStringInt } = none ∧
    exEmpty.Get exMapStringInt exMapIntInt = .ok (some (copyN 8)) ∧
    exEmpty.Get exMapStringInt exMapIntInt ≠ .ok none := by
  obtain ⟨g, hg, hget⟩ := Get_noEntry_same exEmpty exMapStringInt exMapIntInt rfl rfl
    (by decide) (Or.inr ⟨by decide, exInt, rfl, rfl⟩) rfl (by decide)
    (by rw [show exEmpty.sizes = sizes from rfl, sizes_length]; decide)
  have h8 : exEmpty.sizes[exMapIntInt.Size - 1]? = some (some (copyN 8)) :=
    sizes_getElem 8 (by decide) (by decide)
  rw [h8] at hg
  cases hg
  refine ⟨by decide, by decide, rfl, rfl, hget, ?_⟩
  rw [hget]
  intro hc
  cases hc

/-- C7, amended (the fallback compares the element type only): for every pair
of distinct types without an exact entry for which `Get` returns a function,
the two types have the same kind, one of array, chan, map, pointer and slice,
the same element type and the same size, within the `sizes` table; no other
component is compared.  In particular for two map types with the same element
type and the same size `s` in the range of the table, whatever their names and
key types, `Get` returns the entry `sizes[s - 1]` and not absent. -/
theorem Get_fallback_compares_elem_only {F : Type} (t : CopyFuncs F) (dst src : RType)
    (h : mapIndex t.funcs { Src := src, Dest := dst } = none) :
    (dst ≠ src → ∀ f : F, t.Get dst src = .ok (some f) →
      dst.Kind = src.Kind ∧
      dst.Kind ∈ [Kind.Array, Kind.Chan, Kind.Map, Kind.Ptr, Kind.Slice] ∧
      (∃ e, dst.Elem = .ok e ∧ src.Elem = .ok e) ∧
      dst.Size = src.Size ∧ 0 < src.Size ∧ src.Size ≤ t.sizes.length) ∧
    (∀ (n1 n2 : String) (s : Nat) (k1 k2 e : RType),
      dst = .map n1 s k1 e → src = .map n2 s k2 e → 0 < s → s ≤ t.sizes.length →
      ∃ g, t.sizes[s - 1]? = some g ∧ t.Get dst src = .ok g) := by
  constructor
  · intro hne f hf
    by_contra hcon
    have habs := Get_noEntry_absent t dst src h (by
      rintro ⟨hk, hs, hsame, hsz, hpos, hle⟩
      rcases hsame with e | ⟨hkind, he⟩
      · exact hne e
      · exact hcon ⟨hk, hkind, he, hsz, hpos, hle⟩)
    rw [habs] at hf
    cases hf
  · intro n1 n2 s k1 k2 e hd hs hpos hle
    subst hd
    subst hs
    exact Get_noEntry_same t _ _ h rfl (by simp [RType.Kind])
      (Or.inr ⟨by simp [RType.Kind], e, rfl, rfl⟩) rfl hpos hle

/-- Witness of C7, amended: the registry without entries, `map[string]int` and
`map[int]int`. -/
theorem Get_fallback_compares_elem_only_witness :
    mapIndex exEmpty.funcs { Src := exMapIntInt, Dest := exMapStringInt } = none ∧
    exMapStringInt ≠ exMapIntInt ∧
    ∃ g, exEmpty.sizes[8 - 1]? = some g ∧ exEmpty.Get exMapStringInt exMapIntInt = .ok g :=
  ⟨rfl, by decide,
    (Get_fallback_compares_elem_only exEmpty exMapStringInt exMapIntInt rfl).2
      "" "" 8 exString exInt exInt rfl rfl (by decide)
      (by rw [show exEmpty.sizes = sizes from rfl, sizes_length]; decide)⟩

/-- C8 (the size-class table): the table has exactly 255 entries, and for every
`n` in 1..255 the entry at index `n - 1` is a non-nil function that, run on
regions that do not overlap, leaves bytes `0..n-1` of `dst` equal to bytes
`0..n-1` of `src`, leaves every byte of `dst` from offset `n` on unchanged,
leaves `src` unchanged, and changes no byte outside `dst .. dst+n-1`. -/
theorem sizes_copy_exactly_n :
    sizes.length = 255 ∧
    ∀ n : Nat, 1 ≤ n → n ≤ 255 →
      ∃ f : CopyFunc, sizes[n - 1]? = some (some f) ∧
        ∀ (m : Mem) (dst src : Nat), (dst + n ≤ src ∨ src + n ≤ dst) →
          (∀ i, i < n → f dst src m (dst + i) = m (src + i)) ∧
          (∀ i, i < n → f dst src m (dst + i) = f dst src m (src + i)) ∧
          (∀ i, n ≤ i → f dst src m (dst + i) = m (dst + i)) ∧
          (∀ i, i < n → f dst src m (src + i) = m (src + i)) ∧
          (∀ a, (a < dst ∨ dst + n ≤ a) → f dst src m a = m a) := by
  refine ⟨sizes_length, ?_⟩
  intro n h1 h2
  refine ⟨copyN n, sizes_getElem n h1 h2, ?_⟩
  intro m dst src hdis
  have hsrc : ∀ i, i < n → copyN n dst src m (src + i) = m (src + i) := by
    intro i hi
    apply copyN_outside
    omega
  refine ⟨?_, ?_, ?_, hsrc, ?_⟩
  · intro i hi
    exact copyN_inside n dst src m i hi
  · intro i hi
    rw [copyN_inside n dst src m i hi, hsrc i hi]
  · intro i hi
    apply copyN_outside
    omega
  · intro a ha
    exact copyN_outside n dst src m a ha

/-- Witness of C8: `sizes[2]` is `copy3`; run with `dst = 10` and `src = 20` it
puts the bytes 20, 21, 22 at 10, 11, 12 and leaves byte 13 as it was. -/
theorem sizes_copy_exactly_n_witness :
    sizes[2]? = some (some (copyN 3)) ∧
    (copyN 3 10 20 exMem 10 = 20 ∧ copyN 3 10 20 exMem 11 = 21 ∧
      copyN 3 10 20 exMem 12 = 22 ∧ copyN 3 10 20 exMem 13 = 13) := by
  obtain ⟨f, hf, hrun⟩ := sizes_copy_exactly_n.2 3 (by decide) (by decide)
  have h3 : sizes[3 - 1]? = some (some (copyN 3)) := sizes_getElem 3 (by decide) (by decide)
  rw [h3] at hf
  cases hf
  obtain ⟨hin, _, hout, _, _⟩ := hrun exMem 10 20 (Or.inl (by decide))
  exact ⟨h3, hin 0 (by decide), hin 1 (by decide), hin 2 (by decide), hout 3 (by decide)⟩

/-- C9 (`Set` is visible to `Get`): after `Set dst src op` with a non-nil `op`,
`Get dst src` returns `op`, whether or not the key held a value before; the
map then holds `op` under the key. -/
theorem Set_visible_to_Get {F : Type} (t : CopyFuncs F) (dst src : RType) (op : F) :
    (t.Set dst src (some op)).Get dst src = .ok (some op) ∧
    (t.Set dst src (some op)).funcs.lookup { Src := src, Dest := dst } = some (some op) := by
  constructor
  · apply Get_of_entry
    simp [CopyFuncs.Set, mapIndex_mapAssign]
  · simp [CopyFuncs.Set, lookup_mapAssign]

/-- C10 (`Set` changes one entry only): `Set dst src f` leaves the size-class
table unchanged and leaves the result of `Get` unchanged for every ordered
pair other than `(dst, src)`, in particular for the swapped pair `(src, dst)`
when `dst ≠ src`. -/
theorem Set_changes_one_entry {F : Type} (t : CopyFuncs F) (dst src : RType) (f : Option F) :
    (t.Set dst src f).sizes = t.sizes ∧
    (∀ dst2 src2 : RType, (dst2, src2) ≠ (dst, src) →
      (t.Set dst src f).Get dst2 src2 = t.Get dst2 src2) ∧
    (dst ≠ src → (t.Set dst src f).Get src dst = t.Get src dst) := by
  have key : ∀ dst2 src2 : RType, (dst2, src2) ≠ (dst, src) →
      (t.Set dst src f).Get dst2 src2 = t.Get dst2 src2 := by
    intro dst2 src2 hne
    apply Get_congr
    · have hk : ({ Src := src2, Dest := dst2 } : funcKey) ≠ { Src := src, Dest := dst } := by
        intro heq
        apply hne
        cases heq
        rfl
      simp [CopyFuncs.Set, mapIndex_mapAssign, hk]
    · rfl
  refine ⟨rfl, key, ?_⟩
  intro hne
  apply key
  intro heq
  apply hne
  cases heq
  rfl

/-- Witness of C10: registering `int64` from `int` changes neither the result
for the swapped pair nor the registered `int` from `int`. -/
theorem Set_changes_one_entry_witness :
    exInt64 ≠ exInt ∧
    (exOne.Set exInt64 exInt (some (copyN 8))).Get exInt exInt64 = exOne.Get exInt exInt64 ∧
    (exOne.Set exInt64 exInt (some (copyN 8))).Get exInt exInt = exOne.Get exInt exInt :=
  ⟨by decide,
   (Set_changes_one_entry exOne exInt64 exInt (some (copyN 8))).2.2 (by decide),
   (Set_changes_one_entry exOne exInt64 exInt (some (copyN 8))).2.1 exInt exInt (by decide)⟩

/-! ## Lemmas on the state-passing `Get` and on integer conversion -/

theorem GetStep_eq {F : Type} (t : CopyFuncs F) (dst src : RType) :
    t.GetStep dst src = (t.Get dst src).map (fun r => (r, t)) := by
  unfold CopyFuncs.GetStep CopyFuncs.Get
  by_cases h1 : (mapIndex t.funcs { Src := src, Dest := dst }).isSome = true
  · simp [h1, Except.map]
  by_cases h2 : dst.Kind = src.Kind
  swap
  · simp [h1, h2, Except.map]
  by_cases h3 : dst.Kind = Kind.String
  · have h3' : src.Kind = Kind.String := h2 ▸ h3
    simp [h1, h2, h3', Except.map]
  cases dst <;> cases src <;>
    simp_all [RType.Kind, RType.Size, RType.Elem, plain_match, Except.map, bind, Except.bind,
      pure, Except.pure,
      toKind_eq_Array, toKind_eq_Chan, toKind_eq_Map, toKind_eq_Ptr, toKind_eq_Slice,
      Array_eq_toKind, Chan_eq_toKind, Map_eq_toKind, Ptr_eq_toKind, Slice_eq_toKind] <;>
    (repeat' split) <;> simp_all

theorem Get_total {F : Type} (t : CopyFuncs F) (dst src : RType) :
    ∃ r, t.Get dst src = .ok r := by
  cases hm : mapIndex t.funcs { Src := src, Dest := dst } with
  | some f => exact ⟨_, Get_of_entry t dst src f hm⟩
  | none =>
    by_cases hk : dst.Kind = src.Kind
    swap
    · exact ⟨_, Get_noEntry_kind t dst src hm hk⟩
    by_cases hs : dst.Kind = Kind.String
    · exact ⟨_, Get_noEntry_string t dst src hm hs⟩
    obtain ⟨same, _, heq⟩ := Get_noEntry_eq t dst src hm hk hs
    by_cases hc : same = true ∧ dst.Size = src.Size ∧ src.Size > 0 ∧ src.Size ≤ t.sizes.length
    · obtain ⟨g, hg⟩ : ∃ g, t.sizes[src.Size - 1]? = some g :=
        ⟨_, List.getElem?_eq_getElem (by omega)⟩
      refine ⟨g, ?_⟩
      rw [heq, if_pos hc, hg]
    · refine ⟨none, ?_⟩
      rw [heq, if_neg hc]

theorem GetStep_total {F : Type} (t : CopyFuncs F) (dst src : RType) :
    ∃ r : Option F, t.GetStep dst src = .ok (r, t) ∧ t.Get dst src = .ok r := by
  obtain ⟨r, hr⟩ := Get_total t dst src
  refine ⟨r, ?_, hr⟩
  rw [GetStep_eq, hr]
  rfl

theorem convInt_range (d : IntType) (x : Int) :
    d.minVal ≤ convInt d x ∧ convInt d x ≤ d.maxVal := by
  cases d <;>
    simp only [convInt, IntType.ofPattern, IntType.pattern, IntType.minVal, IntType.maxVal,
      IntType.signed, IntType.bits] <;>
    norm_num <;> (try split) <;> omega

theorem convInt_emod (d : IntType) (x : Int) :
    convInt d x % 2 ^ d.bits = x % 2 ^ d.bits := by
  cases d <;>
    simp only [convInt, IntType.ofPattern, IntType.pattern, IntType.signed, IntType.bits] <;>
    norm_num <;> (try split) <;> omega

theorem range_emod_unique (d : IntType) (a b : Int)
    (ha : d.minVal ≤ a ∧ a ≤ d.maxVal) (hb : d.minVal ≤ b ∧ b ≤ d.maxVal)
    (h : a % 2 ^ d.bits = b % 2 ^ d.bits) : a = b := by
  cases d <;>
    simp only [IntType.minVal, IntType.maxVal, IntType.signed, IntType.bits] at ha hb h <;>
    norm_num at ha hb h <;> omega

theorem pattern_convInt (d : IntType) (x : Int) : d.pattern (convInt d x) = d.pattern x := by
  unfold IntType.pattern
  rw [convInt_emod]

theorem convInt_widen_pattern (S D : IntType) (hw : S.bits < D.bits) (x : Int)
    (hx : S.minVal ≤ x ∧ x ≤ S.maxVal) :
    D.pattern (convInt D x) =
      if S.signed = true ∧ 2 ^ (S.bits - 1) ≤ S.pattern x
      then S.pattern x + (2 ^ D.bits - 2 ^ S.bits) else S.pattern x := by
  rw [pattern_convInt]
  unfold IntType.pattern
  have hN : (2 : Nat) ^ (S.bits + 1) ≤ 2 ^ D.bits := Nat.pow_le_pow_right (by norm_num) hw
  have hcast : (((2 : Nat) ^ D.bits : Nat) : Int) = (2 : Int) ^ D.bits := by push_cast; rfl
  have h1 : 0 ≤ x → x < 2 ^ D.bits → x % 2 ^ D.bits = x := fun h0 h => Int.emod_eq_of_lt h0 h
  have h2 : x < 0 → -(2 : Int) ^ D.bits ≤ x → x % 2 ^ D.bits = x + 2 ^ D.bits := by
    intro hneg hge
    rw [← Int.add_emod_self]
    exact Int.emod_eq_of_lt (by linarith) (by linarith)
  generalize (2 : Int) ^ D.bits = M at hcast h1 h2 ⊢
  generalize (2 : Nat) ^ D.bits = N at hcast hN ⊢
  cases S <;>
    simp only [IntType.minVal, IntType.maxVal, IntType.signed, IntType.bits] at hx hN ⊢ <;>
    norm_num at hx hN ⊢ <;> (try split) <;> omega

/-! ## The claims on `Get` as an operation on the registry state -/

/-- C11 (`Get` never mutates the registry): in state-passing form, `Get dst src`
returns for every registry `t` a result together with the registry `t`
itself, so the entry map and the size-class table after the call are those
before the call, whether the result is a registered operation, a fallback or
absent; the result is the one of the method `Get`. -/
theorem Get_never_mutates {F : Type} (t : CopyFuncs F) (dst src : RType) :
    ∃ r : Option F,
      t.GetStep dst src = .ok (r, t) ∧ t.Get dst src = .ok r ∧
      ∀ t2 : CopyFuncs F, t.GetStep dst src = .ok (r, t2) →
        t2.funcs = t.funcs ∧ t2.sizes = t.sizes := by
  obtain ⟨r, hstep, hr⟩ := GetStep_total t dst src
  refine ⟨r, hstep, hr, ?_⟩
  intro t2 h2
  rw [hstep] at h2
  cases h2
  exact ⟨rfl, rfl⟩

/-- Witness of C11: on the registry holding `int` from `int`, a registered
pair, a fallback pair and an absent pair all leave the registry as it was. -/
theorem Get_never_mutates_witness :
    (∃ r, exOne.GetStep exInt exInt = .ok (r, exOne)) ∧
    (∃ r, exOne.GetStep exArrA exArrB = .ok (r, exOne)) ∧
    (∃ r, exOne.GetStep exInt64 exInt = .ok (r, exOne)) :=
  ⟨(Get_never_mutates exOne exInt exInt).imp fun _ h => h.1,
   (Get_never_mutates exOne exArrA exArrB).imp fun _ h => h.1,
   (Get_never_mutates exOne exInt64 exInt).imp fun _ h => h.1⟩

/-- C12 (determinism of `Get`): two calls `Get dst src` in sequence, with no
`Set` in between, return the same result, and the second call runs on the
registry the first one left; the result depends only on the registry contents
(what the map holds under each key, and the table) and on the two
descriptors. -/
theorem Get_deterministic {F : Type} (t : CopyFuncs F) (dst src : RType) :
    (∃ r : Option F,
      (do
        let (a, t1) ← t.GetStep dst src
        let (b, t2) ← t1.GetStep dst src
        pure ((a, b), t2)) = (Except.ok ((r, r), t) : Except Panic _)) ∧
    ∀ u : CopyFuncs F,
      (∀ k : funcKey, mapIndex u.funcs k = mapIndex t.funcs k) → u.sizes = t.sizes →
      u.Get dst src = t.Get dst src := by
  constructor
  · obtain ⟨r, hstep, _⟩ := GetStep_total t dst src
    refine ⟨r, ?_⟩
    simp [hstep, bind, Except.bind, pure, Except.pure]
  · intro u hu hs
    exact Get_congr u t dst src (hu _) hs

/-- Witness of C12: two registries that hold the same two entries in a
different order resolve `int` from `int` to the same operation. -/
theorem Get_deterministic_witness :
    exTwoSwapped.Get exInt exInt = exTwo.Get exInt exInt := by
  refine (Get_deterministic exTwo exInt exInt).2 exTwoSwapped ?_ rfl
  intro k
  have hne : ({ Src := exInt, Dest := exInt } : funcKey) ≠ { Src := exInt64, Dest := exInt64 } := by
    decide
  simp only [exTwo, exTwoSwapped, mapIndex, lookup_cons_eq]
  by_cases h1 : k = { Src := exInt, Dest := exInt }
  · subst h1
    simp [hne]
  · have hne2 : exInt64 ≠ exInt := by decide
    by_cases h2 : k = { Src := exInt64, Dest := exInt64 } <;> simp [h1, h2, hne2]

/-- C13 (`Get` never faults): for every registry and every pair of descriptors
`Get` returns an operation or absent and raises no panic; in the model `Elem`
panics on a type without element type and the table access panics outside
`0 .. length - 1`, so neither happens. -/
theorem Get_never_faults {F : Type} (t : CopyFuncs F) (dst src : RType) :
    (∃ r : Option F, t.Get dst src = .ok r) ∧
    (∀ e : Panic, t.Get dst src ≠ .error e) := by
  obtain ⟨r, hr⟩ := Get_total t dst src
  refine ⟨⟨r, hr⟩, ?_⟩
  intro e he
  rw [hr] at he
  cases he

/-! ## The claims on the baseline functions -/

theorem loadVal_of (m : Store) (a : Nat) (v : Value) (T : Leaf)
    (h : m[a]? = some (.val v)) (ht : v.type = T) : loadVal m a T = .ok v := by
  simp [loadVal, h, ht]

theorem storeVal_of (m : Store) (a : Nat) (old v : Value) (T : Leaf)
    (h : m[a]? = some (.val old)) (ht : old.type = T) :
    storeVal m a T v = .ok (m.set a (.val v)) := by
  simp [storeVal, h, ht]

theorem loadPtr_of (m : Store) (a : Nat) (p : Option Addr)
    (h : m[a]? = some (.ptr p)) : loadPtr m a = .ok p := by
  simp [loadPtr, h]

theorem storePtr_of (m : Store) (a : Nat) (old p : Option Addr)
    (h : m[a]? = some (.ptr old)) : storePtr m a p = .ok (m.set a (.ptr p)) := by
  simp [storePtr, h]

theorem convert_of_convertible (fc : FloatConv) (D S : Leaf) (x : Value)
    (hc : D.convertible S = true) (hx : x.type = S) :
    ∃ v, convert fc D x = some v ∧ v.type = D := by
  subst hx
  cases D <;> cases x <;> simp_all [Leaf.convertible, Value.type, convert]

theorem copyVV_of (fc : FloatConv) (D S : Leaf) (m : Store) (dst src : Nat)
    (x old v : Value) (hsrc : m[src]? = some (.val x)) (hx : x.type = S)
    (hdst : m[dst]? = some (.val old)) (hold : old.type = D)
    (hv : convert fc D x = some v) :
    copyVV fc D S dst src m = .ok (m.set dst (.val v)) := by
  simp [copyVV, loadVal_of m src x S hsrc hx, conv, hv, storeVal_of m dst old v D hdst hold,
    bind, Except.bind]

/-- C14 (integer narrowing truncates): for integer types `S` and `D` with
`D` narrower than `S`, the function `copy<S>To<D>`, run with `src` holding the
`S` value `x` and `dst` holding a `D` variable, returns, and writes at `dst`
the value `r` of `D` that lies in the range of `D` and is congruent to `x`
modulo `2 ^ width(D)`; `r` is the only such value (no saturation, no
error). -/
theorem copyVV_int_narrowing (fc : FloatConv) (S D : IntType) (_hw : D.bits < S.bits)
    (x y : Int) (m : Store) (dst src : Nat)
    (hsrc : m[src]? = some (.val (.int S x))) (hdst : m[dst]? = some (.val (.int D y))) :
    ∃ r : Int,
      copyVV fc (.int D) (.int S) dst src m = .ok (m.set dst (.val (.int D r))) ∧
      D.minVal ≤ r ∧ r ≤ D.maxVal ∧ r % 2 ^ D.bits = x % 2 ^ D.bits ∧
      ∀ r2 : Int, D.minVal ≤ r2 → r2 ≤ D.maxVal → r2 % 2 ^ D.bits = x % 2 ^ D.bits →
        r2 = r := by
  refine ⟨convInt D x, ?_, (convInt_range D x).1, (convInt_range D x).2, convInt_emod D x, ?_⟩
  · exact copyVV_of fc _ _ m dst src _ _ _ hsrc rfl hdst rfl rfl
  · intro r2 h1 h2 h3
    exact range_emod_unique D r2 (convInt D x) ⟨h1, h2⟩ (convInt_range D x)
      (h3.trans (convInt_emod D x).symm)

/-- Witness of C14: the `int64` value 2147483648 copied into an `int32` yields
-2147483648. -/
theorem copyVV_int_narrowing_witness :
    copyVV exFloatConv (.int .int32) (.int .int64) 1 0 exStore =
      .ok (exStore.set 1 (.val (.int .int32 (-2147483648)))) := by
  obtain ⟨r, hrun, hlo, hhi, hmod, _⟩ :=
    copyVV_int_narrowing exFloatConv .int64 .int32 (by decide) 2147483648 5 exStore 1 0 rfl rfl
  have hr : r = -2147483648 := by
    simp only [IntType.minVal, IntType.maxVal, IntType.signed, IntType.bits] at hlo hhi hmod
    norm_num at hlo hhi hmod
    omega
  rw [hrun, hr]

/-- C15 (integer widening extends by the source's signedness): for integer
types `S` and `D` with `D` wider than `S`, the function `copy<S>To<D>`, run
with `src` holding a value `x` of the range of `S` and `dst` holding a `D`
variable, returns, and writes at `dst` the value of `D` whose bit pattern is
the pattern of `x` with the upper bits set to the sign bit when `S` is signed
(sign extension) and the pattern of `x` itself when `S` is unsigned (zero
extension). -/
theorem copyVV_int_widening (fc : FloatConv) (S D : IntType) (hw : S.bits < D.bits)
    (x y : Int) (hx : S.minVal ≤ x ∧ x ≤ S.maxVal) (m : Store) (dst src : Nat)
    (hsrc : m[src]? = some (.val (.int S x))) (hdst : m[dst]? = some (.val (.int D y))) :
    ∃ r : Int,
      copyVV fc (.int D) (.int S) dst src m = .ok (m.set dst (.val (.int D r))) ∧
      D.minVal ≤ r ∧ r ≤ D.maxVal ∧
      D.pattern r =
        (if S.signed = true ∧ 2 ^ (S.bits - 1) ≤ S.pattern x
         then S.pattern x + (2 ^ D.bits - 2 ^ S.bits) else S.pattern x) :=
  ⟨convInt D x, copyVV_of fc _ _ m dst src _ _ _ hsrc rfl hdst rfl rfl,
    (convInt_range D x).1, (convInt_range D x).2, convInt_widen_pattern S D hw x hx⟩

/-- Witness of C15: `int8` -1 copied into a `uint64` yields 2^64 - 1 and into
an `int64` yields -1, while `uint8` 255 copied into an `int64` yields 255. -/
theorem copyVV_int_widening_witness :
    copyVV exFloatConv (.int .uint64) (.int .int8) 2 0 exStoreWiden =
      .ok (exStoreWiden.set 2 (.val (.int .uint64 18446744073709551615))) ∧
    copyVV exFloatConv (.int .int64) (.int .int8) 3 0 exStoreWiden =
      .ok (exStoreWiden.set 3 (.val (.int .int64 (-1)))) ∧
    copyVV exFloatConv (.int .int64) (.int .uint8) 3 1 exStoreWiden =
      .ok (exStoreWiden.set 3 (.val (.int .int64 255))) := by
  obtain ⟨r1, hrun1, hlo1, hhi1, hp1⟩ :=
    copyVV_int_widening exFloatConv .int8 .uint64 (by decide) (-1) 0 (by decide)
      exStoreWiden 2 0 rfl rfl
  obtain ⟨r2, hrun2, hlo2, hhi2, hp2⟩ :=
    copyVV_int_widening exFloatConv .int8 .int64 (by decide) (-1) 0 (by decide)
      exStoreWiden 3 0 rfl rfl
  obtain ⟨r3, hrun3, hlo3, hhi3, hp3⟩ :=
    copyVV_int_widening exFloatConv .uint8 .int64 (by decide) 255 0 (by decide)
      exStoreWiden 3 1 rfl rfl
  have h1 : r1 = 18446744073709551615 := by
    simp only [IntType.minVal, IntType.maxVal, IntType.signed, IntType.bits,
      IntType.pattern] at hlo1 hhi1 hp1
    norm_num at hlo1 hhi1 hp1
    omega
  have h2 : r2 = -1 := by
    simp only [IntType.minVal, IntType.maxVal, IntType.signed, IntType.bits,
      IntType.pattern] at hlo2 hhi2 hp2
    norm_num at hlo2 hhi2 hp2
    omega
  have h3 : r3 = 255 := by
    simp only [IntType.minVal, IntType.maxVal, IntType.signed, IntType.bits,
      IntType.pattern] at hlo3 hhi3 hp3
    norm_num at hlo3 hhi3 hp3
    omega
  rw [hrun1, hrun2, hrun3, h1, h2, h3]
  exact ⟨rfl, rfl, rfl⟩

/-- C16 (null source substitution): for every pair of leaf types `(D, S)` (so
for each of the 115 baseline pairs) the function `copyP<S>To<D>`, run with a
null pointer stored at `src` and any value of type `D` at `dst`, returns and
leaves at `dst` the zero value of `D`, which is 0 for the integer types and
`time.Duration`, +0 for the floating-point and complex types, `false`, the
empty string, the nil byte slice and the zero `time.Time`. -/
theorem copyPV_null_source (fc : FloatConv) (D S : Leaf) (m : Store) (dst src : Nat)
    (old : Value) (hsrc : m[src]? = some (.ptr none))
    (hdst : m[dst]? = some (.val old)) (hold : old.type = D) :
    (∃ m2 : Store, copyPV fc D S dst src m = .ok m2 ∧
      m2[dst]? = some (.val D.zero) ∧ m2.length = m.length ∧
      ∀ a : Nat, a ≠ dst → m2[a]? = m[a]?) ∧
    ((∀ t : IntType, Leaf.zero (.int t) = .int t 0) ∧
      Leaf.zero .bool = .bool false ∧ Leaf.zero .string = .string [] ∧
      Leaf.zero .bytes = .bytes none ∧ Leaf.zero .time = .time 0 0 none ∧
      Leaf.zero .duration = .duration 0 ∧
      Leaf.zero .float32 = .float32 0 ∧ Leaf.zero .float64 = .float64 0 ∧
      Leaf.zero .complex64 = .complex64 0 0 ∧ Leaf.zero .complex128 = .complex128 0 0) := by
  refine ⟨⟨m.set dst (.val D.zero), ?_, ?_, ?_, ?_⟩,
    fun _ => rfl, rfl, rfl, rfl, rfl, rfl, rfl, rfl, rfl, rfl⟩
  · simp [copyPV, loadPtr_of m src none hsrc, storeVal_of m dst old D.zero D hdst hold,
      bind, Except.bind, pure, Except.pure]
  · have hlt : dst < m.length := by
      by_contra hge
      rw [List.getElem?_eq_none (by omega)] at hdst
      cases hdst
    simp [List.getElem?_set, hlt]
  · simp
  · intro a ha
    simp [List.getElem?_set, Ne.symm ha]

/-- Witness of C16: a null `*int64` copied into the `int32` variable holding 5
leaves 0 there. -/
theorem copyPV_null_source_witness :
    copyPV exFloatConv (.int .int32) (.int .int64) 1 2 exStore =
      .ok (exStore.set 1 (.val (.int .int32 0))) := by
  obtain ⟨⟨m2, hrun, hdst, hlen, hframe⟩, _⟩ :=
    copyPV_null_source exFloatConv (.int .int32) (.int .int64) exStore 1 2
      (.int .int32 5) rfl rfl rfl
  rw [hrun]
  congr 1
  apply List.ext_getElem?
  intro a
  by_cases ha : a = 1
  · subst ha
    rw [hdst]
    rfl
  · rw [hframe a ha]
    simp [List.getElem?_set, Ne.symm ha]

theorem getElem?_lt_of_some (m : Store) (a : Nat) (c : Cell) (h : m[a]? = some c) :
    a < m.length := by
  by_contra hge
  rw [List.getElem?_eq_none (by omega)] at h
  cases h

/-- C17 (pointer to value agrees with value to value on the pointee): when the
pointer `p` stored at `src` is non-null, `copyP<S>To<D>` run on `(dst, src)`
does what `copy<S>To<D>` does run on `(dst, p)`: same fault or same resulting
store; and when `p` points to a value of type `S`, `dst` holds a value of type
`D` and `(D, S)` is a baseline pair, both return and leave the converted
pointee at `dst`. -/
theorem copyPV_eq_copyVV_on_pointee (fc : FloatConv) (D S : Leaf) (m : Store)
    (dst src p : Nat) (hsrc : m[src]? = some (.ptr (some p))) :
    copyPV fc D S dst src m = copyVV fc D S dst p m ∧
    ∀ x old : Value, m[p]? = some (.val x) → x.type = S →
      m[dst]? = some (.val old) → old.type = D → D.convertible S = true →
      ∃ v, convert fc D x = some v ∧
        copyPV fc D S dst src m = .ok (m.set dst (.val v)) ∧
        copyVV fc D S dst p m = .ok (m.set dst (.val v)) := by
  have heq : copyPV fc D S dst src m = copyVV fc D S dst p m := by
    simp only [copyPV, copyVV, loadPtr_of m src (some p) hsrc, bind, Except.bind]
  refine ⟨heq, ?_⟩
  intro x old hp hx hdst hold hc
  obtain ⟨v, hv, _⟩ := convert_of_convertible fc D S x hc hx
  have hvv := copyVV_of fc D S m dst p x old v hp hx hdst hold hv
  exact ⟨v, hv, heq.trans hvv, hvv⟩

/-- Witness of C17: the pointer at 3 points to the `int64` at 0; copying
through it into the `int32` at 1 equals copying the `int64` at 0 directly. -/
theorem copyPV_eq_copyVV_on_pointee_witness :
    copyPV exFloatConv (.int .int32) (.int .int64) 1 3 exStore =
      copyVV exFloatConv (.int .int32) (.int .int64) 1 0 exStore :=
  (copyPV_eq_copyVV_on_pointee exFloatConv (.int .int32) (.int .int64) exStore 1 3 0 rfl).1

/-- C18 (pointer identity preservation): for a baseline pair `(D, S)`, when
`src` holds a value of type `S` and the pointer `q` stored at `dst` is
non-null and points to a variable of type `D`, the function `copy<S>ToP<D>`
returns; afterwards the pointer stored at `dst` is still `q`, the variable `q`
points to holds the converted source value, no variable was added to the
store, and every variable other than the pointee is unchanged. -/
theorem copyVP_keeps_pointer (fc : FloatConv) (D S : Leaf) (m : Store) (dst src q : Nat)
    (x old : Value) (hc : D.convertible S = true)
    (hsrc : m[src]? = some (.val x)) (hx : x.type = S)
    (hdst : m[dst]? = some (.ptr (some q)))
    (hq : m[q]? = some (.val old)) (hold : old.type = D) :
    ∃ (v : Value) (m2 : Store), convert fc D x = some v ∧
      copyVP fc D S dst src m = .ok m2 ∧
      m2[dst]? = some (.ptr (some q)) ∧ m2[q]? = some (.val v) ∧
      m2.length = m.length ∧ ∀ a : Nat, a ≠ q → m2[a]? = m[a]? := by
  obtain ⟨v, hv, _⟩ := convert_of_convertible fc D S x hc hx
  have hne : q ≠ dst := by
    intro h
    rw [h, hdst] at hq
    cases hq
  have hlt := getElem?_lt_of_some m q _ hq
  refine ⟨v, m.set q (.val v), hv, ?_, ?_, ?_, ?_, ?_⟩
  · simp [copyVP, loadVal_of m src x S hsrc hx, conv, hv, loadPtr_of m dst (some q) hdst,
      storeVal_of m q old v D hq hold, bind, Except.bind]
  · simp [List.getElem?_set, hne, hdst]
  · simp [List.getElem?_set, hlt]
  · simp
  · intro a ha
    simp [List.getElem?_set, Ne.symm ha]

/-- Witness of C18: the destination pointer at 2 points to the `int` holding 3;
copying the `int` 7 leaves the same pointer, now pointing to 7, and a store of
the same length. -/
theorem copyVP_keeps_pointer_witness :
    copyVP exFloatConv (.int .int) (.int .int) 2 0 exStorePtr =
      .ok [.val (.int .int 7), .val (.int .int 7), .ptr (some 1)] := by
  obtain ⟨v, m2, hv, hrun, hdst, hq, hlen, hframe⟩ :=
    copyVP_keeps_pointer exFloatConv (.int .int) (.int .int) exStorePtr 2 0 1
      (.int .int 7) (.int .int 3) rfl rfl rfl rfl rfl rfl
  have hv7 : v = .int .int 7 := by
    have h : convert exFloatConv (.int .int) (.int .int 7) = some (.int .int 7) := by
      simp only [convert, convInt, IntType.ofPattern, IntType.pattern, IntType.signed,
        IntType.bits]
      norm_num
    rw [h] at hv
    exact (Option.some.inj hv).symm
  rw [hrun]
  congr 1
  apply List.ext_getElem?
  intro a
  by_cases ha : a = 1
  · subst ha
    rw [hq, hv7]
    rfl
  · rw [hframe a ha]
    simp [exStorePtr, List.getElem?_cons]
    rcases a with _ | _ | _ | a <;> simp at ha ⊢

theorem addressOf_storePtr (m : Store) (dst : Nat) (v : Value)
    (hdst : m[dst]? = some (.ptr none)) :
    storePtr (addressOf m v).2 dst (some (addressOf m v).1) =
      .ok ((m ++ [Cell.val v]).set dst (Cell.ptr (some m.length))) := by
  have hlt := getElem?_lt_of_some m dst _ hdst
  have h2 : (m ++ [Cell.val v])[dst]? = some (.ptr none) := by
    rw [List.getElem?_append_left hlt, hdst]
  simp [addressOf, storePtr, h2]

/-- C19 (a null destination pointer allocates): for a baseline pair `(D, S)`,
when `src` holds a value of type `S` and the pointer stored at `dst` is null,
the function `copy<S>ToP<D>` returns; afterwards the pointer stored at `dst`
is non-null, it points to a variable that did not exist before and holds the
source value converted to `D`, and every other variable is unchanged. -/
theorem copyVP_null_dest_allocates (fc : FloatConv) (D S : Leaf) (m : Store)
    (dst src : Nat) (x : Value) (hc : D.convertible S = true)
    (hsrc : m[src]? = some (.val x)) (hx : x.type = S)
    (hdst : m[dst]? = some (.ptr none)) :
    ∃ (v : Value) (a : Nat) (m2 : Store), convert fc D x = some v ∧
      copyVP fc D S dst src m = .ok m2 ∧
      m2[dst]? = some (.ptr (some a)) ∧ m2[a]? = some (.val v) ∧ m[a]? = none ∧
      ∀ b : Nat, b ≠ dst → b ≠ a → m2[b]? = m[b]? := by
  obtain ⟨v, hv, _⟩ := convert_of_convertible fc D S x hc hx
  have hlt := getElem?_lt_of_some m dst _ hdst
  refine ⟨v, m.length, (m ++ [Cell.val v]).set dst (Cell.ptr (some m.length)), hv, ?_, ?_, ?_,
    ?_, ?_⟩
  · have h := addressOf_storePtr m dst v hdst
    simp only [copyVP, loadVal_of m src x S hsrc hx, conv, hv, loadPtr_of m dst none hdst,
      bind, Except.bind]
    exact h
  · have : dst < m.length + 1 := by omega
    simp [List.getElem?_set, this]
  · have hne : dst ≠ m.length := by omega
    simp [List.getElem?_set, hne, List.getElem?_append_right]
  · simp
  · intro b hb1 hb2
    rw [List.getElem?_set]
    simp only [Ne.symm hb1, if_false]
    by_cases hb : b < m.length
    · rw [List.getElem?_append_left hb]
    · have : m.length < b := by omega
      rw [List.getElem?_eq_none (by simp; omega), List.getElem?_eq_none (by omega)]

/-- Witness of C19: the destination pointer at 2 is null; copying the `int64`
2147483648 into it as `int32` stores a pointer to the new variable 5, which
holds -2147483648. -/
theorem copyVP_null_dest_allocates_witness :
    exStore[2]? = some (.ptr none) ∧
    ∃ (a : Nat) (m2 : Store),
      copyVP exFloatConv (.int .int32) (.int .int64) 2 0 exStore = .ok m2 ∧
      m2[2]? = some (.ptr (some a)) ∧
      m2[a]? = some (.val (.int .int32 (-2147483648))) := by
  obtain ⟨v, a, m2, hv, hrun, hdst, ha, _, _⟩ :=
    copyVP_null_dest_allocates exFloatConv (.int .int32) (.int .int64) exStore 2 0
      (.int .int64 2147483648) rfl rfl rfl rfl
  have hv2 : v = .int .int32 (-2147483648) := by
    have h : convert exFloatConv (.int .int32) (.int .int64 2147483648) =
        some (.int .int32 (-2147483648)) := by
      simp only [convert, convInt, IntType.ofPattern, IntType.pattern, IntType.signed,
        IntType.bits]
      norm_num
    rw [h] at hv
    exact (Option.some.inj hv).symm
  exact ⟨rfl, a, m2, hrun, hdst, hv2 ▸ ha⟩

theorem specResolveSource_eq (fc : FloatConv) (D S : Leaf) (src : Nat) (m : Store) :
    specResolveSource fc D S src m =
      (do
        let p ← loadPtr m src
        match p with
        | some a => do
          let x ← loadVal m a S
          conv fc D x
        | none => pure D.zero) := by
  unfold specResolveSource loadPtr
  rcases hs : m[src]? with _ | c
  · rfl
  · rcases c with v | p
    · rfl
    · rcases p with _ | p
      · rfl
      · simp only [bind, Except.bind]
        cases loadVal m p S <;> rfl

theorem specWriteRule_eq (D : Leaf) (dst : Nat) (v : Value) (m : Store) :
    specWriteRule D dst v m =
      (do
        let q ← loadPtr m dst
        match q with
        | some a => storeVal m a D v
        | none => storePtr (addressOf m v).2 dst (some (addressOf m v).1)) := by
  unfold specWriteRule loadPtr
  rcases hs : m[dst]? with _ | c
  · rfl
  · rcases c with w | p
    · rfl
    · rcases p with _ | p
      · simp only [bind, Except.bind]
        exact (addressOf_storePtr m dst v hs).symm
      · rfl

/-- C20 (pointer to pointer is the composition of the two rules): on every
store and for every pair of leaf types, `copyP<S>ToP<D>` does what the
specification's two rules do in sequence: resolve the source to a value of
`D` (the zero value of `D` for a null source pointer, otherwise the converted
pointee), then apply the value-to-pointer write rule (overwrite the pointee
when the destination pointer is non-null, otherwise allocate); the resolve
rule is the one `copyP<S>To<D>` applies and the write rule is the one
`copy<S>ToP<D>` applies.  With pointers stored at `src` and `dst` that are
null or point to variables of the types `S` and `D`, and a baseline pair,
the function returns. -/
theorem copyPP_is_composition (fc : FloatConv) (D S : Leaf) (m : Store) (dst src : Nat) :
    copyPP fc D S dst src m =
      (match specResolveSource fc D S src m with
        | .ok v => specWriteRule D dst v m
        | .error e => .error e) ∧
    copyPV fc D S dst src m =
      (match specResolveSource fc D S src m with
        | .ok v => storeVal m dst D v
        | .error e => .error e) ∧
    copyVP fc D S dst src m =
      (match loadVal m src S with
        | .ok x =>
          match conv fc D x with
          | .ok v => specWriteRule D dst v m
          | .error e => .error e
        | .error e => .error e) ∧
    (D.convertible S = true →
      ∀ ps pd : Option Nat, m[src]? = some (.ptr ps) → m[dst]? = some (.ptr pd) →
      (∀ p, ps = some p → ∃ x, m[p]? = some (.val x) ∧ x.type = S) →
      (∀ q, pd = some q → ∃ old, m[q]? = some (.val old) ∧ old.type = D) →
      ∃ (v : Value) (m2 : Store), specResolveSource fc D S src m = .ok v ∧
        copyPP fc D S dst src m = .ok m2) := by
  have hpp : copyPP fc D S dst src m =
      (match specResolveSource fc D S src m with
        | .ok v => specWriteRule D dst v m
        | .error e => .error e) := by
    rw [specResolveSource_eq]
    simp only [copyPP, specWriteRule_eq, bind, Except.bind, pure, Except.pure]
    cases loadPtr m src with
    | error e => rfl
    | ok p =>
      cases p with
      | none => rfl
      | some a =>
        simp only []
        cases loadVal m a S with
        | error e => rfl
        | ok x =>
          dsimp only
          cases conv fc D x <;> rfl
  refine ⟨hpp, ?_, ?_, ?_⟩
  · rw [specResolveSource_eq]
    simp only [copyPV, bind, Except.bind, pure, Except.pure]
    cases loadPtr m src with
    | error e => rfl
    | ok p =>
      cases p with
      | none => rfl
      | some a =>
        simp only []
        cases loadVal m a S with
        | error e => rfl
        | ok x =>
          dsimp only
          cases conv fc D x <;> rfl
  · simp only [copyVP, specWriteRule_eq, bind, Except.bind]
    cases loadVal m src S with
    | error e => rfl
    | ok x =>
      dsimp only
      cases conv fc D x <;> rfl
  · intro hc ps pd hsrc hdst hps hpd
    have hres : ∃ v, specResolveSource fc D S src m = .ok v ∧ v.type = D := by
      cases ps with
      | none =>
        refine ⟨D.zero, by simp [specResolveSource, hsrc], ?_⟩
        cases D <;> rfl
      | some p =>
        obtain ⟨x, hx, hxt⟩ := hps p rfl
        obtain ⟨v, hv, hvt⟩ := convert_of_convertible fc D S x hc hxt
        exact ⟨v, by simp [specResolveSource, hsrc, loadVal_of m p x S hx hxt, conv, hv], hvt⟩
    obtain ⟨v, hv, _⟩ := hres
    cases pd with
    | none =>
      refine ⟨v, (m ++ [Cell.val v]).set dst (Cell.ptr (some m.length)), hv, ?_⟩
      rw [hpp, hv]
      simp [specWriteRule, hdst]
    | some q =>
      obtain ⟨old, hq, hqt⟩ := hpd q rfl
      refine ⟨v, m.set q (Cell.val v), hv, ?_⟩
      rw [hpp, hv]
      simp [specWriteRule, hdst, storeVal_of m q old v D hq hqt]

/-- Witness of C20: with the pointer to the `int64` 2147483648 at `src` and the
pointer to the `int32` variable 1 at `dst`, the function returns and
overwrites the pointee with -2147483648. -/
theorem copyPP_is_composition_witness :
    copyPP exFloatConv (.int .int32) (.int .int64) 4 3 exStore =
      .ok (exStore.set 1 (.val (.int .int32 (-2147483648)))) := by
  have h := (copyPP_is_composition exFloatConv (.int .int32) (.int .int64) exStore 4 3).1
  rw [h]
  have hres : specResolveSource exFloatConv (.int .int32) (.int .int64) 3 exStore =
      .ok (.int .int32 (-2147483648)) := by
    simp only [specResolveSource, exStore, loadVal, conv, convert, convInt, IntType.ofPattern,
      IntType.pattern, IntType.signed, IntType.bits, Value.type]
    norm_num
  rw [hres]
  rfl

/-! ## Lemmas on the package variable `funcs` -/

set_option maxRecDepth 100000 in
set_option maxHeartbeats 4000000 in
theorem funcs_eq_index (fc : FloatConv) :
    (funcs fc).funcs =
      baselineIndex.map fun i => (keyOf i.1 i.2.1 i.2.2.1 i.2.2.2,
        some (Func.base (funcOf fc i.1 i.2.1 i.2.2.1 i.2.2.2))) := by
  simp only [funcs, baselineIndex, baselinePairs, intTypes, keyOf, funcOf, sideType,
    List.flatMap_cons, List.flatMap_nil, List.map_cons, List.map_nil, List.append_nil,
    List.cons_append, List.nil_append, List.append_assoc, if_true, if_false, Bool.false_eq_true]

theorem baselinePairs_iff : ∀ D S : Leaf, (D, S) ∈ baselinePairs ↔ D.convertible S = true := by
  decide

theorem typeOf_injective : ∀ T U : Leaf, typeOf T = typeOf U → T = U := by
  decide

theorem typeOf_kind_ne_ptr : ∀ T : Leaf, (typeOf T).Kind ≠ Kind.Ptr := by
  decide

set_option maxRecDepth 100000 in
set_option maxHeartbeats 2000000 in
theorem baselinePairs_nodup : baselinePairs.Nodup := by
  decide

theorem baselineIndex_nodup : baselineIndex.Nodup := by
  unfold baselineIndex
  rw [List.nodup_flatMap]
  constructor
  · intro p _
    simp
  · refine baselinePairs_nodup.imp ?_
    intro p q hne
    simp only [Function.onFun, List.disjoint_left]
    intro i hi hj
    simp only [List.mem_cons, List.mem_singleton, List.not_mem_nil, or_false] at hi hj
    apply hne
    rcases hi with rfl | rfl | rfl | rfl <;> rcases hj with h | h | h | h <;>
      simp only [Prod.mk.injEq] at h <;> exact Prod.ext h.2.2.1 h.2.2.2

set_option maxRecDepth 100000 in
theorem baselineIndex_length : baselineIndex.length = 460 := by
  decide

theorem mem_baselineIndex (sp dp : Bool) (D S : Leaf) :
    (sp, dp, D, S) ∈ baselineIndex ↔ D.convertible S = true := by
  rw [← baselinePairs_iff]
  simp only [baselineIndex, List.mem_flatMap, List.mem_cons, List.mem_singleton,
    List.not_mem_nil, or_false, Prod.mk.injEq]
  constructor
  · rintro ⟨p, hp, h⟩
    have : p = (D, S) := by
      rcases h with h | h | h | h <;> exact Prod.ext h.2.2.1.symm h.2.2.2.symm
    exact this ▸ hp
  · intro h
    refine ⟨(D, S), h, ?_⟩
    cases sp <;> cases dp <;> simp

theorem lookup_cons_eq_gen {V : Type} (m : List (funcKey × V)) (k k2 : funcKey) (v : V) :
    ((k, v) :: m).lookup k2 = if k2 = k then some v else m.lookup k2 := by
  by_cases h : k2 = k
  · subst h
    simp
  · have hb : (k2 == k) = false := beq_false_of_ne h
    simp [List.lookup_cons, hb, h]

theorem sideType_injective (b c : Bool) (T U : Leaf) (h : sideType b T = sideType c U) :
    b = c ∧ T = U := by
  cases b <;> cases c <;> simp only [sideType, typeOfPointer, if_true, if_false,
    Bool.false_eq_true] at h
  · exact ⟨rfl, typeOf_injective T U h⟩
  · have := typeOf_kind_ne_ptr T
    rw [h] at this
    exact absurd rfl this
  · have := typeOf_kind_ne_ptr U
    rw [← h] at this
    exact absurd rfl this
  · simp only [RType.ptr.injEq, true_and] at h
    exact ⟨rfl, typeOf_injective T U h⟩

theorem keyOf_injective (sp dp sp2 dp2 : Bool) (D S D2 S2 : Leaf)
    (h : keyOf sp dp D S = keyOf sp2 dp2 D2 S2) :
    sp = sp2 ∧ dp = dp2 ∧ D = D2 ∧ S = S2 := by
  simp only [keyOf, funcKey.mk.injEq] at h
  obtain ⟨h1, h2⟩ := sideType_injective sp sp2 S S2 h.1
  obtain ⟨h3, h4⟩ := sideType_injective dp dp2 D D2 h.2
  exact ⟨h1, h3, h4, h2⟩

theorem lookup_map_of_mem {ι V : Type} (l : List ι) (key : ι → funcKey) (val : ι → V)
    (hinj : ∀ i j, key i = key j → i = j) (i : ι) (hi : i ∈ l) :
    (l.map fun j => (key j, val j)).lookup (key i) = some (val i) := by
  induction l with
  | nil => cases hi
  | cons j l ih =>
    rw [List.map_cons, lookup_cons_eq_gen]
    by_cases h : key i = key j
    · rw [if_pos h, hinj i j h]
    · rw [if_neg h]
      rcases List.mem_cons.1 hi with rfl | hi2
      · exact absurd rfl h
      · exact ih hi2

theorem lookup_map_of_not_mem {ι V : Type} (l : List ι) (key : ι → funcKey) (val : ι → V)
    (k : funcKey) (hk : ∀ i ∈ l, key i ≠ k) :
    (l.map fun j => (key j, val j)).lookup k = none := by
  induction l with
  | nil => rfl
  | cons j l ih =>
    rw [List.map_cons, lookup_cons_eq_gen]
    have h : ¬ k = key j := fun e => hk j (List.mem_cons_self _ _) e.symm
    rw [if_neg h]
    exact ih fun i hi => hk i (List.mem_cons_of_mem _ hi)

theorem indexKey_injective (i j : Bool × Bool × Leaf × Leaf)
    (h : keyOf i.1 i.2.1 i.2.2.1 i.2.2.2 = keyOf j.1 j.2.1 j.2.2.1 j.2.2.2) : i = j := by
  obtain ⟨h1, h2, h3, h4⟩ := keyOf_injective _ _ _ _ _ _ _ _ h
  obtain ⟨a, b, c, d⟩ := i
  obtain ⟨a2, b2, c2, d2⟩ := j
  simp only at h1 h2 h3 h4
  subst h1 h2 h3 h4
  rfl

theorem mapIndex_baseline (fc : FloatConv) (sp dp : Bool) (D S : Leaf)
    (hc : D.convertible S = true) :
    mapIndex (funcs fc).funcs (keyOf sp dp D S) =
      some (Func.base (funcOf fc sp dp D S)) := by
  have h := lookup_map_of_mem baselineIndex
    (fun i => keyOf i.1 i.2.1 i.2.2.1 i.2.2.2)
    (fun i => some (Func.base (funcOf fc i.1 i.2.1 i.2.2.1 i.2.2.2)))
    indexKey_injective (sp, dp, D, S) ((mem_baselineIndex sp dp D S).2 hc)
  unfold mapIndex
  rw [funcs_eq_index, h]

theorem mapIndex_not_baseline (fc : FloatConv) (k : funcKey)
    (hk : ∀ (sp dp : Bool) (D S : Leaf), D.convertible S = true → keyOf sp dp D S ≠ k) :
    mapIndex (funcs fc).funcs k = none := by
  have h := lookup_map_of_not_mem baselineIndex
    (fun i => keyOf i.1 i.2.1 i.2.2.1 i.2.2.2)
    (fun i => some (Func.base (funcOf fc i.1 i.2.1 i.2.2.1 i.2.2.2))) k
    (fun i hi => hk i.1 i.2.1 i.2.2.1 i.2.2.2 ((mem_baselineIndex _ _ _ _).1 hi))
  unfold mapIndex
  rw [funcs_eq_index, h]

theorem Get_baseline (fc : FloatConv) (sp dp : Bool) (D S : Leaf)
    (hc : D.convertible S = true) :
    (funcs fc).Get (sideType dp D) (sideType sp S) =
      .ok (some (Func.base (funcOf fc sp dp D S))) :=
  Get_of_entry (funcs fc) _ _ _ (mapIndex_baseline fc sp dp D S hc)

theorem funcs_sizes (fc : FloatConv) :
    (funcs fc).sizes = sizes.map (Option.map Func.raw) :=
  rfl

theorem funcs_sizes_length (fc : FloatConv) : (funcs fc).sizes.length = 255 := by
  rw [funcs_sizes, List.length_map, sizes_length]

theorem funcs_sizes_getElem (fc : FloatConv) (n : Nat) (h1 : 1 ≤ n) (h2 : n ≤ 255) :
    (funcs fc).sizes[n - 1]? = some (some (Func.raw (copyN n))) := by
  rw [funcs_sizes, List.getElem?_map, sizes_getElem n h1 h2]
  rfl

theorem funcs_keys (fc : FloatConv) :
    (funcs fc).funcs.map Prod.fst =
      baselineIndex.map fun i => keyOf i.1 i.2.1 i.2.2.1 i.2.2.2 := by
  rw [funcs_eq_index, List.map_map]
  rfl

theorem mem_funcs_keys (fc : FloatConv) (k : funcKey) :
    k ∈ (funcs fc).funcs.map Prod.fst ↔
      ∃ (sp dp : Bool) (D S : Leaf), D.convertible S = true ∧ k = keyOf sp dp D S := by
  rw [funcs_keys, List.mem_map]
  constructor
  · rintro ⟨⟨sp, dp, D, S⟩, hi, rfl⟩
    exact ⟨sp, dp, D, S, (mem_baselineIndex sp dp D S).1 hi, rfl⟩
  · rintro ⟨sp, dp, D, S, hc, rfl⟩
    exact ⟨(sp, dp, D, S), (mem_baselineIndex sp dp D S).2 hc, rfl⟩

/-! ## The claims on the start-up registry -/

/-- C22 (baseline coverage of the four indirection variants): the map of the
package variable `funcs` has 460 entries with pairwise different keys, and its
keys are exactly the keys of the four variants (direct value or one-level
pointer on each side) of the type pairs `(D, S)` of the enumeration: every
ordered pair of the ten integer types, of `float32` and `float64`, of
`complex64` and `complex128`, of `string` and `[]byte`, and `bool`,
`time.Time`, `time.Duration` with themselves; so with the key of a pair
`(D, S)` the keys of `(D, *S)`, `(*D, S)` and `(*D, *S)` are in the map. -/
theorem baseline_key_set (fc : FloatConv) :
    ((funcs fc).funcs.map Prod.fst).length = 460 ∧
    ((funcs fc).funcs.map Prod.fst).Nodup ∧
    (∀ k : funcKey, k ∈ (funcs fc).funcs.map Prod.fst ↔
      ∃ (sp dp : Bool) (D S : Leaf), D.convertible S = true ∧ k = keyOf sp dp D S) ∧
    (∀ D S : Leaf, D.convertible S = true ↔ (D, S) ∈ baselinePairs) ∧
    (∀ D S : Leaf,
      ({ Src := typeOf S, Dest := typeOf D } : funcKey) ∈ (funcs fc).funcs.map Prod.fst →
      ({ Src := typeOfPointer S, Dest := typeOf D } : funcKey) ∈
        (funcs fc).funcs.map Prod.fst ∧
      ({ Src := typeOf S, Dest := typeOfPointer D } : funcKey) ∈
        (funcs fc).funcs.map Prod.fst ∧
      ({ Src := typeOfPointer S, Dest := typeOfPointer D } : funcKey) ∈
        (funcs fc).funcs.map Prod.fst) := by
  refine ⟨?_, ?_, mem_funcs_keys fc, fun D S => (baselinePairs_iff D S).symm, ?_⟩
  · rw [funcs_keys, List.length_map, baselineIndex_length]
  · rw [funcs_keys]
    exact baselineIndex_nodup.map fun i j h => indexKey_injective i j h
  · intro D S h
    obtain ⟨sp, dp, D2, S2, hc, hk⟩ := (mem_funcs_keys fc _).1 h
    have hk2 : keyOf false false D S = keyOf sp dp D2 S2 := hk
    obtain ⟨_, _, hD, hS⟩ := keyOf_injective _ _ _ _ _ _ _ _ hk2
    subst hD hS
    exact ⟨(mem_funcs_keys fc _).2 ⟨true, false, D, S, hc, rfl⟩,
      (mem_funcs_keys fc _).2 ⟨false, true, D, S, hc, rfl⟩,
      (mem_funcs_keys fc _).2 ⟨true, true, D, S, hc, rfl⟩⟩

/-- Witness of C22: the key of `int32` from `int64` is in the map, and so are
the keys of its three pointer variants. -/
theorem baseline_key_set_witness :
    ({ Src := typeOf (.int .int64), Dest := typeOf (.int .int32) } : funcKey) ∈
      (funcs exFloatConv).funcs.map Prod.fst ∧
    ({ Src := typeOfPointer (.int .int64), Dest := typeOf (.int .int32) } : funcKey) ∈
      (funcs exFloatConv).funcs.map Prod.fst ∧
    ({ Src := typeOf (.int .int64), Dest := typeOfPointer (.int .int32) } : funcKey) ∈
      (funcs exFloatConv).funcs.map Prod.fst ∧
    ({ Src := typeOfPointer (.int .int64), Dest := typeOfPointer (.int .int32) } : funcKey) ∈
      (funcs exFloatConv).funcs.map Prod.fst := by
  have hmem : ({ Src := typeOf (.int .int64), Dest := typeOf (.int .int32) } : funcKey) ∈
      (funcs exFloatConv).funcs.map Prod.fst :=
    ((baseline_key_set exFloatConv).2.2.1 _).2
      ⟨false, false, .int .int32, .int .int64, rfl, rfl⟩
  exact ⟨hmem, (baseline_key_set exFloatConv).2.2.2.2 _ _ hmem⟩

/-! ## Lemmas on typed access of the baseline functions -/

theorem convert_type (fc : FloatConv) (D : Leaf) (x v : Value) (h : convert fc D x = some v) :
    v.type = D := by
  cases D <;> cases x <;> simp [convert] at h <;> subst h <;> rfl

theorem zero_type (D : Leaf) : D.zero.type = D := by
  cases D <;> rfl

theorem loadVal_ok (m : Store) (a : Nat) (T : Leaf) (x : Value) (h : loadVal m a T = .ok x) :
    m[a]? = some (.val x) ∧ x.type = T := by
  unfold loadVal at h
  split at h
  · rename_i v hv
    split at h
    · cases h
      exact ⟨hv, by assumption⟩
    · cases h
  · cases h

theorem storeVal_ok (m m2 : Store) (a : Nat) (T : Leaf) (v : Value)
    (h : storeVal m a T v = .ok m2) :
    (∃ old, m[a]? = some (.val old) ∧ old.type = T) ∧ m2 = m.set a (.val v) := by
  unfold storeVal at h
  split at h
  · rename_i old hv
    split at h
    · cases h
      exact ⟨⟨old, hv, by assumption⟩, rfl⟩
    · cases h
  · cases h

theorem loadPtr_ok (m : Store) (a : Nat) (p : Option Addr) (h : loadPtr m a = .ok p) :
    m[a]? = some (.ptr p) := by
  unfold loadPtr at h
  split at h
  · rename_i q hq
    cases h
    exact hq
  · cases h

theorem conv_ok (fc : FloatConv) (D : Leaf) (x v : Value) (h : conv fc D x = .ok v) :
    convert fc D x = some v := by
  unfold conv at h
  split at h
  · cases h
    assumption
  · cases h

theorem writeVal_typed (m m2 : Store) (dst : Nat) (D : Leaf) (v : Value) (hv : v.type = D)
    (h : storeVal m dst D v = .ok m2) :
    (∃ old, m[dst]? = some (.val old) ∧ old.type = D) ∧
    ∃ w, m2[dst]? = some (.val w) ∧ w.type = D := by
  obtain ⟨⟨old, hold, ht⟩, rfl⟩ := storeVal_ok m m2 dst D v h
  refine ⟨⟨old, hold, ht⟩, v, ?_, hv⟩
  simp [List.getElem?_set, getElem?_lt_of_some m dst _ hold]

theorem writePtr_typed (m m2 : Store) (dst : Nat) (D : Leaf) (v : Value) (hv : v.type = D)
    (h : (do
      let q ← loadPtr m dst
      match q with
      | some a => storeVal m a D v
      | none =>
        let (a, m1) := addressOf m v
        storePtr m1 dst (some a)) = Except.ok m2) :
    (∃ q, m[dst]? = some (.ptr q)) ∧
    ∃ a w, m2[dst]? = some (.ptr (some a)) ∧ m2[a]? = some (.val w) ∧ w.type = D := by
  simp only [bind, Except.bind] at h
  cases hq : loadPtr m dst with
  | error e => rw [hq] at h; cases h
  | ok q =>
    rw [hq] at h
    have hdst := loadPtr_ok m dst q hq
    refine ⟨⟨q, hdst⟩, ?_⟩
    cases q with
    | some a =>
      simp only at h
      obtain ⟨⟨old, hold, _⟩, rfl⟩ := storeVal_ok m m2 a D v h
      have hne : a ≠ dst := by
        intro e
        rw [e, hdst] at hold
        cases hold
      refine ⟨a, v, ?_, ?_, hv⟩
      · simp [List.getElem?_set, hne, hdst]
      · simp [List.getElem?_set, getElem?_lt_of_some m a _ hold]
    | none =>
      simp only at h
      rw [addressOf_storePtr m dst v hdst] at h
      cases h
      have hlt := getElem?_lt_of_some m dst _ hdst
      have hlt2 : dst < m.length + 1 := by omega
      have hne : dst ≠ m.length := by omega
      refine ⟨m.length, v, ?_, ?_, hv⟩
      · simp [List.getElem?_set, hlt2]
      · simp [List.getElem?_set, hne, List.getElem?_append_right]

theorem readVal_typed (fc : FloatConv) (D S : Leaf) (m : Store) (src : Nat)
    (k : Value → Except Fault Store) (m2 : Store)
    (h : (do
      let x ← loadVal m src S
      let v ← conv fc D x
      k v) = Except.ok m2) :
    (∃ x, m[src]? = some (.val x) ∧ x.type = S) ∧ ∃ v, v.type = D ∧ k v = .ok m2 := by
  simp only [bind, Except.bind] at h
  cases hx : loadVal m src S with
  | error e => rw [hx] at h; cases h
  | ok x =>
    rw [hx] at h
    simp only at h
    cases hv : conv fc D x with
    | error e => rw [hv] at h; cases h
    | ok v =>
      rw [hv] at h
      exact ⟨⟨x, loadVal_ok m src S x hx⟩, v, convert_type fc D x v (conv_ok fc D x v hv), h⟩

theorem readPtr_typed (fc : FloatConv) (D S : Leaf) (m : Store) (src : Nat)
    (k : Value → Except Fault Store) (m2 : Store)
    (h : (do
      let p ← loadPtr m src
      let v ←
        match p with
        | some a => do
          let x ← loadVal m a S
          conv fc D x
        | none => pure D.zero
      k v) = Except.ok m2) :
    (∃ p, m[src]? = some (.ptr p) ∧
      ∀ a, p = some a → ∃ x, m[a]? = some (.val x) ∧ x.type = S) ∧
    ∃ v, v.type = D ∧ k v = .ok m2 := by
  simp only [bind, Except.bind, pure, Except.pure] at h
  cases hp : loadPtr m src with
  | error e => rw [hp] at h; cases h
  | ok p =>
    rw [hp] at h
    have hsrc := loadPtr_ok m src p hp
    cases p with
    | none =>
      simp only at h
      exact ⟨⟨none, hsrc, fun a ha => by cases ha⟩, D.zero, zero_type D, h⟩
    | some a =>
      simp only at h
      cases hx : loadVal m a S with
      | error e => rw [hx] at h; cases h
      | ok x =>
        rw [hx] at h
        simp only at h
        cases hv : conv fc D x with
        | error e => rw [hv] at h; cases h
        | ok v =>
          rw [hv] at h
          refine ⟨⟨some a, hsrc, ?_⟩, v, convert_type fc D x v (conv_ok fc D x v hv), h⟩
          intro b hb
          cases hb
          exact ⟨x, loadVal_ok m a S x hx⟩

theorem funcOf_typed (fc : FloatConv) (sp dp : Bool) (D S : Leaf) (dst src : Nat)
    (m m2 : Store) (h : funcOf fc sp dp D S dst src m = .ok m2) :
    (sp = false → ∃ x, m[src]? = some (.val x) ∧ x.type = S) ∧
    (sp = true → ∃ p, m[src]? = some (.ptr p) ∧
      ∀ a, p = some a → ∃ x, m[a]? = some (.val x) ∧ x.type = S) ∧
    (dp = false → (∃ old, m[dst]? = some (.val old) ∧ old.type = D) ∧
      ∃ w, m2[dst]? = some (.val w) ∧ w.type = D) ∧
    (dp = true → (∃ q, m[dst]? = some (.ptr q)) ∧
      ∃ a w, m2[dst]? = some (.ptr (some a)) ∧ m2[a]? = some (.val w) ∧ w.type = D) := by
  cases sp <;> cases dp
  · obtain ⟨hs, v, hv, hk⟩ := readVal_typed fc D S m src (fun v => storeVal m dst D v) m2 h
    exact ⟨fun _ => hs, fun e => Bool.noConfusion e, fun _ => writeVal_typed m m2 dst D v hv hk,
      fun e => Bool.noConfusion e⟩
  · obtain ⟨hs, v, hv, hk⟩ := readVal_typed fc D S m src
      (fun v => do
        let q ← loadPtr m dst
        match q with
        | some a => storeVal m a D v
        | none =>
          let (a, m1) := addressOf m v
          storePtr m1 dst (some a)) m2 h
    exact ⟨fun _ => hs, fun e => Bool.noConfusion e, fun e => Bool.noConfusion e,
      fun _ => writePtr_typed m m2 dst D v hv hk⟩
  · obtain ⟨hs, v, hv, hk⟩ := readPtr_typed fc D S m src (fun v => storeVal m dst D v) m2 h
    exact ⟨fun e => Bool.noConfusion e, fun _ => hs, fun _ => writeVal_typed m m2 dst D v hv hk,
      fun e => Bool.noConfusion e⟩
  · obtain ⟨hs, v, hv, hk⟩ := readPtr_typed fc D S m src
      (fun v => do
        let q ← loadPtr m dst
        match q with
        | some a => storeVal m a D v
        | none =>
          let (a, m1) := addressOf m v
          storePtr m1 dst (some a)) m2 h
    exact ⟨fun e => Bool.noConfusion e, fun _ => hs, fun e => Bool.noConfusion e,
      fun _ => writePtr_typed m m2 dst D v hv hk⟩

theorem writePtr_returns (m : Store) (dst : Nat) (D : Leaf) (v : Value)
    (q : Option Nat) (hdst : m[dst]? = some (.ptr q))
    (hq : ∀ a, q = some a → ∃ old, m[a]? = some (.val old) ∧ old.type = D) :
    ∃ m2, (do
      let q ← loadPtr m dst
      match q with
      | some a => storeVal m a D v
      | none =>
        let (a, m1) := addressOf m v
        storePtr m1 dst (some a)) = Except.ok m2 := by
  simp only [bind, Except.bind, loadPtr_of m dst q hdst]
  cases q with
  | none => exact ⟨_, addressOf_storePtr m dst v hdst⟩
  | some a =>
    obtain ⟨old, hold, ht⟩ := hq a rfl
    exact ⟨_, storeVal_of m a old v D hold ht⟩

theorem resolveVal_returns (fc : FloatConv) (D S : Leaf) (m : Store) (src : Nat)
    (hc : D.convertible S = true) (k : Value → Except Fault Store)
    (hs : ∃ x, m[src]? = some (.val x) ∧ x.type = S) :
    ∃ v, (do
      let x ← loadVal m src S
      let v ← conv fc D x
      k v) = k v := by
  obtain ⟨x, hx, ht⟩ := hs
  obtain ⟨v, hv, _⟩ := convert_of_convertible fc D S x hc ht
  exact ⟨v, by simp only [loadVal_of m src x S hx ht, conv, hv, bind, Except.bind]⟩

theorem resolvePtr_returns (fc : FloatConv) (D S : Leaf) (m : Store) (src : Nat)
    (hc : D.convertible S = true) (k : Value → Except Fault Store)
    (hs : ∃ p, m[src]? = some (.ptr p) ∧
      ∀ a, p = some a → ∃ x, m[a]? = some (.val x) ∧ x.type = S) :
    ∃ v, (do
      let p ← loadPtr m src
      let v ←
        match p with
        | some a => do
          let x ← loadVal m a S
          conv fc D x
        | none => pure D.zero
      k v) = k v := by
  obtain ⟨p, hp, hpt⟩ := hs
  cases p with
  | none =>
    exact ⟨D.zero, by simp only [loadPtr_of m src none hp, bind, Except.bind, pure, Except.pure]⟩
  | some a =>
    obtain ⟨x, hx, ht⟩ := hpt a rfl
    obtain ⟨v, hv, _⟩ := convert_of_convertible fc D S x hc ht
    exact ⟨v, by simp only [loadPtr_of m src (some a) hp, loadVal_of m a x S hx ht, conv, hv,
      bind, Except.bind]⟩

theorem funcOf_returns (fc : FloatConv) (sp dp : Bool) (D S : Leaf) (dst src : Nat)
    (m : Store) (hc : D.convertible S = true)
    (hs1 : sp = false → ∃ x, m[src]? = some (.val x) ∧ x.type = S)
    (hs2 : sp = true → ∃ p, m[src]? = some (.ptr p) ∧
      ∀ a, p = some a → ∃ x, m[a]? = some (.val x) ∧ x.type = S)
    (hd1 : dp = false → ∃ old, m[dst]? = some (.val old) ∧ old.type = D)
    (hd2 : dp = true → ∃ q, m[dst]? = some (.ptr q) ∧
      ∀ a, q = some a → ∃ old, m[a]? = some (.val old) ∧ old.type = D) :
    ∃ m2, funcOf fc sp dp D S dst src m = .ok m2 := by
  cases sp <;> cases dp
  · obtain ⟨old, hold, ht⟩ := hd1 rfl
    obtain ⟨v, hv⟩ := resolveVal_returns fc D S m src hc (fun v => storeVal m dst D v) (hs1 rfl)
    exact ⟨_, hv.trans (storeVal_of m dst old v D hold ht)⟩
  · obtain ⟨q, hq, hqt⟩ := hd2 rfl
    obtain ⟨v, hv⟩ := resolveVal_returns fc D S m src hc
      (fun v => do
        let q ← loadPtr m dst
        match q with
        | some a => storeVal m a D v
        | none =>
          let (a, m1) := addressOf m v
          storePtr m1 dst (some a)) (hs1 rfl)
    obtain ⟨m2, hm2⟩ := writePtr_returns m dst D v q hq hqt
    exact ⟨m2, hv.trans hm2⟩
  · obtain ⟨old, hold, ht⟩ := hd1 rfl
    obtain ⟨v, hv⟩ := resolvePtr_returns fc D S m src hc (fun v => storeVal m dst D v) (hs2 rfl)
    exact ⟨_, hv.trans (storeVal_of m dst old v D hold ht)⟩
  · obtain ⟨q, hq, hqt⟩ := hd2 rfl
    obtain ⟨v, hv⟩ := resolvePtr_returns fc D S m src hc
      (fun v => do
        let q ← loadPtr m dst
        match q with
        | some a => storeVal m a D v
        | none =>
          let (a, m1) := addressOf m v
          storePtr m1 dst (some a)) (hs2 rfl)
    obtain ⟨m2, hm2⟩ := writePtr_returns m dst D v q hq hqt
    exact ⟨m2, hv.trans hm2⟩

/-- C28 (the baseline table is wired consistently): every entry of the
start-up map has a key `(Dest, Src)` that is the pair of a baseline type pair
`(D, S)` in one of the four indirection variants, and holds the function of
that variant for exactly `(D, S)`.  That function returns on a store if and
only if the storage is laid out as the key says: `src` holds a value of type
`S` (for a pointer source: a pointer that is null or points to a value of type
`S`) and `dst` holds a value of type `D` (for a pointer destination: a pointer
that is null or points to a value of type `D`); after it `dst` holds a value
of type `D` (for a pointer destination: a pointer to one). -/
theorem baseline_wired_consistently (fc : FloatConv) :
    (∀ e ∈ (funcs fc).funcs, ∃ (sp dp : Bool) (D S : Leaf), D.convertible S = true ∧
      e.1 = { Src := sideType sp S, Dest := sideType dp D } ∧
      e.2 = some (Func.base (funcOf fc sp dp D S))) ∧
    (∀ (sp dp : Bool) (D S : Leaf), D.convertible S = true →
      (funcs fc).Get (sideType dp D) (sideType sp S) =
        .ok (some (Func.base (funcOf fc sp dp D S)))) ∧
    (∀ (sp dp : Bool) (D S : Leaf) (dst src : Nat) (m m2 : Store),
      funcOf fc sp dp D S dst src m = .ok m2 →
      (sp = false → ∃ x, m[src]? = some (.val x) ∧ x.type = S) ∧
      (sp = true → ∃ p, m[src]? = some (.ptr p) ∧
        ∀ a, p = some a → ∃ x, m[a]? = some (.val x) ∧ x.type = S) ∧
      (dp = false → (∃ old, m[dst]? = some (.val old) ∧ old.type = D) ∧
        ∃ w, m2[dst]? = some (.val w) ∧ w.type = D) ∧
      (dp = true → (∃ q, m[dst]? = some (.ptr q)) ∧
        ∃ a w, m2[dst]? = some (.ptr (some a)) ∧ m2[a]? = some (.val w) ∧ w.type = D)) ∧
    (∀ (sp dp : Bool) (D S : Leaf) (dst src : Nat) (m : Store), D.convertible S = true →
      (sp = false → ∃ x, m[src]? = some (.val x) ∧ x.type = S) →
      (sp = true → ∃ p, m[src]? = some (.ptr p) ∧
        ∀ a, p = some a → ∃ x, m[a]? = some (.val x) ∧ x.type = S) →
      (dp = false → ∃ old, m[dst]? = some (.val old) ∧ old.type = D) →
      (dp = true → ∃ q, m[dst]? = some (.ptr q) ∧
        ∀ a, q = some a → ∃ old, m[a]? = some (.val old) ∧ old.type = D) →
      ∃ m2, funcOf fc sp dp D S dst src m = .ok m2) := by
  refine ⟨?_, Get_baseline fc, funcOf_typed fc, ?_⟩
  · intro e he
    rw [funcs_eq_index, List.mem_map] at he
    obtain ⟨⟨sp, dp, D, S⟩, hi, rfl⟩ := he
    exact ⟨sp, dp, D, S, (mem_baselineIndex sp dp D S).1 hi, rfl, rfl⟩
  · intro sp dp D S dst src m hc hs1 hs2 hd1 hd2
    exact funcOf_returns fc sp dp D S dst src m hc hs1 hs2 hd1 hd2

/-- Witness of C28: the entry for `(Dest = int32, Src = int64)` is
`copyInt64ToInt32`: `Get` returns it, it narrows the `int64` at 0 into the
`int32` at 1, and it faults when run in the reverse direction, where `src`
would hold an `int32`. -/
theorem baseline_wired_consistently_witness :
    (funcs exFloatConv).Get (typeOf (.int .int32)) (typeOf (.int .int64)) =
      .ok (some (Func.base (copyVV exFloatConv (.int .int32) (.int .int64)))) ∧
    copyVV exFloatConv (.int .int32) (.int .int64) 1 0 exStore =
      .ok (exStore.set 1 (.val (.int .int32 (-2147483648)))) ∧
    copyVV exFloatConv (.int .int32) (.int .int64) 0 1 exStore = .error .invalidAccess := by
  refine ⟨(baseline_wired_consistently exFloatConv).2.1 false false (.int .int32)
    (.int .int64) rfl, ?_, ?_⟩
  · have h : convert exFloatConv (.int .int32) (.int .int64 2147483648) =
        some (.int .int32 (-2147483648)) := by
      simp only [convert, convInt, IntType.ofPattern, IntType.pattern, IntType.signed,
        IntType.bits]
      norm_num
    exact copyVV_of exFloatConv _ _ exStore 1 0 _ _ _ rfl rfl rfl rfl h
  · rfl

/-- C23, counterexample: `int64` and `int` have different kinds and are no
`string`/`[]byte` pair, yet on the start-up registry `Get(int64, int)` is not
absent: it returns the registered conversion `copyIntToInt64`. -/
theorem Get_different_kinds_registered :
    (typeOf (.int .int64)).Kind ≠ (typeOf (.int .int)).Kind ∧
    (typeOf (.int .int64)).Kind ≠ Kind.String ∧ (typeOf (.int .int64)).Kind ≠ Kind.Slice ∧
    (typeOf (.int .int)).Kind ≠ Kind.String ∧ (typeOf (.int .int)).Kind ≠ Kind.Slice ∧
    (funcs exFloatConv).Get (typeOf (.int .int64)) (typeOf (.int .int)) =
      .ok (some (Func.base (copyVV exFloatConv (.int .int64) (.int .int)))) ∧
    (funcs exFloatConv).Get (typeOf (.int .int64)) (typeOf (.int .int)) ≠ .ok none := by
  have h := Get_baseline exFloatConv false false (.int .int64) (.int .int) rfl
  have h2 : (funcs exFloatConv).Get (typeOf (.int .int64)) (typeOf (.int .int)) =
      .ok (some (Func.base (copyVV exFloatConv (.int .int64) (.int .int)))) := h
  refine ⟨by decide, by decide, by decide, by decide, by decide, h2, ?_⟩
  rw [h2]
  intro hc
  cases hc

/-- C23, amended (pairs outside the baseline are not converted): on the
start-up registry `Get` returns absent for every pair whose kinds differ and
that is not a key of the baseline map, that is, not one of the four
indirection variants of a baseline type pair; a pair that is such a key
resolves to its registered function. -/
theorem Get_outside_baseline_absent (fc : FloatConv) (dst src : RType)
    (hk : dst.Kind ≠ src.Kind)
    (hout : ∀ (sp dp : Bool) (D S : Leaf), D.convertible S = true →
      keyOf sp dp D S ≠ { Src := src, Dest := dst }) :
    (funcs fc).Get dst src = .ok none :=
  Get_noEntry_kind (funcs fc) dst src (mapIndex_not_baseline fc _ hout) hk

/-- Witness of C23, amended: `Get(int, string)`, `Get(float64, int)` and
`Get(int64, bool)` are absent on the start-up registry. -/
theorem Get_outside_baseline_absent_witness :
    (funcs exFloatConv).Get (typeOf (.int .int)) (typeOf .string) = .ok none ∧
    (funcs exFloatConv).Get (typeOf .float64) (typeOf (.int .int)) = .ok none ∧
    (funcs exFloatConv).Get (typeOf (.int .int64)) (typeOf .bool) = .ok none := by
  have key : ∀ D S : Leaf, D.convertible S = false →
      ∀ (sp dp : Bool) (D2 S2 : Leaf), D2.convertible S2 = true →
        keyOf sp dp D2 S2 ≠ { Src := typeOf S, Dest := typeOf D } := by
    intro D S hn sp dp D2 S2 hc heq
    have h2 : keyOf sp dp D2 S2 = keyOf false false D S := heq
    obtain ⟨_, _, hD, hS⟩ := keyOf_injective _ _ _ _ _ _ _ _ h2
    rw [hD, hS, hn] at hc
    cases hc
  exact ⟨Get_outside_baseline_absent exFloatConv _ _ (by decide) (key _ _ rfl),
    Get_outside_baseline_absent exFloatConv _ _ (by decide) (key _ _ rfl),
    Get_outside_baseline_absent exFloatConv _ _ (by decide) (key _ _ rfl)⟩

theorem sideType_ne_ptr_ptr (b : Bool) (T : Leaf) (n1 n2 : String) (s1 s2 : Nat) (E : RType) :
    sideType b T ≠ .ptr n1 s1 (.ptr n2 s2 E) := by
  intro h
  cases b
  · have hk := typeOf_kind_ne_ptr T
    simp only [sideType, Bool.false_eq_true, if_false] at h
    rw [h] at hk
    exact hk rfl
  · simp only [sideType, typeOfPointer, if_true, RType.ptr.injEq] at h
    have hk := typeOf_kind_ne_ptr T
    rw [h.2.2] at hk
    exact hk rfl

/-- C27, counterexample: for `P = **int` the call `Get(P, P)` on the start-up
registry is not absent; it returns the 8-byte copy `copy8`. -/
theorem Get_pointer_to_pointer_not_absent :
    (funcs exFloatConv).Get (.ptr "" 8 (typeOfPointer (.int .int)))
      (.ptr "" 8 (typeOfPointer (.int .int))) = .ok (some (Func.raw (copyN 8))) ∧
    (funcs exFloatConv).Get (.ptr "" 8 (typeOfPointer (.int .int)))
      (.ptr "" 8 (typeOfPointer (.int .int))) ≠ .ok none := by
  have hno : mapIndex (funcs exFloatConv).funcs
      { Src := .ptr "" 8 (typeOfPointer (.int .int)),
        Dest := .ptr "" 8 (typeOfPointer (.int .int)) } = none := by
    apply mapIndex_not_baseline
    intro sp dp D S _ h
    simp only [keyOf, funcKey.mk.injEq] at h
    exact sideType_ne_ptr_ptr sp S _ _ _ _ _ h.1
  obtain ⟨g, hg, hget⟩ := Get_noEntry_same (funcs exFloatConv) _ _ hno rfl (by decide)
    (Or.inl rfl) rfl (by decide) (by rw [funcs_sizes_length]; decide)
  have h8 : (funcs exFloatConv).sizes[8 - 1]? = some (some (Func.raw (copyN 8))) :=
    funcs_sizes_getElem exFloatConv 8 (by decide) (by decide)
  have hg2 : g = some (Func.raw (copyN 8)) := by
    have : (funcs exFloatConv).sizes[8 - 1]? = some g := hg
    rw [h8] at this
    exact (Option.some.inj this).symm
  rw [hget, hg2]
  refine ⟨rfl, ?_⟩
  intro hc
  cases hc

/-- C27, amended (more than one level of pointer): for every type `T` and every
pointer-to-pointer type `P` over `T` (of pointer size 8), the start-up
registry has no entry for `(P, P)`, and `Get(P, P)` returns the structural
fallback for identical types, the 8-byte copy `copy8`, which copies the outer
pointer itself and dereferences nothing. -/
theorem Get_pointer_to_pointer_fallback (fc : FloatConv) (n1 n2 : String) (s2 : Nat)
    (T : RType) :
    mapIndex (funcs fc).funcs
      { Src := .ptr n1 8 (.ptr n2 s2 T), Dest := .ptr n1 8 (.ptr n2 s2 T) } = none ∧
    (funcs fc).Get (.ptr n1 8 (.ptr n2 s2 T)) (.ptr n1 8 (.ptr n2 s2 T)) =
      .ok (some (Func.raw (copyN 8))) := by
  have hno : mapIndex (funcs fc).funcs
      { Src := .ptr n1 8 (.ptr n2 s2 T), Dest := .ptr n1 8 (.ptr n2 s2 T) } = none := by
    apply mapIndex_not_baseline
    intro sp dp D S _ h
    simp only [keyOf, funcKey.mk.injEq] at h
    exact sideType_ne_ptr_ptr sp S _ _ _ _ _ h.1
  refine ⟨hno, ?_⟩
  obtain ⟨g, hg, hget⟩ := Get_noEntry_same (funcs fc) _ _ hno rfl (by simp [RType.Kind])
    (Or.inl rfl) rfl (by simp [RType.Size])
    (by rw [funcs_sizes_length]; simp [RType.Size])
  have h8 : (funcs fc).sizes[8 - 1]? = some (some (Func.raw (copyN 8))) :=
    funcs_sizes_getElem fc 8 (by decide) (by decide)
  have hg2 : g = some (Func.raw (copyN 8)) := by
    have : (funcs fc).sizes[8 - 1]? = some g := hg
    rw [h8] at this
    exact (Option.some.inj this).symm
  rw [hget, hg2]

/-! ## Further claims on the baseline functions -/

theorem getElem?_set_append_ne (m : Store) (dst a : Nat) (c e : Cell) (h : a ≠ dst) :
    ((m ++ [e]).set dst c)[a]? = (m ++ [e])[a]? := by
  simp [List.getElem?_set, Ne.symm h]

/-- On the store of typed variables, where a variable holds its content: when
`copy<S>ToP<D>` or `copyP<S>ToP<D>` finds a null pointer at `dst`, it returns
and the pointer `a` it stores at `dst` is the address of a variable that did
not exist before; `a` differs from `src` and from the pointer stored at `src`,
and a later assignment to the source variable, or to the variable the source
pointer points to, leaves the variable at `a` unchanged.  (What two `[]byte`
variables share is not visible on this store; see the slice store.) -/
theorem null_dest_fresh_store (fc : FloatConv) (D S : Leaf) (m : Store)
    (dst src : Nat) (hc : D.convertible S = true) (hdst : m[dst]? = some (.ptr none)) :
    (∀ x : Value, m[src]? = some (.val x) → x.type = S →
      ∃ (a : Nat) (m2 : Store), copyVP fc D S dst src m = .ok m2 ∧
        m2[dst]? = some (.ptr (some a)) ∧ m[a]? = none ∧ a ≠ src ∧
        ∀ y : Value, ∃ m3 : Store, storeVal m2 src S y = .ok m3 ∧ m3[a]? = m2[a]?) ∧
    (∀ ps : Option Nat, m[src]? = some (.ptr ps) →
      (∀ p, ps = some p → ∃ x, m[p]? = some (.val x) ∧ x.type = S) →
      ∃ (a : Nat) (m2 : Store), copyPP fc D S dst src m = .ok m2 ∧
        m2[dst]? = some (.ptr (some a)) ∧ m[a]? = none ∧ a ≠ src ∧ ps ≠ some a ∧
        ∀ p, ps = some p → ∀ y : Value,
          ∃ m3 : Store, storeVal m2 p S y = .ok m3 ∧ m3[a]? = m2[a]?) := by
  have hlt := getElem?_lt_of_some m dst _ hdst
  have hlt2 : dst < m.length + 1 := by omega
  constructor
  · intro x hsrc hx
    obtain ⟨v, hv, _⟩ := convert_of_convertible fc D S x hc hx
    have hsl := getElem?_lt_of_some m src _ hsrc
    have hsd : src ≠ dst := by
      intro e
      rw [e, hdst] at hsrc
      cases hsrc
    refine ⟨m.length, (m ++ [Cell.val v]).set dst (Cell.ptr (some m.length)), ?_, ?_, ?_, ?_, ?_⟩
    · have h := addressOf_storePtr m dst v hdst
      simp only [copyVP, loadVal_of m src x S hsrc hx, conv, hv, loadPtr_of m dst none hdst,
        bind, Except.bind]
      exact h
    · simp [List.getElem?_set, hlt2]
    · simp
    · omega
    · intro y
      have hs2 : ((m ++ [Cell.val v]).set dst (Cell.ptr (some m.length)))[src]? =
          some (.val x) := by
        rw [getElem?_set_append_ne m dst src _ _ hsd, List.getElem?_append_left hsl, hsrc]
      refine ⟨_, storeVal_of _ src x y S hs2 hx, ?_⟩
      have : src ≠ m.length := by omega
      simp [List.getElem?_set, this]
  · intro ps hsrc hps
    have hsl := getElem?_lt_of_some m src _ hsrc
    have hcopy : ∃ v, copyPP fc D S dst src m =
        .ok ((m ++ [Cell.val v]).set dst (Cell.ptr (some m.length))) := by
      cases ps with
      | none =>
        refine ⟨D.zero, ?_⟩
        have h := addressOf_storePtr m dst D.zero hdst
        simp only [copyPP, loadPtr_of m src none hsrc, loadPtr_of m dst none hdst, bind,
          Except.bind, pure, Except.pure]
        exact h
      | some p =>
        obtain ⟨x, hx, ht⟩ := hps p rfl
        obtain ⟨v, hv, _⟩ := convert_of_convertible fc D S x hc ht
        refine ⟨v, ?_⟩
        have h := addressOf_storePtr m dst v hdst
        simp only [copyPP, loadPtr_of m src (some p) hsrc, loadVal_of m p x S hx ht, conv, hv,
          loadPtr_of m dst none hdst, bind, Except.bind, pure, Except.pure]
        exact h
    obtain ⟨v, hv⟩ := hcopy
    refine ⟨m.length, (m ++ [Cell.val v]).set dst (Cell.ptr (some m.length)), hv, ?_, ?_, ?_,
      ?_, ?_⟩
    · simp [List.getElem?_set, hlt2]
    · simp
    · omega
    · intro e
      obtain ⟨x, hx, _⟩ := hps m.length e
      have := getElem?_lt_of_some m m.length _ hx
      omega
    · intro p hp y
      obtain ⟨x, hx, ht⟩ := hps p hp
      have hpl := getElem?_lt_of_some m p _ hx
      have hpd : p ≠ dst := by
        intro e
        rw [e, hdst] at hx
        cases hx
      have hs2 : ((m ++ [Cell.val v]).set dst (Cell.ptr (some m.length)))[p]? =
          some (.val x) := by
        rw [getElem?_set_append_ne m dst p _ _ hpd, List.getElem?_append_left hpl, hx]
      refine ⟨_, storeVal_of _ p x y S hs2 ht, ?_⟩
      have : p ≠ m.length := by omega
      simp [List.getElem?_set, this]

/-! ## Lemmas on the slice store -/

theorem loadHdr_of (st : SliceStore) (a : Nat) (h : SliceHeader)
    (ha : st.vars[a]? = some (.hdr h)) : loadHdr st a = .ok h := by
  simp [loadHdr, ha]

theorem loadHdrPtr_of (st : SliceStore) (a : Nat) (p : Option Addr)
    (ha : st.vars[a]? = some (.ptr p)) : loadHdrPtr st a = .ok p := by
  simp [loadHdrPtr, ha]

theorem storeHdr_of (st : SliceStore) (a : Nat) (old h : SliceHeader)
    (ha : st.vars[a]? = some (.hdr old)) :
    storeHdr st a h = .ok { vars := st.vars.set a (.hdr h), elems := st.elems } := by
  simp [storeHdr, ha]

theorem storeHdrPtr_of (st : SliceStore) (a : Nat) (old p : Option Addr)
    (ha : st.vars[a]? = some (.ptr old)) :
    storeHdrPtr st a p = .ok { vars := st.vars.set a (.ptr p), elems := st.elems } := by
  simp [storeHdrPtr, ha]

theorem vars_lt_of_some (st : SliceStore) (a : Nat) (c : SliceCell)
    (h : st.vars[a]? = some c) : a < st.vars.length := by
  by_contra hn
  rw [List.getElem?_eq_none (by omega)] at h
  cases h

theorem addressOfHdr_storeHdrPtr (st : SliceStore) (dst : Nat) (v : SliceHeader)
    (hdst : st.vars[dst]? = some (.ptr none)) :
    storeHdrPtr (addressOfHdr st v).2 dst (some (addressOfHdr st v).1) =
      .ok { vars := (st.vars ++ [SliceCell.hdr v]).set dst (SliceCell.ptr (some st.vars.length)),
            elems := st.elems } := by
  have hlt := vars_lt_of_some st dst _ hdst
  have h2 : (st.vars ++ [SliceCell.hdr v])[dst]? = some (.ptr none) := by
    rw [List.getElem?_append_left hlt, hdst]
  simp [addressOfHdr, storeHdrPtr, h2]

theorem copyBytesToPBytes_null_dest (st : SliceStore) (dst src : Nat) (h : SliceHeader)
    (hsrc : st.vars[src]? = some (.hdr h)) (hdst : st.vars[dst]? = some (.ptr none)) :
    copyBytesToPBytes dst src st =
      .ok { vars := (st.vars ++ [SliceCell.hdr h]).set dst (SliceCell.ptr (some st.vars.length)),
            elems := st.elems } := by
  have hs := addressOfHdr_storeHdrPtr st dst h hdst
  simp only [copyBytesToPBytes, loadHdr_of st src h hsrc, loadHdrPtr_of st dst none hdst, bind,
    Except.bind]
  exact hs

theorem copyPBytesToPBytes_null_dest (st : SliceStore) (dst src : Nat) (ps : Option Nat)
    (hsrc : st.vars[src]? = some (.ptr ps))
    (hps : ∀ p, ps = some p → ∃ h, st.vars[p]? = some (.hdr h))
    (hdst : st.vars[dst]? = some (.ptr none)) :
    ∃ v : SliceHeader,
      (∀ p h, ps = some p → st.vars[p]? = some (.hdr h) → v = h) ∧
      (ps = none → v = { data := none, len := 0, cap := 0 }) ∧
      copyPBytesToPBytes dst src st =
        .ok { vars := (st.vars ++ [SliceCell.hdr v]).set dst
                (SliceCell.ptr (some st.vars.length)),
              elems := st.elems } := by
  cases ps with
  | none =>
    refine ⟨{ data := none, len := 0, cap := 0 }, fun _ _ e => Option.noConfusion e, fun _ => rfl, ?_⟩
    have hs := addressOfHdr_storeHdrPtr st dst { data := none, len := 0, cap := 0 } hdst
    simp only [copyPBytesToPBytes, loadHdrPtr_of st src none hsrc,
      loadHdrPtr_of st dst none hdst, bind, Except.bind, pure, Except.pure]
    exact hs
  | some p =>
    obtain ⟨h, hp⟩ := hps p rfl
    refine ⟨h, ?_, fun e => Option.noConfusion e, ?_⟩
    · intro p2 h2 e hp2
      cases e
      rw [hp] at hp2
      cases hp2
      rfl
    · have hs := addressOfHdr_storeHdrPtr st dst h hdst
      simp only [copyPBytesToPBytes, loadHdrPtr_of st src (some p) hsrc, loadHdr_of st p h hp,
        loadHdrPtr_of st dst none hdst, bind, Except.bind, pure, Except.pure]
      exact hs

/-- In the slice store where `dst` holds a pointer to the variable `a`, which
holds the slice `h`, a write to element `i` of the slice variable `s`, which
holds `h` too, is read back through `dst`. -/
theorem setIndex_seen_through (st : SliceStore) (dst a s : Nat) (h : SliceHeader)
    (d i : Nat) (b : Fin 256)
    (hdst : st.vars[dst]? = some (.ptr (some a))) (ha : st.vars[a]? = some (.hdr h))
    (hs : st.vars[s]? = some (.hdr h)) (hd : h.data = some d) (hi : i < h.len) :
    ∃ st3, setIndex st s i b = .ok st3 ∧ indexThrough st3 dst i = .ok b := by
  refine ⟨{ vars := st.vars, elems := fun x => if x = d + i then b else st.elems x }, ?_, ?_⟩
  · simp [setIndex, loadHdr_of st s h hs, hd, hi, bind, Except.bind]
  · simp [indexThrough, loadHdrPtr, loadHdr, hdst, ha, hd, hi, bind, Except.bind]

/-- C21, counterexample: the source is the `[]byte` variable at 0, of length 2,
and `dst` holds a null `*[]byte`.  After `copyBytesToPBytes` (and likewise
after `copyPBytesToPBytes` from the pointer at 2) the pointer stored at `dst`
is the address 3 of a new variable, yet the element 0 read through it is the
element 0 of the source: the caller's later write `s[0] = 7` to the source
slice changes what is read through the destination pointer from 100 to 7. -/
theorem copyBytesToPBytes_shares_backing_array :
    (∃ st2 st3 : SliceStore,
      copyBytesToPBytes 1 0 exSliceStore = .ok st2 ∧
      st2.vars[1]? = some (.ptr (some 3)) ∧ exSliceStore.vars[3]? = none ∧
      indexThrough st2 1 0 = .ok 100 ∧
      setIndex st2 0 0 7 = .ok st3 ∧
      indexThrough st3 1 0 = .ok 7) ∧
    (∃ st2 st3 : SliceStore,
      copyPBytesToPBytes 1 2 exSliceStore = .ok st2 ∧
      st2.vars[1]? = some (.ptr (some 3)) ∧ exSliceStore.vars[3]? = none ∧
      indexThrough st2 1 0 = .ok 100 ∧
      setIndex st2 0 0 7 = .ok st3 ∧
      indexThrough st3 1 0 = .ok 7) :=
  ⟨⟨_, _, rfl, rfl, rfl, rfl, rfl, rfl⟩, ⟨_, _, rfl, rfl, rfl, rfl, rfl, rfl⟩⟩

/-- C21, amended (the allocation for a null destination pointer is a new
variable): when `copy<S>ToP<D>` or `copyP<S>ToP<D>` finds a null pointer at
`dst`, it returns and the pointer `a` it stores at `dst` is the address of a
variable that did not exist before; `a` differs from the source address `src`
and from the pointer stored at `src`.  For every baseline pair other than
`([]byte, []byte)` a later write to the source variable, or to the variable the
source pointer points to, leaves the variable at `a` unchanged.  For
`([]byte, []byte)`, on the store with slice headers, the new variable holds the
slice header of the source: assigning another slice to the source variable
leaves it unchanged, but the backing array is shared, so a write to an element
of the source slice is read back through the destination pointer. -/
theorem null_dest_allocation_fresh (fc : FloatConv) :
    (∀ (D S : Leaf) (m : Store) (dst src : Nat), D.convertible S = true →
      ¬ (D = .bytes ∧ S = .bytes) → m[dst]? = some (.ptr none) →
      (∀ x : Value, m[src]? = some (.val x) → x.type = S →
        ∃ (a : Nat) (m2 : Store), copyVP fc D S dst src m = .ok m2 ∧
          m2[dst]? = some (.ptr (some a)) ∧ m[a]? = none ∧ a ≠ src ∧
          ∀ y : Value, ∃ m3 : Store, storeVal m2 src S y = .ok m3 ∧ m3[a]? = m2[a]?) ∧
      (∀ ps : Option Nat, m[src]? = some (.ptr ps) →
        (∀ p, ps = some p → ∃ x, m[p]? = some (.val x) ∧ x.type = S) →
        ∃ (a : Nat) (m2 : Store), copyPP fc D S dst src m = .ok m2 ∧
          m2[dst]? = some (.ptr (some a)) ∧ m[a]? = none ∧ a ≠ src ∧ ps ≠ some a ∧
          ∀ p, ps = some p → ∀ y : Value,
            ∃ m3 : Store, storeVal m2 p S y = .ok m3 ∧ m3[a]? = m2[a]?)) ∧
    (∀ (st : SliceStore) (dst src : Nat), st.vars[dst]? = some (.ptr none) →
      (∀ h : SliceHeader, st.vars[src]? = some (.hdr h) →
        ∃ (a : Nat) (st2 : SliceStore), copyBytesToPBytes dst src st = .ok st2 ∧
          st2.vars[dst]? = some (.ptr (some a)) ∧ st.vars[a]? = none ∧ a ≠ src ∧
          st2.vars[a]? = some (.hdr h) ∧ st2.elems = st.elems ∧
          (∀ h2 : SliceHeader, ∃ st3 : SliceStore, storeHdr st2 src h2 = .ok st3 ∧
            st3.vars[a]? = st2.vars[a]? ∧ st3.elems = st2.elems) ∧
          (∀ (d i : Nat) (b : Fin 256), h.data = some d → i < h.len →
            ∃ st3 : SliceStore, setIndex st2 src i b = .ok st3 ∧
              indexThrough st3 dst i = .ok b)) ∧
      (∀ ps : Option Nat, st.vars[src]? = some (.ptr ps) →
        (∀ p, ps = some p → ∃ h, st.vars[p]? = some (.hdr h)) →
        ∃ (a : Nat) (st2 : SliceStore), copyPBytesToPBytes dst src st = .ok st2 ∧
          st2.vars[dst]? = some (.ptr (some a)) ∧ st.vars[a]? = none ∧ a ≠ src ∧
          ps ≠ some a ∧ st2.elems = st.elems ∧
          ∀ (p : Nat) (h : SliceHeader), ps = some p → st.vars[p]? = some (.hdr h) →
            st2.vars[a]? = some (.hdr h) ∧
            (∀ h2 : SliceHeader, ∃ st3 : SliceStore, storeHdr st2 p h2 = .ok st3 ∧
              st3.vars[a]? = st2.vars[a]? ∧ st3.elems = st2.elems) ∧
            (∀ (d i : Nat) (b : Fin 256), h.data = some d → i < h.len →
              ∃ st3 : SliceStore, setIndex st2 p i b = .ok st3 ∧
                indexThrough st3 dst i = .ok b))) := by
  constructor
  · intro D S m dst src hc _ hdst
    exact null_dest_fresh_store fc D S m dst src hc hdst
  · intro st dst src hdst
    have hdl := vars_lt_of_some st dst _ hdst
    have hdl2 : dst < st.vars.length + 1 := by omega
    have hdne : dst ≠ st.vars.length := by omega
    constructor
    · intro h hsrc
      have hsl := vars_lt_of_some st src _ hsrc
      have hsd : src ≠ dst := by
        intro e
        rw [e, hdst] at hsrc
        cases hsrc
      have hnew : ((st.vars ++ [SliceCell.hdr h]).set dst
          (SliceCell.ptr (some st.vars.length)))[st.vars.length]? = some (.hdr h) := by
        simp [List.getElem?_set, hdne]
      have hd2 : ((st.vars ++ [SliceCell.hdr h]).set dst
          (SliceCell.ptr (some st.vars.length)))[dst]? =
          some (.ptr (some st.vars.length)) := by
        simp [List.getElem?_set, hdl2]
      have hs2 : ((st.vars ++ [SliceCell.hdr h]).set dst
          (SliceCell.ptr (some st.vars.length)))[src]? = some (.hdr h) := by
        rw [List.getElem?_set_ne (Ne.symm hsd), List.getElem?_append_left hsl, hsrc]
      refine ⟨st.vars.length, _, copyBytesToPBytes_null_dest st dst src h hsrc hdst, hd2,
        by simp, by omega, hnew, rfl, ?_, ?_⟩
      · intro h2
        refine ⟨_, storeHdr_of _ src h h2 hs2, ?_, rfl⟩
        have : src ≠ st.vars.length := by omega
        exact List.getElem?_set_ne this
      · intro d i b hd hi
        exact setIndex_seen_through _ dst st.vars.length src h d i b hd2 hnew hs2 hd hi
    · intro ps hsrc hps
      have hsl := vars_lt_of_some st src _ hsrc
      obtain ⟨v, hv1, _, hrun⟩ := copyPBytesToPBytes_null_dest st dst src ps hsrc hps hdst
      have hnew : ((st.vars ++ [SliceCell.hdr v]).set dst
          (SliceCell.ptr (some st.vars.length)))[st.vars.length]? = some (.hdr v) := by
        simp [List.getElem?_set, hdne]
      have hd2 : ((st.vars ++ [SliceCell.hdr v]).set dst
          (SliceCell.ptr (some st.vars.length)))[dst]? =
          some (.ptr (some st.vars.length)) := by
        simp [List.getElem?_set, hdl2]
      refine ⟨st.vars.length, _, hrun, hd2, by simp, by omega, ?_, rfl, ?_⟩
      · intro e
        obtain ⟨h, hp⟩ := hps st.vars.length e
        have := vars_lt_of_some st st.vars.length _ hp
        omega
      · intro p h hp hph
        have hvh : v = h := hv1 p h hp hph
        subst hvh
        have hpl := vars_lt_of_some st p _ hph
        have hpd : p ≠ dst := by
          intro e
          rw [e, hdst] at hph
          cases hph
        have hs2 : ((st.vars ++ [SliceCell.hdr v]).set dst
            (SliceCell.ptr (some st.vars.length)))[p]? = some (.hdr v) := by
          rw [List.getElem?_set_ne (Ne.symm hpd), List.getElem?_append_left hpl, hph]
        refine ⟨hnew, ?_, ?_⟩
        · intro h2
          refine ⟨_, storeHdr_of _ p v h2 hs2, ?_, rfl⟩
          have : p ≠ st.vars.length := by omega
          exact List.getElem?_set_ne this
        · intro d i b hd hi
          exact setIndex_seen_through _ dst st.vars.length p v d i b hd2 hnew hs2 hd hi

/-- Witness of C21, amended: for the pair `(int32, int64)` the functions return
on the example store with the null pointer at 2; on the example slice store
`copyBytesToPBytes` stores at 1 a pointer to a new variable, and the write of 7
to element 0 of the source slice is read back through that pointer. -/
theorem null_dest_allocation_fresh_witness :
    (Leaf.int .int32).convertible (.int .int64) = true ∧ exStore[2]? = some (.ptr none) ∧
    (∃ (a : Nat) (m2 : Store),
      copyVP exFloatConv (.int .int32) (.int .int64) 2 0 exStore = .ok m2 ∧
      m2[2]? = some (.ptr (some a)) ∧ exStore[a]? = none ∧ a ≠ 0) ∧
    (∃ (a : Nat) (m2 : Store),
      copyPP exFloatConv (.int .int32) (.int .int64) 2 3 exStore = .ok m2 ∧
      m2[2]? = some (.ptr (some a)) ∧ exStore[a]? = none ∧ a ≠ 3 ∧ some 0 ≠ some a) ∧
    (∃ (a : Nat) (st2 st3 : SliceStore), copyBytesToPBytes 1 0 exSliceStore = .ok st2 ∧
      st2.vars[1]? = some (.ptr (some a)) ∧ a ≠ 0 ∧
      setIndex st2 0 0 7 = .ok st3 ∧ indexThrough st3 1 0 = .ok 7) := by
  refine ⟨rfl, rfl, ?_, ?_, ?_⟩
  · obtain ⟨a, m2, h1, h2, h3, h4, _⟩ :=
      ((null_dest_allocation_fresh exFloatConv).1 (.int .int32) (.int .int64) exStore 2 0
        rfl (fun e => Leaf.noConfusion e.1) rfl).1 (.int .int64 2147483648) rfl rfl
    exact ⟨a, m2, h1, h2, h3, h4⟩
  · obtain ⟨a, m2, h1, h2, h3, h4, h5, _⟩ :=
      ((null_dest_allocation_fresh exFloatConv).1 (.int .int32) (.int .int64) exStore 2 3
        rfl (fun e => Leaf.noConfusion e.1) rfl).2 (some 0) rfl
        (fun p hp => ⟨.int .int64 2147483648, by cases hp; rfl, rfl⟩)
    exact ⟨a, m2, h1, h2, h3, h4, h5⟩
  · obtain ⟨a, st2, h1, h2, _, h4, _, _, _, h8⟩ :=
      ((null_dest_allocation_fresh exFloatConv).2 exSliceStore 1 0 rfl).1
        { data := some 100, len := 2, cap := 2 } rfl
    obtain ⟨st3, h9, h10⟩ := h8 100 0 7 rfl (by decide)
    exact ⟨a, st2, st3, h1, h2, h4, h9, h10⟩

theorem convInt_of_range (d : IntType) (x : Int) (hx : d.minVal ≤ x ∧ x ≤ d.maxVal) :
    convInt d x = x :=
  range_emod_unique d _ _ (convInt_range d x) hx (convInt_emod d x)

theorem bits_dvd (D M : IntType) (h : D.bits ≤ M.bits) :
    (2 : Int) ^ D.bits ∣ 2 ^ M.bits :=
  pow_dvd_pow 2 h

theorem convInt_convInt (M D : IntType) (h : D.bits ≤ M.bits) (x : Int) :
    convInt D (convInt M x) = convInt D x := by
  apply range_emod_unique D _ _ (convInt_range D _) (convInt_range D x)
  rw [convInt_emod, convInt_emod, ← Int.emod_emod_of_dvd (convInt M x) (bits_dvd D M h),
    convInt_emod, Int.emod_emod_of_dvd x (bits_dvd D M h)]

/-- C24 (same-type leaf copies are identities): for `T` one of `bool`,
`string`, `[]byte`, `time.Time`, `time.Duration` and the ten integer types,
when `src` holds a `T` value `x` (an integer within the range of its type) and
`dst` holds a `T` variable, `copy<T>To<T>` returns and leaves at `dst` the
value `x` itself; nothing else changes. -/
theorem copyVV_same_type_identity (fc : FloatConv) (T : Leaf) (m : Store) (dst src : Nat)
    (x old : Value)
    (hT : T = .bool ∨ T = .string ∨ T = .bytes ∨ T = .time ∨ T = .duration ∨ ∃ t, T = .int t)
    (hsrc : m[src]? = some (.val x)) (hx : x.type = T)
    (hr : ∀ t v, x = .int t v → t.minVal ≤ v ∧ v ≤ t.maxVal)
    (hdst : m[dst]? = some (.val old)) (hold : old.type = T) :
    copyVV fc T T dst src m = .ok (m.set dst (.val x)) := by
  apply copyVV_of fc T T m dst src x old x hsrc hx hdst hold
  subst hx
  cases x with
  | int t v => simp [convert, Value.type, convInt_of_range t v (hr t v rfl)]
  | bool b => rfl
  | string s => rfl
  | bytes b => rfl
  | time w e l => rfl
  | duration v => rfl
  | float32 b => simp [Value.type] at hT
  | float64 b => simp [Value.type] at hT
  | complex64 re im => simp [Value.type] at hT
  | complex128 re im => simp [Value.type] at hT

theorem copyVV_same_type_identity_witness :
    exStoreBytes[0]? = some (.val (.bytes (some [255, 254]))) ∧
    exStoreBytes[2]? = some (.val (.bytes none)) ∧
    copyVV exFloatConv .bytes .bytes 2 0 exStoreBytes =
      .ok (exStoreBytes.set 2 (.val (.bytes (some [255, 254])))) :=
  ⟨rfl, rfl, copyVV_same_type_identity exFloatConv .bytes exStoreBytes 2 0
    (.bytes (some [255, 254])) (.bytes none) (Or.inr (Or.inr (Or.inl rfl))) rfl rfl
    (fun _ _ e => Value.noConfusion e) rfl rfl⟩

/-- C25 (string and byte-sequence round trip): when `src` holds the byte
sequence `b` (any bytes, valid UTF-8 or not; nil counts as the empty sequence),
`copyBytesToString` into the string variable `mid` followed by
`copyStringToBytes` from `mid` into the `[]byte` variable `dst` both return and
leave at `dst` a byte sequence with the bytes of `b`; and when `src` holds the
string `s`, `copyStringToBytes` into `mid` followed by `copyBytesToString` from
`mid` into `dst` leaves the string `s` at `dst`. -/
theorem bytes_string_round_trip (fc : FloatConv) (m : Store) (dst mid src : Nat) :
    (∀ (b b0 : Option (List (Fin 256))) (s0 : List (Fin 256)),
      m[src]? = some (.val (.bytes b)) → m[mid]? = some (.val (.string s0)) →
      m[dst]? = some (.val (.bytes b0)) →
      ∃ m1 m2 : Store, copyVV fc .string .bytes mid src m = .ok m1 ∧
        copyVV fc .bytes .string dst mid m1 = .ok m2 ∧
        m2[dst]? = some (.val (.bytes (some (b.getD []))))) ∧
    (∀ (s s0 : List (Fin 256)) (b0 : Option (List (Fin 256))),
      m[src]? = some (.val (.string s)) → m[mid]? = some (.val (.bytes b0)) →
      m[dst]? = some (.val (.string s0)) →
      ∃ m1 m2 : Store, copyVV fc .bytes .string mid src m = .ok m1 ∧
        copyVV fc .string .bytes dst mid m1 = .ok m2 ∧
        m2[dst]? = some (.val (.string s))) := by
  constructor
  · intro b b0 s0 hsrc hmid hdst
    have hml := getElem?_lt_of_some m mid _ hmid
    have hdl := getElem?_lt_of_some m dst _ hdst
    have hne : mid ≠ dst := by
      intro e
      rw [e, hdst] at hmid
      cases hmid
    have h1 := copyVV_of fc .string .bytes m mid src (.bytes b) (.string s0)
      (.string (b.getD [])) hsrc rfl hmid rfl rfl
    have hmid1 : (m.set mid (.val (.string (b.getD []))))[mid]? =
        some (.val (.string (b.getD []))) := by simp [hml]
    have hdst1 : (m.set mid (.val (.string (b.getD []))))[dst]? = some (.val (.bytes b0)) := by
      rw [List.getElem?_set_ne hne, hdst]
    have h2 := copyVV_of fc .bytes .string _ dst mid (.string (b.getD [])) (.bytes b0)
      (.bytes (some (b.getD []))) hmid1 rfl hdst1 rfl rfl
    refine ⟨_, _, h1, h2, ?_⟩
    simp [hdl]
  · intro s s0 b0 hsrc hmid hdst
    have hml := getElem?_lt_of_some m mid _ hmid
    have hdl := getElem?_lt_of_some m dst _ hdst
    have hne : mid ≠ dst := by
      intro e
      rw [e, hdst] at hmid
      cases hmid
    have h1 := copyVV_of fc .bytes .string m mid src (.string s) (.bytes b0)
      (.bytes (some s)) hsrc rfl hmid rfl rfl
    have hmid1 : (m.set mid (.val (.bytes (some s))))[mid]? =
        some (.val (.bytes (some s))) := by simp [hml]
    have hdst1 : (m.set mid (.val (.bytes (some s))))[dst]? = some (.val (.string s0)) := by
      rw [List.getElem?_set_ne hne, hdst]
    have h2 := copyVV_of fc .string .bytes _ dst mid (.bytes (some s)) (.string s0)
      (.string s) hmid1 rfl hdst1 rfl rfl
    refine ⟨_, _, h1, h2, ?_⟩
    simp [hdl]

theorem bytes_string_round_trip_witness :
    (∃ m1 m2 : Store, copyVV exFloatConv .string .bytes 1 0 exStoreBytes = .ok m1 ∧
      copyVV exFloatConv .bytes .string 2 1 m1 = .ok m2 ∧
      m2[2]? = some (.val (.bytes (some [255, 254])))) ∧
    (∃ m1 m2 : Store, copyVV exFloatConv .bytes .string 2 3 exStoreBytes = .ok m1 ∧
      copyVV exFloatConv .string .bytes 1 2 m1 = .ok m2 ∧
      m2[1]? = some (.val (.string [195, 40]))) :=
  ⟨(bytes_string_round_trip exFloatConv exStoreBytes 2 1 0).1 (some [255, 254]) none []
      rfl rfl rfl,
    (bytes_string_round_trip exFloatConv exStoreBytes 1 2 3).2 [195, 40] [] none
      rfl rfl rfl⟩

/-- C29 (representable values are preserved): for integer types `S` and `D`,
when `src` holds the `S` value `x`, `x` lies in the range of `D` and `dst`
holds a `D` variable, `copy<S>To<D>` returns and writes exactly `x` at `dst`. -/
theorem copyVV_int_representable (fc : FloatConv) (S D : IntType) (m : Store)
    (dst src : Nat) (x : Int) (old : Value)
    (hsrc : m[src]? = some (.val (.int S x)))
    (hdst : m[dst]? = some (.val old)) (hold : old.type = .int D)
    (hx : D.minVal ≤ x ∧ x ≤ D.maxVal) :
    copyVV fc (.int D) (.int S) dst src m = .ok (m.set dst (.val (.int D x))) := by
  apply copyVV_of fc (.int D) (.int S) m dst src (.int S x) old (.int D x) hsrc rfl hdst hold
  simp [convert, convInt_of_range D x hx]

theorem copyVV_int_representable_witness :
    exStore[1]? = some (.val (.int .int32 5)) ∧
    exStore[0]? = some (.val (.int .int64 2147483648)) ∧
    (IntType.int64.minVal ≤ 5 ∧ (5 : Int) ≤ IntType.int64.maxVal) ∧
    copyVV exFloatConv (.int .int64) (.int .int32) 0 1 exStore =
      .ok (exStore.set 0 (.val (.int .int64 5))) :=
  ⟨rfl, rfl, by decide,
    copyVV_int_representable exFloatConv .int32 .int64 exStore 0 1 5 (.int .int64 2147483648)
      rfl rfl rfl (by decide)⟩

/-- C30 (integer conversions compose): for integer types `S`, `M` and `D` with
`M` at least as wide as `D`, when `src` holds the `S` value `x`, `mid` holds an
`M` variable and `dst` a `D` variable, `copy<S>To<M>` into `mid` followed by
`copy<M>To<D>` from `mid` into `dst` both return, `copy<S>To<D>` from `src`
into `dst` returns, and both ways leave the same value `convInt D x` at
`dst`. -/
theorem copyVV_int_compose (fc : FloatConv) (S M D : IntType) (m : Store)
    (dst mid src : Nat) (x : Int) (oldM oldD : Value)
    (hw : D.bits ≤ M.bits)
    (hsrc : m[src]? = some (.val (.int S x)))
    (hmid : m[mid]? = some (.val oldM)) (holdM : oldM.type = .int M)
    (hdst : m[dst]? = some (.val oldD)) (holdD : oldD.type = .int D) :
    ∃ m1 m2 m3 : Store,
      copyVV fc (.int M) (.int S) mid src m = .ok m1 ∧
      copyVV fc (.int D) (.int M) dst mid m1 = .ok m2 ∧
      copyVV fc (.int D) (.int S) dst src m = .ok m3 ∧
      m2[dst]? = some (.val (.int D (convInt D x))) ∧ m3[dst]? = m2[dst]? := by
  have hml := getElem?_lt_of_some m mid _ hmid
  have hdl := getElem?_lt_of_some m dst _ hdst
  have h1 := copyVV_of fc (.int M) (.int S) m mid src (.int S x) oldM (.int M (convInt M x))
    hsrc rfl hmid holdM rfl
  have hmid1 : (m.set mid (.val (.int M (convInt M x))))[mid]? =
      some (.val (.int M (convInt M x))) := by simp [hml]
  have hdst1 : ∃ o, (m.set mid (.val (.int M (convInt M x))))[dst]? = some (.val o) ∧
      o.type = .int D := by
    by_cases e : mid = dst
    · subst e
      rw [hmid] at hdst
      cases hdst
      exact ⟨_, hmid1, by rw [← holdD, holdM]; rfl⟩
    · exact ⟨oldD, by rw [List.getElem?_set_ne e, hdst], holdD⟩
  obtain ⟨o, ho, hot⟩ := hdst1
  have h2 := copyVV_of fc (.int D) (.int M) _ dst mid (.int M (convInt M x)) o
    (.int D (convInt D x)) hmid1 rfl ho hot (by simp [convert, convInt_convInt M D hw x])
  have h3 := copyVV_of fc (.int D) (.int S) m dst src (.int S x) oldD (.int D (convInt D x))
    hsrc rfl hdst holdD rfl
  refine ⟨_, _, _, h1, h2, h3, ?_, ?_⟩
  · simp [hdl]
  · simp [hdl]

theorem copyVV_int_compose_witness :
    IntType.int16.bits ≤ IntType.int32.bits ∧
    exStoreChain[0]? = some (.val (.int .int64 4295032833)) ∧
    ∃ m1 m2 m3 : Store,
      copyVV exFloatConv (.int .int32) (.int .int64) 1 0 exStoreChain = .ok m1 ∧
      copyVV exFloatConv (.int .int16) (.int .int32) 2 1 m1 = .ok m2 ∧
      copyVV exFloatConv (.int .int16) (.int .int64) 2 0 exStoreChain = .ok m3 ∧
      m2[2]? = some (.val (.int .int16 1)) ∧ m3[2]? = m2[2]? := by
  obtain ⟨m1, m2, m3, h1, h2, h3, h4, h5⟩ :=
    copyVV_int_compose exFloatConv .int64 .int32 .int16 exStoreChain 2 1 0 4295032833
      (.int .int32 0) (.int .int16 0) (by decide) rfl rfl rfl rfl rfl
  have hv : convInt .int16 4295032833 = 1 := by
    simp only [convInt, IntType.ofPattern, IntType.pattern, IntType.signed, IntType.bits]
    norm_num
  rw [hv] at h4
  exact ⟨by decide, rfl, m1, m2, m3, h1, h2, h3, h4, h5⟩

/-! ## Round trips, unregistering, and frame properties -/

/-- C31 (round trip through a type at least as wide): for integer types `N`
and `W` with `W` at least as wide as `N` (of any signedness), when `src` holds
the `N` value `x` (within the range of `N`), `mid` holds a `W` variable and
`dst` an `N` variable, `copy<N>To<W>` into `mid` followed by `copy<W>To<N>`
from `mid` into `dst` both return and leave exactly `x` at `dst`. -/
theorem copyVV_int_round_trip (fc : FloatConv) (N W : IntType) (m : Store)
    (dst mid src : Nat) (x : Int) (oldW oldN : Value)
    (hw : N.bits ≤ W.bits)
    (hsrc : m[src]? = some (.val (.int N x))) (hx : N.minVal ≤ x ∧ x ≤ N.maxVal)
    (hmid : m[mid]? = some (.val oldW)) (holdW : oldW.type = .int W)
    (hdst : m[dst]? = some (.val oldN)) (holdN : oldN.type = .int N) :
    ∃ m1 m2 : Store,
      copyVV fc (.int W) (.int N) mid src m = .ok m1 ∧
      copyVV fc (.int N) (.int W) dst mid m1 = .ok m2 ∧
      m2[dst]? = some (.val (.int N x)) := by
  have hml := getElem?_lt_of_some m mid _ hmid
  have hdl := getElem?_lt_of_some m dst _ hdst
  have h1 := copyVV_of fc (.int W) (.int N) m mid src (.int N x) oldW (.int W (convInt W x))
    hsrc rfl hmid holdW rfl
  have hmid1 : (m.set mid (.val (.int W (convInt W x))))[mid]? =
      some (.val (.int W (convInt W x))) := by simp [hml]
  have hdst1 : ∃ o, (m.set mid (.val (.int W (convInt W x))))[dst]? = some (.val o) ∧
      o.type = .int N := by
    by_cases e : mid = dst
    · subst e
      rw [hmid] at hdst
      cases hdst
      exact ⟨_, hmid1, by rw [← holdN, holdW]; rfl⟩
    · exact ⟨oldN, by rw [List.getElem?_set_ne e, hdst], holdN⟩
  obtain ⟨o, ho, hot⟩ := hdst1
  have hv : convert fc (.int N) (.int W (convInt W x)) = some (.int N x) := by
    simp [convert, convInt_convInt W N hw x, convInt_of_range N x hx]
  have h2 := copyVV_of fc (.int N) (.int W) _ dst mid (.int W (convInt W x)) o
    (.int N x) hmid1 rfl ho hot hv
  refine ⟨_, _, h1, h2, ?_⟩
  simp [hdl]

theorem copyVV_int_round_trip_witness :
    IntType.int8.bits ≤ IntType.uint64.bits ∧
    exStoreRound[0]? = some (.val (.int .int8 (-1))) ∧
    (IntType.int8.minVal ≤ -1 ∧ (-1 : Int) ≤ IntType.int8.maxVal) ∧
    ∃ m1 m2 : Store,
      copyVV exFloatConv (.int .uint64) (.int .int8) 1 0 exStoreRound = .ok m1 ∧
      copyVV exFloatConv (.int .int8) (.int .uint64) 2 1 m1 = .ok m2 ∧
      m2[2]? = some (.val (.int .int8 (-1))) :=
  ⟨by decide, rfl, by decide,
    copyVV_int_round_trip exFloatConv .int8 .uint64 exStoreRound 2 1 0 (-1)
      (.int .uint64 0) (.int .int8 0) (by decide) rfl (by decide) rfl rfl rfl rfl⟩

theorem lookup_specWithoutKey {F : Type} (m : List (funcKey × Option F)) (k : funcKey) :
    (specWithoutKey m k).lookup k = none := by
  induction m with
  | nil => rfl
  | cons e rest ih =>
    obtain ⟨k', v⟩ := e
    by_cases h : k' = k
    · simpa [specWithoutKey, List.filter_cons, h] using ih
    · have hb : (k == k') = false := beq_false_of_ne (fun e => h e.symm)
      simp only [specWithoutKey, List.filter_cons, ne_eq, h, not_false_eq_true, decide_True,
        if_true, List.lookup_cons, hb]
      exact ih

theorem mapIndex_specWithoutKey {F : Type} (m : List (funcKey × Option F)) (k : funcKey) :
    mapIndex (specWithoutKey m k) k = none := by
  simp [mapIndex, lookup_specWithoutKey]

theorem mapIndex_Set_nil {F : Type} (t : CopyFuncs F) (dst src : RType) :
    mapIndex (t.Set dst src none).funcs { Src := src, Dest := dst } = none := by
  simp [CopyFuncs.Set, mapIndex_mapAssign]

/-- C32 (a nil function stored by `Set` counts as no entry): for every
registry `t` and pair `(dst, src)`, after `Set(dst, src, nil)` the call
`Get(dst, src)` returns what it returns on the registry whose map does not
contain the key at all: the entry `sizes[src.Size() - 1]` when the pair is
eligible for the fallback, and `nil` otherwise. -/
theorem Set_nil_unregisters {F : Type} (t : CopyFuncs F) (dst src : RType) :
    (t.Set dst src none).Get dst src =
      CopyFuncs.Get { funcs := specWithoutKey t.funcs { Src := src, Dest := dst },
                      sizes := t.sizes } dst src ∧
    ((dst.Kind = src.Kind ∧ dst.Kind ≠ Kind.String ∧
      (dst = src ∨
        (dst.Kind ∈ [Kind.Array, Kind.Chan, Kind.Map, Kind.Ptr, Kind.Slice] ∧
          ∃ e, dst.Elem = .ok e ∧ src.Elem = .ok e)) ∧
      dst.Size = src.Size ∧ 0 < src.Size ∧ src.Size ≤ t.sizes.length) →
      ∃ g, t.sizes[src.Size - 1]? = some g ∧ (t.Set dst src none).Get dst src = .ok g) ∧
    (¬ (dst.Kind = src.Kind ∧ dst.Kind ≠ Kind.String ∧
      (dst = src ∨
        (dst.Kind ∈ [Kind.Array, Kind.Chan, Kind.Map, Kind.Ptr, Kind.Slice] ∧
          ∃ e, dst.Elem = .ok e ∧ src.Elem = .ok e)) ∧
      dst.Size = src.Size ∧ 0 < src.Size ∧ src.Size ≤ t.sizes.length) →
      (t.Set dst src none).Get dst src = .ok none) := by
  have hno := mapIndex_Set_nil t dst src
  refine ⟨?_, ?_, ?_⟩
  · apply Get_congr
    · rw [hno]
      exact (mapIndex_specWithoutKey t.funcs _).symm
    · rfl
  · rintro ⟨hk, hs, hsame, hsz, hpos, hle⟩
    exact Get_noEntry_same (t.Set dst src none) dst src hno hk hs hsame hsz hpos hle
  · intro hne
    exact Get_noEntry_absent (t.Set dst src none) dst src hno hne

/-- Witness of C32: on the start-up registry, after `Set(int, int, nil)` the
call `Get(int, int)` no longer returns `copyIntToInt` but the 8-byte copy
`copy8`, and after `Set(int, string, nil)` the call `Get(int, string)` returns
`nil`. -/
theorem Set_nil_unregisters_witness :
    (funcs exFloatConv).Get (typeOf (.int .int)) (typeOf (.int .int)) =
      .ok (some (Func.base (copyVV exFloatConv (.int .int) (.int .int)))) ∧
    ((funcs exFloatConv).Set (typeOf (.int .int)) (typeOf (.int .int)) none).Get
      (typeOf (.int .int)) (typeOf (.int .int)) = .ok (some (Func.raw (copyN 8))) ∧
    ((funcs exFloatConv).Set (typeOf (.int .int)) (typeOf .string) none).Get
      (typeOf (.int .int)) (typeOf .string) = .ok none := by
  refine ⟨Get_baseline exFloatConv false false (.int .int) (.int .int) rfl, ?_, ?_⟩
  · obtain ⟨g, hg, hget⟩ :=
      (Set_nil_unregisters (funcs exFloatConv) (typeOf (.int .int)) (typeOf (.int .int))).2.1
        ⟨rfl, by decide, Or.inl rfl, rfl, by decide,
          by rw [funcs_sizes_length]; decide⟩
    have h8 : (funcs exFloatConv).sizes[8 - 1]? = some (some (Func.raw (copyN 8))) :=
      funcs_sizes_getElem exFloatConv 8 (by decide) (by decide)
    have hg2 : g = some (Func.raw (copyN 8)) := by
      have : (funcs exFloatConv).sizes[8 - 1]? = some g := hg
      rw [h8] at this
      exact (Option.some.inj this).symm
    rw [hget, hg2]
  · exact (Set_nil_unregisters (funcs exFloatConv) (typeOf (.int .int)) (typeOf .string)).2.2
      (fun h => absurd h.1 (by decide))

/-- C33 (a pointer destination is never left null): for every pair `(D, S)`,
every run of `copy<S>ToP<D>` or `copyP<S>ToP<D>` that returns leaves at `dst` a
non-null pointer to a variable of type `D`; with storage laid out for a
baseline pair both functions return; and with a null pointer at `src` and a
null pointer at `dst`, `copyP<S>ToP<D>` returns and leaves at `dst` a pointer
to a new variable holding the zero value of `D`. -/
theorem pointer_dest_never_null (fc : FloatConv) (D S : Leaf) (dst src : Nat) (m : Store) :
    (∀ m2 : Store, (copyVP fc D S dst src m = .ok m2 ∨ copyPP fc D S dst src m = .ok m2) →
      ∃ (a : Nat) (w : Value),
        m2[dst]? = some (.ptr (some a)) ∧ m2[a]? = some (.val w) ∧ w.type = D) ∧
    (D.convertible S = true →
      (∃ q, m[dst]? = some (.ptr q) ∧
        ∀ a, q = some a → ∃ old, m[a]? = some (.val old) ∧ old.type = D) →
      ((∃ x, m[src]? = some (.val x) ∧ x.type = S) →
        ∃ m2, copyVP fc D S dst src m = .ok m2) ∧
      ((∃ p, m[src]? = some (.ptr p) ∧
          ∀ a, p = some a → ∃ x, m[a]? = some (.val x) ∧ x.type = S) →
        ∃ m2, copyPP fc D S dst src m = .ok m2)) ∧
    (m[src]? = some (.ptr none) → m[dst]? = some (.ptr none) →
      copyPP fc D S dst src m =
        .ok ((m ++ [Cell.val D.zero]).set dst (Cell.ptr (some m.length)))) := by
  refine ⟨?_, ?_, ?_⟩
  · intro m2 h
    rcases h with h | h
    · exact ((funcOf_typed fc false true D S dst src m m2 h).2.2.2 rfl).2
    · exact ((funcOf_typed fc true true D S dst src m m2 h).2.2.2 rfl).2
  · intro hc hd
    constructor
    · intro hs
      exact funcOf_returns fc false true D S dst src m hc (fun _ => hs)
        (fun e => Bool.noConfusion e) (fun e => Bool.noConfusion e) (fun _ => hd)
    · intro hs
      exact funcOf_returns fc true true D S dst src m hc (fun e => Bool.noConfusion e)
        (fun _ => hs) (fun e => Bool.noConfusion e) (fun _ => hd)
  · intro hsrc hdst
    have h := addressOf_storePtr m dst D.zero hdst
    simp only [copyPP, loadPtr_of m src none hsrc, loadPtr_of m dst none hdst, bind,
      Except.bind, pure, Except.pure]
    exact h

/-- Witness of C33: copying the null `*int` at 0 into the null `*int` at 1
leaves at 1 a pointer to the new variable 2, which holds 0. -/
theorem pointer_dest_never_null_witness :
    exStoreNull[0]? = some (.ptr none) ∧ exStoreNull[1]? = some (.ptr none) ∧
    copyPP exFloatConv (.int .int) (.int .int) 1 0 exStoreNull =
      .ok [.ptr none, .ptr (some 2), .val (.int .int 0)] ∧
    ∃ (a : Nat) (w : Value),
      ([.ptr none, .ptr (some 2), .val (.int .int 0)] : Store)[1]? = some (.ptr (some a)) ∧
      ([.ptr none, .ptr (some 2), .val (.int .int 0)] : Store)[a]? = some (.val w) ∧
      w.type = .int .int := by
  have h := (pointer_dest_never_null exFloatConv (.int .int) (.int .int) 1 0 exStoreNull).2.2
    rfl rfl
  have h2 : copyPP exFloatConv (.int .int) (.int .int) 1 0 exStoreNull =
      .ok [.ptr none, .ptr (some 2), .val (.int .int 0)] := h
  exact ⟨rfl, rfl, h2,
    (pointer_dest_never_null exFloatConv (.int .int) (.int .int) 1 0 exStoreNull).1 _
      (Or.inr h2)⟩

theorem writeVal_frame (m m2 : Store) (dst : Nat) (D : Leaf) (v : Value)
    (h : storeVal m dst D v = .ok m2) (a : Nat) (ha : a ≠ dst) : m2[a]? = m[a]? := by
  obtain ⟨_, rfl⟩ := storeVal_ok m m2 dst D v h
  exact List.getElem?_set_ne (Ne.symm ha)

theorem writePtr_frame (m m2 : Store) (dst : Nat) (D : Leaf) (v : Value)
    (h : (do
      let q ← loadPtr m dst
      match q with
      | some a => storeVal m a D v
      | none =>
        let (a, m1) := addressOf m v
        storePtr m1 dst (some a)) = Except.ok m2)
    (a : Nat) (hlt : a < m.length) (ha : a ≠ dst)
    (hq : ∀ q, m[dst]? = some (.ptr (some q)) → a ≠ q) : m2[a]? = m[a]? := by
  simp only [bind, Except.bind] at h
  cases hl : loadPtr m dst with
  | error e => rw [hl] at h; cases h
  | ok q =>
    rw [hl] at h
    have hdst := loadPtr_ok m dst q hl
    cases q with
    | some b =>
      simp only at h
      exact writeVal_frame m m2 b D v h a (hq b hdst)
    | none =>
      simp only at h
      rw [addressOf_storePtr m dst v hdst] at h
      cases h
      rw [List.getElem?_set_ne (Ne.symm ha), List.getElem?_append_left hlt]

theorem funcOf_frame (fc : FloatConv) (sp dp : Bool) (D S : Leaf) (dst src : Nat)
    (m m2 : Store) (h : funcOf fc sp dp D S dst src m = .ok m2)
    (a : Nat) (hlt : a < m.length) (ha : a ≠ dst)
    (hq : ∀ q, m[dst]? = some (.ptr (some q)) → a ≠ q) : m2[a]? = m[a]? := by
  cases sp <;> cases dp
  · obtain ⟨_, v, _, hk⟩ := readVal_typed fc D S m src (fun v => storeVal m dst D v) m2 h
    exact writeVal_frame m m2 dst D v hk a ha
  · obtain ⟨_, v, _, hk⟩ := readVal_typed fc D S m src
      (fun v => do
        let q ← loadPtr m dst
        match q with
        | some a => storeVal m a D v
        | none =>
          let (a, m1) := addressOf m v
          storePtr m1 dst (some a)) m2 h
    exact writePtr_frame m m2 dst D v hk a hlt ha hq
  · obtain ⟨_, v, _, hk⟩ := readPtr_typed fc D S m src (fun v => storeVal m dst D v) m2 h
    exact writeVal_frame m m2 dst D v hk a ha
  · obtain ⟨_, v, _, hk⟩ := readPtr_typed fc D S m src
      (fun v => do
        let q ← loadPtr m dst
        match q with
        | some a => storeVal m a D v
        | none =>
          let (a, m1) := addressOf m v
          storePtr m1 dst (some a)) m2 h
    exact writePtr_frame m m2 dst D v hk a hlt ha hq

/-- C34 (copy functions do not modify their source): for every pair `(D, S)`
and each of the four indirection variants, when the source storage (the
variable at `src` and, for a pointer source, the variable it points to) is
disjoint from the destination storage (the variable at `dst` and, for a
pointer destination, the variable it points to), every run that returns leaves
the variable at `src` and the variable the source pointer points to as they
were, and with storage laid out for a baseline pair the function returns.
For every fallback `copy<n>` of the `sizes` table, every byte outside the `n`
bytes at `dst` is as before; in particular the `n` bytes at `src` when the two
ranges do not overlap. -/
theorem copy_source_unmodified (fc : FloatConv) (sp dp : Bool) (D S : Leaf) (dst src : Nat)
    (m : Store) :
    (∀ m2 : Store, funcOf fc sp dp D S dst src m = .ok m2 →
      src ≠ dst →
      (∀ p, m[src]? = some (.ptr (some p)) → p ≠ dst) →
      (∀ q, m[dst]? = some (.ptr (some q)) →
        q ≠ src ∧ ∀ p, m[src]? = some (.ptr (some p)) → q ≠ p) →
      m2[src]? = m[src]? ∧ ∀ p, m[src]? = some (.ptr (some p)) → m2[p]? = m[p]?) ∧
    (D.convertible S = true →
      (sp = false → ∃ x, m[src]? = some (.val x) ∧ x.type = S) →
      (sp = true → ∃ p, m[src]? = some (.ptr p) ∧
        ∀ a, p = some a → ∃ x, m[a]? = some (.val x) ∧ x.type = S) →
      (dp = false → ∃ old, m[dst]? = some (.val old) ∧ old.type = D) →
      (dp = true → ∃ q, m[dst]? = some (.ptr q) ∧
        ∀ a, q = some a → ∃ old, m[a]? = some (.val old) ∧ old.type = D) →
      ∃ m2, funcOf fc sp dp D S dst src m = .ok m2) ∧
    (∀ (n : Nat), 1 ≤ n → n ≤ 255 → sizes[n - 1]? = some (some (copyN n)) ∧
      ∀ (d s : Nat) (mem : Mem),
        (∀ a, (a < d ∨ d + n ≤ a) → copyN n d s mem a = mem a) ∧
        ((s + n ≤ d ∨ d + n ≤ s) → loadBytes (copyN n d s mem) s n = loadBytes mem s n)) := by
  refine ⟨?_, ?_, ?_⟩
  · intro m2 h hsd hpd hqs
    have hs : ∃ c, m[src]? = some c := by
      cases sp
      · obtain ⟨x, hx, _⟩ := (funcOf_typed fc false dp D S dst src m m2 h).1 rfl
        exact ⟨_, hx⟩
      · obtain ⟨p, hp, _⟩ := (funcOf_typed fc true dp D S dst src m m2 h).2.1 rfl
        exact ⟨_, hp⟩
    obtain ⟨c, hc⟩ := hs
    constructor
    · exact funcOf_frame fc sp dp D S dst src m m2 h src (getElem?_lt_of_some m src c hc) hsd
        (fun q hq => Ne.symm (hqs q hq).1)
    · intro p hp
      have hpx : ∃ x, m[p]? = some (.val x) := by
        cases sp
        · obtain ⟨x, hx, _⟩ := (funcOf_typed fc false dp D S dst src m m2 h).1 rfl
          rw [hp] at hx
          cases hx
        · obtain ⟨p2, hp2, hpt⟩ := (funcOf_typed fc true dp D S dst src m m2 h).2.1 rfl
          rw [hp] at hp2
          cases hp2
          obtain ⟨x, hx, _⟩ := hpt p rfl
          exact ⟨x, hx⟩
      obtain ⟨x, hx⟩ := hpx
      exact funcOf_frame fc sp dp D S dst src m m2 h p (getElem?_lt_of_some m p _ hx)
        (hpd p hp) (fun q hq => Ne.symm ((hqs q hq).2 p hp))
  · intro hc hs1 hs2 hd1 hd2
    exact funcOf_returns fc sp dp D S dst src m hc hs1 hs2 hd1 hd2
  · intro n h1 h2
    refine ⟨sizes_getElem n h1 h2, ?_⟩
    intro d s mem
    refine ⟨fun a ha => copyN_outside n d s mem a ha, ?_⟩
    intro hdis
    unfold loadBytes
    apply List.map_congr_left
    intro (i : Nat) hi
    have hi2 : i < n := List.mem_range.1 hi
    apply copyN_outside
    omega

/-- Witness of C34: `copyPIntToPInt` with the source pointer at 2 (pointing to
the variable 0, which holds 7) and the destination pointer at 3 (pointing to
the variable 1) writes 7 to the variable 1 and leaves the variables 2 and 0
unchanged; `copy8` from address 16 to address 0 leaves the bytes at 16
unchanged. -/
theorem copy_source_unmodified_witness :
    funcOf exFloatConv true true (.int .int) (.int .int) 3 2 exStoreTwoPtr =
      .ok [.val (.int .int 7), .val (.int .int 7), .ptr (some 0), .ptr (some 1)] ∧
    ([.val (.int .int 7), .val (.int .int 7), .ptr (some 0), .ptr (some 1)] : Store)[2]? =
      exStoreTwoPtr[2]? ∧
    ([.val (.int .int 7), .val (.int .int 7), .ptr (some 0), .ptr (some 1)] : Store)[0]? =
      exStoreTwoPtr[0]? ∧
    loadBytes (copyN 8 0 16 exMem) 16 8 = loadBytes exMem 16 8 := by
  have hrun : funcOf exFloatConv true true (.int .int) (.int .int) 3 2 exStoreTwoPtr =
      .ok [.val (.int .int 7), .val (.int .int 7), .ptr (some 0), .ptr (some 1)] := by
    have hv : convert exFloatConv (.int .int) (.int .int 7) = some (.int .int 7) := by
      simp only [convert, convInt, IntType.ofPattern, IntType.pattern, IntType.signed,
        IntType.bits]
      norm_num
    have h1 : loadPtr exStoreTwoPtr 2 = .ok (some 0) := rfl
    have h2 : loadVal exStoreTwoPtr 0 (.int .int) = .ok (.int .int 7) := by
      simp [loadVal, exStoreTwoPtr, Value.type]
    have h3 : loadPtr exStoreTwoPtr 3 = .ok (some 1) := rfl
    have h4 : storeVal exStoreTwoPtr 1 (.int .int) (.int .int 7) =
        .ok [.val (.int .int 7), .val (.int .int 7), .ptr (some 0), .ptr (some 1)] := by
      simp [storeVal, exStoreTwoPtr, Value.type]
    simp only [funcOf, copyPP, h1, h2, conv, hv, h3, h4, bind, Except.bind]
  have h := (copy_source_unmodified exFloatConv true true (.int .int) (.int .int) 3 2
    exStoreTwoPtr).1 _ hrun (by decide)
    (fun p hp => by
      have e : p = 0 := by
        have : (some (Cell.ptr (some 0)) : Option Cell) = some (.ptr (some p)) := hp
        cases this
        rfl
      rw [e]
      decide)
    (fun q hq => by
      have e : q = 1 := by
        have : (some (Cell.ptr (some 1)) : Option Cell) = some (.ptr (some q)) := hq
        cases this
        rfl
      rw [e]
      refine ⟨by decide, fun p hp => ?_⟩
      have e2 : p = 0 := by
        have : (some (Cell.ptr (some 0)) : Option Cell) = some (.ptr (some p)) := hp
        cases this
        rfl
      rw [e2]
      decide)
  have hb := ((copy_source_unmodified exFloatConv true true (.int .int) (.int .int) 3 2
    exStoreTwoPtr).2.2 8 (by decide) (by decide)).2 0 16 exMem
  exact ⟨hrun, h.1, h.2 0 rfl, hb.2 (Or.inr (by decide))⟩

theorem copyPP_writes_through (fc : FloatConv) (D S : Leaf) (dst src q : Nat) (m m2 : Store)
    (hdst : m[dst]? = some (.ptr (some q))) (h : copyPP fc D S dst src m = .ok m2) :
    m2[dst]? = some (.ptr (some q)) ∧ ∃ w, m2[q]? = some (.val w) ∧ w.type = D := by
  obtain ⟨_, v, hv, hk⟩ := readPtr_typed fc D S m src
    (fun v => do
      let q ← loadPtr m dst
      match q with
      | some a => storeVal m a D v
      | none =>
        let (a, m1) := addressOf m v
        storePtr m1 dst (some a)) m2 h
  simp only [bind, Except.bind, loadPtr_of m dst (some q) hdst] at hk
  obtain ⟨⟨old, hold, _⟩, rfl⟩ := storeVal_ok m m2 q D v hk
  have hne : q ≠ dst := by
    intro e
    rw [e, hdst] at hold
    cases hold
  refine ⟨?_, v, ?_, hv⟩
  · rw [List.getElem?_set_ne hne, hdst]
  · simp [List.getElem?_set, getElem?_lt_of_some m q _ hold]

theorem loadBytes_copyN (n dst src : Nat) (mem : Mem) :
    loadBytes (copyN n dst src mem) dst n = loadBytes mem src n := by
  unfold loadBytes
  apply List.map_congr_left
  intro (i : Nat) hi
  exact copyN_inside n dst src mem i (List.mem_range.1 hi)

/-- C35 (the fallback on an unregistered pointer type copies the pointer): for
every pointer type `P = *T` (of pointer size 8) without an entry for `(P, P)`
in the start-up map, `Get(P, P)` returns the 8-byte copy `copy8`.  After
`copy8` the 8 bytes at `dst`, which are the pointer variable at `dst`, are the
8 bytes that were at `src`, and every byte outside the pointer variable at
`dst` is as before, so nothing is written through the pointer that `dst` held.
In contrast a registered `copyP<S>ToP<D>` that finds a non-null pointer at
`dst` keeps that pointer and writes to the variable it points to. -/
theorem fallback_pointer_copies_pointer (fc : FloatConv) (n : String) (T : RType)
    (hno : mapIndex (funcs fc).funcs { Src := .ptr n 8 T, Dest := .ptr n 8 T } = none) :
    (funcs fc).Get (.ptr n 8 T) (.ptr n 8 T) = .ok (some (Func.raw (copyN 8))) ∧
    (∀ (dst src : Nat) (mem : Mem),
      loadBytes (copyN 8 dst src mem) dst 8 = loadBytes mem src 8 ∧
      ∀ a, (a < dst ∨ dst + 8 ≤ a) → copyN 8 dst src mem a = mem a) ∧
    (∀ (D S : Leaf) (dst src q : Nat) (m m2 : Store),
      m[dst]? = some (.ptr (some q)) → copyPP fc D S dst src m = .ok m2 →
      m2[dst]? = some (.ptr (some q)) ∧ ∃ w, m2[q]? = some (.val w) ∧ w.type = D) := by
  refine ⟨?_, ?_, ?_⟩
  · obtain ⟨g, hg, hget⟩ := Get_noEntry_same (funcs fc) _ _ hno rfl (by simp [RType.Kind])
      (Or.inl rfl) rfl (by simp [RType.Size])
      (by rw [funcs_sizes_length]; simp [RType.Size])
    have h8 : (funcs fc).sizes[8 - 1]? = some (some (Func.raw (copyN 8))) :=
      funcs_sizes_getElem fc 8 (by decide) (by decide)
    have hg2 : g = some (Func.raw (copyN 8)) := by
      have : (funcs fc).sizes[8 - 1]? = some g := hg
      rw [h8] at this
      exact (Option.some.inj this).symm
    rw [hget, hg2]
  · intro dst src mem
    exact ⟨loadBytes_copyN 8 dst src mem, fun a ha => copyN_outside 8 dst src mem a ha⟩
  · intro D S dst src q m m2 hdst h
    exact copyPP_writes_through fc D S dst src q m m2 hdst h

/-- Witness of C35: for the struct type `P`, the pair `(*P, *P)` has no entry
in the start-up map and `Get(*P, *P)` returns `copy8`; `copy8` from address 16
to address 0 leaves at 0 the eight bytes 16 .. 23 of the example memory. -/
theorem fallback_pointer_copies_pointer_witness :
    mapIndex (funcs exFloatConv).funcs { Src := exPtrStructP, Dest := exPtrStructP } = none ∧
    (funcs exFloatConv).Get exPtrStructP exPtrStructP = .ok (some (Func.raw (copyN 8))) ∧
    loadBytes (copyN 8 0 16 exMem) 0 8 = loadBytes exMem 16 8 := by
  have hno : mapIndex (funcs exFloatConv).funcs
      { Src := exPtrStructP, Dest := exPtrStructP } = none := by
    apply mapIndex_not_baseline
    intro sp dp D S _ h
    simp only [keyOf, funcKey.mk.injEq] at h
    have hs := h.1
    cases sp
    · have hk := typeOf_kind_ne_ptr S
      simp only [sideType, Bool.false_eq_true, if_false] at hs
      rw [hs] at hk
      exact hk rfl
    · simp only [sideType, typeOfPointer, if_true, exPtrStructP, RType.ptr.injEq] at hs
      have hall : ∀ L : Leaf, typeOf L ≠ exStructP := by decide
      exact hall S hs.2.2
  have h := fallback_pointer_copies_pointer exFloatConv "" exStructP hno
  exact ⟨hno, h.1, (h.2.1 0 16 exMem).1⟩

/-- C36 (the package functions act on the global registry): for every content
`g` of the package variable `funcs` and all arguments, the package function
`Get` returns what the method `Get` of `g` returns and leaves `g` as it is,
the package function `Set` leaves the registry that the method `Set` of `g`
gives, and a function stored through the package `Set` is returned by a
following package `Get` for the same pair. -/
theorem package_Get_Set (g : CopyFuncs Func) (dst src : RType) (f : Option Func) :
    Get dst src g = (g.Get dst src).map (fun r => (r, g)) ∧
    Set dst src f g = g.Set dst src f ∧
    (∀ h : Func, f = some h →
      Get dst src (Set dst src f g) = .ok (some h, Set dst src f g)) ∧
    (∀ (d2 s2 : RType), (d2 ≠ dst ∨ s2 ≠ src) →
      Get d2 s2 (Set dst src f g) =
        (g.Get d2 s2).map (fun r => (r, Set dst src f g))) := by
  refine ⟨GetStep_eq g dst src, rfl, ?_, ?_⟩
  · intro h hf
    subst hf
    have hm : mapIndex (g.Set dst src (some h)).funcs { Src := src, Dest := dst } = some h := by
      simp [CopyFuncs.Set, mapIndex_mapAssign]
    simp only [Get, Set, GetStep_eq, Get_of_entry _ dst src h hm]
    rfl
  · intro d2 s2 hne
    have hm : mapIndex (g.Set dst src f).funcs { Src := s2, Dest := d2 } =
        mapIndex g.funcs { Src := s2, Dest := d2 } := by
      have hk : ({ Src := s2, Dest := d2 } : funcKey) ≠ { Src := src, Dest := dst } := by
        intro e
        simp only [funcKey.mk.injEq] at e
        rcases hne with h1 | h1
        · exact h1 e.2
        · exact h1 e.1
      simp [CopyFuncs.Set, mapIndex_mapAssign, hk]
    simp only [Get, Set, GetStep_eq, Get_congr (g.Set dst src f) g d2 s2 hm rfl]

/-- Witness of C36: on the start-up registry the package `Get` returns
`copyIntToInt` for `(int, int)`, and after the package `Set` has stored `copy4`
for `(*P, *P)` the package `Get` returns `copy4` for that pair. -/
theorem package_Get_Set_witness :
    Get (typeOf (.int .int)) (typeOf (.int .int)) (funcs exFloatConv) =
      .ok (some (Func.base (copyVV exFloatConv (.int .int) (.int .int))), funcs exFloatConv) ∧
    Get exPtrStructP exPtrStructP
        (Set exPtrStructP exPtrStructP (some (Func.raw (copyN 4))) (funcs exFloatConv)) =
      .ok (some (Func.raw (copyN 4)),
        Set exPtrStructP exPtrStructP (some (Func.raw (copyN 4))) (funcs exFloatConv)) := by
  constructor
  · rw [(package_Get_Set (funcs exFloatConv) (typeOf (.int .int)) (typeOf (.int .int)) none).1,
      show (funcs exFloatConv).Get (typeOf (.int .int)) (typeOf (.int .int)) = _ from
        Get_baseline exFloatConv false false (.int .int) (.int .int) rfl]
    rfl
  · exact (package_Get_Set (funcs exFloatConv) exPtrStructP exPtrStructP
      (some (Func.raw (copyN 4)))).2.2.1 _ rfl

end funcs
